import Mathlib

/-!
Verification of the Fillomino implementation in `filling.c` (sgtpuzzles).

The definitions below are a shallow embedding of the game-generation and
solving core of `filling.c`: the board generator (`make_board` /
`validate_board`), the forced-deduction solver (`solver`, `expand`, `flood`,
`count`, `expandsize`, `merge`), the description validator (`validate_desc`)
and the move executor (`execute_move`).  Machine integers are modelled as
`Int`/`Nat` (all quantities involved stay far from 32-bit overflow on the
inputs considered), C arrays as Lean lists, and the recursive flood fill and
the unbounded generation loops by explicitly fuelled recursion with enough
fuel that the fuelled function agrees with the C recursion wherever the C
recursion terminates.
-/

namespace Filling

/-- The four neighbour x-offsets (the source's `dx` array). -/
def dxs : List Int := [-1, 1, 0, 0]

/-- The four neighbour y-offsets (the source's `dy` array). -/
def dys : List Int := [0, 0, -1, 1]

/-- Neighbour of cell `i` in direction `j` on a `w`×`h` grid, with the
    bounds check of the source (`x = i%w + dx[j]`, `y = i/w + dy[j]`,
    rejected unless `0 ≤ x < w` and `0 ≤ y < h`, else cell `w*y + x`). -/
def neighbor (w h i j : Nat) : Option Nat :=
  let x : Int := ((i % w : Nat) : Int) + dxs.getD j 0
  let y : Int := ((i / w : Nat) : Int) + dys.getD j 0
  if 0 ≤ x ∧ x < (w : Int) ∧ 0 ≤ y ∧ y < (h : Int) then
    some ((w : Int) * y + x).toNat
  else none

/-- Modelled from the spec: `filling.c` uses the puzzles library's
    disjoint-set structure (`snew_dsf`, `dsf_canonify`, `dsf_size`,
    `dsf_merge`, `dsf_init`), whose source is not part of this repository's
    sources.  Spec §4.1: `make(n)` gives `n` singleton sets; `canonify` is a
    total representative lookup; `size` counts the cells of a set; `merge`
    unifies two sets (a no-op when already unified, sizes summed otherwise);
    the union policy is an implementation freedom callers may not rely on.
    We keep, for every index, its canonical representative directly
    (path compression is observationally invisible), plus a size per root;
    on a merge the root of the larger set survives, the first argument's
    root on ties (the policy of the library's union-by-size merge). -/
structure DSF where
  n : Nat
  rep : List Nat
  siz : List Nat
deriving Repr, DecidableEq

/-- `snew_dsf n` / `dsf_init`: n singleton sets. -/
def dsfInit (n : Nat) : DSF :=
  ⟨n, List.range n, List.replicate n 1⟩

/-- `dsf_canonify`. -/
def DSF.canon (d : DSF) (i : Nat) : Nat := d.rep.getD i i

/-- `dsf_size` (canonifies its argument, as the library does). -/
def DSF.size (d : DSF) (i : Nat) : Nat := d.siz.getD (d.canon i) 0

/-- `dsf_merge`. -/
def DSF.merge (d : DSF) (a b : Nat) : DSF :=
  let ra := d.canon a
  let rb := d.canon b
  if ra = rb then d
  else
    let keep := if d.siz.getD ra 0 < d.siz.getD rb 0 then rb else ra
    let absorb := if d.siz.getD ra 0 < d.siz.getD rb 0 then ra else rb
    ⟨d.n, d.rep.map fun r => if r = absorb then keep else r,
      d.siz.set keep (d.siz.getD keep 0 + d.siz.getD absorb 0)⟩

/-- `make_dsf`: union-find of the maximal equal-valued regions of a board
    (merges every orthogonally adjacent pair of equal-valued cells). -/
def makeDsf (board : List Int) (w h : Nat) : DSF :=
  (List.range (w * h)).foldl
    (fun d i =>
      (List.range 4).foldl
        (fun d j =>
          match neighbor w h i j with
          | some k => if board.getD i 0 = board.getD k 0 then d.merge i k else d
          | none => d)
        d)
    (dsfInit (w * h))

/-- The recursive destructive-mark flood fill `flood`, made total with a
    fuel argument.  A call recurses into its neighbours only after changing
    its cell from a recursion-enabling value (`EMPTY` or `n`) to a mark that
    no later call recurses on again, so any chain of recursing calls changes
    pairwise distinct (cell, old-value) pairs and each cell can appear in at
    most two such pairs; with fuel `2*w*h + 2` the fuelled function therefore
    agrees with the C recursion everywhere the latter terminates. -/
def floodF : Nat → List Int → Nat → Nat → Nat → Int → List Int
  | 0, board, _, _, _, _ => board
  | fuel + 1, board, w, h, i, n =>
    let v := board.getD i 0
    if v = 0 ∨ v = n then
      let board1 := board.set i (if v = 0 then -((w * h : Nat) : Int) else -v)
      (List.range 4).foldl
        (fun b j =>
          match neighbor w h i j with
          | some idx => floodF fuel b w h idx n
          | none => b)
        board1
    else board

/-- `count_and_clear`: count the marked (negative) cells minus one, and
    unmark them (`-SENTINEL` back to `EMPTY`, other marks back to their
    positive value). -/
def countAndClear (sz : Nat) (board : List Int) : Int × List Int :=
  (board.foldl (fun c v => if v < 0 then c + 1 else c) (-1 : Int),
   board.map fun v => if v < 0 then (if v = -(sz : Int) then 0 else -v) else v)

/-- Fuel that always suffices for `floodF` (see its docstring). -/
def floodFuel (w h : Nat) : Nat := 2 * (w * h) + 2

/-- `count`: flood from `i` through cells valued `board[i]` or empty,
    return the mark count minus one together with the unmarked board. -/
def count (board : List Int) (w h i : Nat) : Int × List Int :=
  countAndClear (w * h) (floodF (floodFuel w h) board w h i (board.getD i 0))

/-- `expandsize`: 1 (for cell `i` itself) plus the sizes of the distinct
    union-find sets of the neighbours of `i` currently valued `n`. -/
def expandsize (board : List Int) (d : DSF) (w h i : Nat) (n : Int) : Int :=
  ((List.range 4).foldl
    (fun (acc : Int × List Nat) j =>
      match neighbor w h i j with
      | some idx =>
        if board.getD idx 0 ≠ n then acc
        else
          let root := d.canon idx
          if root ∈ acc.2 then acc
          else (acc.1 + (d.size root : Int), acc.2 ++ [root])
      | none => acc)
    ((1 : Int), ([] : List Nat))).1

/-- The solver's `merge` helper: canonify both cells, and unless already
    unified merge the union-find sets and splice the two iteration rings by
    swapping the successors of the two roots. -/
def mergeConn (d : DSF) (conn : List Nat) (a b : Nat) : DSF × List Nat :=
  let ra := d.canon a
  let rb := d.canon b
  if ra = rb then (d, conn)
  else (d.merge ra rb, (conn.set ra (conn.getD rb 0)).set rb (conn.getD ra 0))

/-- The solver's working state: board copy, union-find, iteration ring,
    empty-cell counter and per-pass progress flag. -/
structure SState where
  board : List Int
  dsf : DSF
  conn : List Nat
  nempty : Int
  learn : Bool
deriving Repr, DecidableEq

/-- `expand`: put `board[src]`'s value into the empty cell `dst`, merge
    `dst` with every equal-valued neighbour, decrement the empty counter and
    record progress. -/
def expandCell (s : SState) (w h dst src : Nat) : SState :=
  let b1 := s.board.set dst (s.board.getD src 0)
  let dc := (List.range 4).foldl
    (fun (p : DSF × List Nat) j =>
      match neighbor w h dst j with
      | some idx =>
        if b1.getD idx 0 = b1.getD dst 0 then mergeConn p.1 p.2 dst idx else p
      | none => p)
    (s.dsf, s.conn)
  ⟨b1, dc.1, dc.2, s.nempty - 1, true⟩

/-- The neighbour loop of the solver's empty-cell branch (`for (k = 0; ...)`
    at the top of the big `for` body).  Returns the state, the final value of
    the `one` flag, and whether an `EXPAND` happened (i.e. the C loop exited
    by `break`, leaving `k < 4`). -/
def emptyKLoop (w h i : Nat) : List Nat → SState → Bool → SState × Bool × Bool
  | [], s, one => (s, one, false)
  | k :: ks, s, one =>
    match neighbor w h i k with
    | none => emptyKLoop w h i ks s one
    | some idx =>
      let v := s.board.getD idx 0
      if v = 0 then emptyKLoop w h i ks s false
      else
        let one1 := one && !(v == 1 || decide (expandsize s.board s.dsf w h i v ≤ v))
        let nc := count (s.board.set i (-((w * h : Nat) : Int))) w h idx
        if nc.2.getD idx 0 ≤ nc.1 then emptyKLoop w h i ks { s with board := nc.2 } one1
        else (expandCell { s with board := nc.2 } w h i idx, one1, true)

/-- The whole empty-cell branch: run the neighbour loop and, when it ran to
    completion (`k == 4`) with the `one` flag still set, drop in a 1. -/
def emptyCellCase (w h i : Nat) (s : SState) : SState :=
  let r := emptyKLoop w h i [0, 1, 2, 3] s true
  if r.2.2 then r.1
  else if r.2.1 then
    { r.1 with board := r.1.board.set i 1, nempty := r.1.nempty - 1, learn := true }
  else r.1

/-- The neighbour scan of the region-growth branch for one ring member `j`:
    accumulate the unique expansion candidate; `none` is returned on the
    second distinct candidate (the C `goto next_i`). -/
def dirScan (board : List Int) (d : DSF) (w h j : Nat) :
    List Nat → Option Nat → Option (Option Nat)
  | [], exp => some exp
  | k :: ks, exp =>
    match neighbor w h j k with
    | none => dirScan board d w h j ks exp
    | some idx =>
      if board.getD idx 0 ≠ 0 then dirScan board d w h j ks exp
      else if exp = some idx then dirScan board d w h j ks exp
      else if board.getD j 0 < expandsize board d w h idx (board.getD j 0) then
        dirScan board d w h j ks exp
      else
        match exp with
        | some _ => none
        | none => dirScan board d w h j ks (some idx)

/-- The ring traversal of the region-growth branch (`do { ... } while (j != i)`),
    fuelled by the ring length bound `w*h` (the ring is a permutation cycle,
    so it returns to `i` within `w*h` steps). -/
def ringScan (board : List Int) (d : DSF) (conn : List Nat) (w h i : Nat) :
    Nat → Nat → Option Nat → Option (Option Nat)
  | 0, _, exp => some exp
  | fuel + 1, j, exp =>
    match dirScan board d w h j [0, 1, 2, 3] exp with
    | none => none
    | some exp1 =>
      let j1 := conn.getD j j
      if j1 = i then some exp1
      else ringScan board d conn w h i fuel j1 exp1

/-- The region-growth branch of the solver for a non-empty cell `i`:
    only canonical representatives of incomplete regions act; when the ring
    scan yields a unique candidate, expand onto it. -/
def regionCase (w h i : Nat) (s : SState) : SState :=
  let j := s.dsf.canon i
  if i ≠ j then s
  else if (s.dsf.size j : Int) = s.board.getD j 0 then s
  else
    match ringScan s.board s.dsf s.conn w h i (w * h) i none with
    | none => s
    | some none => s
    | some (some exp) => expandCell s w h exp i

/-- One iteration of the solver's big `for (i = 0; i < sz; ++i)` body. -/
def cellStep (w h : Nat) (s : SState) (i : Nat) : SState :=
  if s.board.getD i 0 = 0 then emptyCellCase w h i s else regionCase w h i s

/-- One full pass of the solver's deduction loop (`learn` reset, then the
    big `for` over all cells). -/
def onePass (w h : Nat) (s : SState) : SState :=
  (List.range (w * h)).foldl (cellStep w h) { s with learn := false }

/-- One step of the solver's initialisation: count the cell if empty,
    otherwise merge it with every equal-valued neighbour. -/
def solverInitStep (w h : Nat) (s : SState) (i : Nat) : SState :=
  if s.board.getD i 0 = 0 then { s with nempty := s.nempty + 1 }
  else
    (List.range 4).foldl
      (fun s j =>
        match neighbor w h i j with
        | some idx =>
          if s.board.getD i 0 = s.board.getD idx 0 then
            let dc := mergeConn s.dsf s.conn i idx
            { s with dsf := dc.1, conn := dc.2 }
          else s
        | none => s)
      s

/-- The solver's initialisation loop over all cells. -/
def solverInit (orig : List Int) (w h : Nat) : SState :=
  let sz := w * h
  (List.range sz).foldl (solverInitStep w h) ⟨orig, dsfInit sz, List.range sz, 0, false⟩

/-- The solver's `do { ... } while (learn && nempty)` loop, fuelled. -/
def solverLoop (w h : Nat) : Nat → SState → SState
  | 0, s => s
  | fuel + 1, s =>
    let s1 := onePass w h s
    if s1.learn && !(s1.nempty == 0) then solverLoop w h fuel s1 else s1

/-- `solver`: returns `!nempty` (success iff the empty counter reached zero)
    together with the final board.  The loop fuel `w*h + 1` covers every run
    in which each learning pass consumes at least one unit of the counter,
    which starts at the number of empty cells `≤ w*h`. -/
def solver (orig : List Int) (w h : Nat) : Bool × List Int :=
  let s := solverLoop w h (w * h + 1) (solverInit orig w h)
  (s.nempty == 0, s.board)

/-- Decode a game description (digit characters) into a board, as
    `new_game` does (`desc[i] - '0'`). -/
def decodeDesc (s : String) : List Int :=
  s.toList.map fun c => ((c.toNat : Int) - 48)

/-- Encode a board as digit characters, as `new_game_desc` and the solution
    artifact do (`board[i] + '0'`). -/
def encodeBoard (b : List Int) : List Char :=
  b.map fun v => Char.ofNat (v + 48).toNat

/-- `isdigit` on an ASCII character. -/
def isdigitChar (c : Char) : Bool := 48 ≤ c.toNat && c.toNat ≤ 57

/-- Read the `i`-th character of a C string (NUL when reading at or past the
    terminator). -/
def charAtC (s : List Char) (i : Nat) : Char := s.getD i (Char.ofNat 0)

/-- The loop of `validate_desc` (`for (i = 0; desc[i] && i < sz; ++i)`),
    with its checks exactly as written in the source: the digit test is
    applied to `*desc` — the first character — on every iteration, while the
    size-bound test `desc[i] > m` is applied to the `i`-th character.  The
    fuel starts at `sz + 1`, enough for the `i < sz` bound to stop the loop. -/
def validateDescGo (sz m : Nat) (desc : List Char) : Nat → Nat → Option String
  | 0, _ => none
  | fuel + 1, i =>
    if charAtC desc i ≠ Char.ofNat 0 ∧ i < sz then
      if ¬ isdigitChar (charAtC desc 0) then some "non-digit in string"
      else if m < (charAtC desc i).toNat then some "too large digit in string"
      else validateDescGo sz m desc fuel (i + 1)
    else if charAtC desc i ≠ Char.ofNat 0 then some "string too long"
    else if i < sz then some "string too short"
    else none

/-- `validate_desc`: `m = '0' + max(max(w,h),3)` (no clamping at 9 in the
    code), then the scan above; returns an error message, or `none` for a
    valid description. -/
def validateDesc (w h : Nat) (desc : List Char) : Option String :=
  validateDescGo (w * h) (48 + max (max w h) 3) desc (w * h + 1) 0

/-- ASCII whitespace skipped by `strtol` (space, \t, \n, \v, \f, \r). -/
def isSpaceC (c : Char) : Bool :=
  c.toNat = 32 || c.toNat = 9 || c.toNat = 10 || c.toNat = 11 ||
  c.toNat = 12 || c.toNat = 13

/-- Value of a character as a digit in bases up to 36 (`strtol` digits). -/
def digitVal (c : Char) : Option Nat :=
  if 48 ≤ c.toNat ∧ c.toNat ≤ 57 then some (c.toNat - 48)
  else if 65 ≤ c.toNat ∧ c.toNat ≤ 90 then some (c.toNat - 55)
  else if 97 ≤ c.toNat ∧ c.toNat ≤ 122 then some (c.toNat - 87)
  else none

/-- The longest prefix of digits valid in `base`, with the rest. -/
def takeDigits (base : Nat) : List Char → List Nat × List Char
  | [] => ([], [])
  | c :: cs =>
    match digitVal c with
    | some v =>
      if v < base then
        let r := takeDigits base cs
        (v :: r.1, r.2)
      else ([], c :: cs)
    | none => ([], c :: cs)

/-- Does the list start with a hexadecimal digit? -/
def isHexStart : List Char → Bool
  | d :: _ =>
    match digitVal d with
    | some v => decide (v < 16)
    | none => false
  | [] => false

/-- Modelled from the spec: `execute_move` parses its numbers with the C
    library's `strtol`, which is not part of this repository's sources.  The
    base argument the code passes is `errno = 0` for the first call and `0`
    for the second — both have the value 0, so standard base detection
    applies: optional whitespace, optional sign, a `0x`/`0X` prefix followed
    by a hex digit selects base 16, a leading `0` selects base 8, otherwise
    base 10.  Returns the parsed value (clamped to `LONG_MAX`/`LONG_MIN` of
    an LP64 platform on overflow), the rest of the string after the number,
    whether any digits were consumed (i.e. `endptr` moved past `nptr`; on no
    conversion `endptr` is reset to `nptr`), and whether `ERANGE` was set. -/
def strtol0 (s : List Char) : Int × List Char × Bool × Bool :=
  let s1 := s.dropWhile isSpaceC
  let sgn : Bool × List Char :=
    match s1 with
    | c :: t =>
      if c = '-' then (true, t) else if c = '+' then (false, t) else (false, s1)
    | [] => (false, [])
  let s2 := sgn.2
  let bt : Nat × List Char :=
    match s2 with
    | c0 :: c1 :: t =>
      if c0 = '0' ∧ (c1 = 'x' ∨ c1 = 'X') ∧ isHexStart t then (16, t)
      else if c0 = '0' then (8, s2)
      else (10, s2)
    | [c0] => if c0 = '0' then (8, s2) else (10, s2)
    | [] => (10, [])
  let td := takeDigits bt.1 bt.2
  if td.1.isEmpty then (0, s, false, false)
  else
    let mag : Nat := td.1.foldl (fun a d => a * bt.1 + d) 0
    let raw : Int := if sgn.1 then -(mag : Int) else (mag : Int)
    if (2 ^ 63 - 1 : Int) < raw then (2 ^ 63 - 1, td.2, true, true)
    else if raw < -(2 ^ 63 : Int) then (-(2 ^ 63), td.2, true, true)
    else (raw, td.2, true, false)

/-- The game state as far as `execute_move` observes it: parameters, the
    shared clue array, the current board, and the two flags. -/
structure GState where
  w : Nat
  h : Nat
  clues : List Int
  board : List Int
  completed : Bool
  cheated : Bool
deriving Repr, DecidableEq

/-- The write `new_state->board[i] = value`.  A negative or too large `i`
    is an out-of-bounds write — undefined behaviour in the C — modelled
    here as a no-op. -/
def boardWrite (b : List Int) (i v : Int) : List Int :=
  if 0 ≤ i then b.set i.toNat v else b

/-- The completion check at the end of `execute_move`: completed once every
    cell's value equals the size of its equal-valued region. -/
def checkComplete (st : GState) : GState :=
  if st.completed then st
  else if (List.range (st.w * st.h)).all
      (fun i => st.board.getD i 0 == ((makeDsf st.board st.w st.h).size i : Int)) then
    { st with completed := true }
  else st

/-- `execute_move`: the solution-string path (tag 's') and the single-cell
    path `<index>_<value>`, with exactly the source's rejection tests
    (`ERANGE` from the first parse, `endptr == move`, `*endptr != '_'`,
    no digits in the value, trailing characters).  No range test is applied
    to either number. -/
def executeMove (st : GState) (mv : List Char) : Option GState :=
  match mv with
  | 's' :: t =>
    some (checkComplete { st with
      board := (List.range (st.w * st.h)).map
        (fun i => ((charAtC t i).toNat : Int) - 48),
      cheated := true })
  | _ =>
    let r1 := strtol0 mv
    if r1.2.2.2 then none
    else if !r1.2.2.1 then none
    else
      match r1.2.1 with
      | '_' :: t2 =>
        let r2 := strtol0 t2
        if !r2.2.2.1 then none
        else if !r2.2.1.isEmpty then none
        else some (checkComplete { st with board := boardWrite st.board r1.1 r2.1 })
      | _ => none

/-- One direction of `validate_board`'s per-cell scan: record a conflict
    `(aa, bb)` whenever the distinct neighbouring set `bb` has the same
    size as `aa = canon cell` (later conflicting neighbours overwrite
    earlier ones), and record as third set the first distinct neighbouring
    set whose size differs. -/
def scanStep (d : DSF) (w h cell : Nat) (acc : Option (Nat × Nat) × Option Nat)
    (j : Nat) : Option (Nat × Nat) × Option Nat :=
  match neighbor w h cell j with
  | none => acc
  | some nb =>
    let aa := d.canon cell
    let bb := d.canon nb
    if aa = bb then acc
    else if d.size aa = d.size bb then (some (aa, bb), acc.2)
    else if acc.2 = none then (acc.1, some bb)
    else acc

/-- One cell of the scan assembled: a recorded conflict `(aa, bb)` becomes
    the output together with the third set of the accumulator. -/
def scanCell (d : DSF) (w h cell : Nat) : Option (Nat × Nat × Option Nat) :=
  match (List.range 4).foldl (scanStep d w h cell) (none, none) with
  | (some ab, cc) => some (ab.1, ab.2, cc)
  | (none, _) => none

/-- `validate_board`: scan the cells in the order of the (shuffled) array
    `sq`; the first cell whose scan records a conflict determines the
    output `(a, b, c)`; no conflict anywhere means the board is valid. -/
def validateBoard (d : DSF) (w h : Nat) (sq : List Nat) :
    Option (Nat × Nat × Option Nat) :=
  sq.findSome? (fun cell => scanCell d w h cell)

/-- `min(max(max(w,h),3),9)`, the generator's region-size cap. -/
def maxsizeOf (w h : Nat) : Nat := min (max (max w h) 3) 9

/-- The inner repair loop of `make_board`: validate; on a conflict merge
    `a` with the third set when present, otherwise with `b`; abandon the
    attempt (`none`) when the merged set exceeds the cap; on a conflict-free
    scan produce the board of set sizes.  Fuelled: each iteration merges two
    distinct sets, so `w*h + 1` fuel is never exhausted in a real run. -/
def attemptLoop (w h maxsize : Nat) (sq : List Nat) : Nat → DSF → Option (List Int)
  | 0, _ => none
  | fuel + 1, d =>
    match validateBoard d w h sq with
    | none => some ((List.range (w * h)).map (fun i => (d.size i : Int)))
    | some abc =>
      let a1 := d.canon abc.1
      let d1 := d.merge a1 (match abc.2.2 with | none => abc.2.1 | some cc => cc)
      if maxsize < d1.size a1 then none
      else attemptLoop w h maxsize sq fuel d1

/-- `make_board`, with the randomness supplied as an oracle: `perms k` is
    the contents of the shuffled priority array for attempt `k` (modelled
    from the spec: `shuffle` of the puzzles library is not part of this
    repository's sources; it produces a random permutation of `0..sz-1`).
    Each attempt starts from a freshly initialised union-find; a failed
    attempt (size cap exceeded) moves to the next shuffle.  Fuelled by the
    number of attempts; the C loops until success. -/
def makeBoardGo (w h maxsize : Nat) (perms : Nat → List Nat) :
    Nat → Nat → Option (List Int)
  | 0, _ => none
  | fuel + 1, k =>
    match attemptLoop w h maxsize (perms k) (w * h + 1) (dsfInit (w * h)) with
    | some b => some b
    | none => makeBoardGo w h maxsize perms fuel (k + 1)

/-- `make_board` proper. -/
def makeBoard (w h : Nat) (perms : Nat → List Nat) (fuel : Nat) : Option (List Int) :=
  makeBoardGo w h (maxsizeOf w h) perms fuel 0

/-- The clue-removal pass of `new_game_desc`: blank each cell in the given
    order, keep the blank when the solver still succeeds, otherwise restore
    the full board's value. -/
def builderPass (w h : Nat) (board : List Int) (order : List Nat) : List Int :=
  order.foldl
    (fun sb i =>
      let sb1 := sb.set i 0
      if (solver sb1 w h).1 then sb1 else sb1.set i (board.getD i 0))
    board

/-- Number of empty (zero) cells of a board. -/
def countEmpty (b : List Int) : Nat := b.countP (fun v => v == 0)

/-- The boards on which `count` restores exactly: all cell values are
    non-negative and none equals `w*h` (a value equal to `w*h` would be
    marked `-SENTINEL` by `flood` and turned into `EMPTY` — not restored —
    by `count_and_clear`). -/
def BoardOK (sz : Nat) (b : List Int) : Prop :=
  ∀ v ∈ b, 0 ≤ v ∧ v ≠ (sz : Int)

/-- `b'` keeps every nonzero cell of `b` unchanged. -/
def agreesNonzero (b b' : List Int) : Prop :=
  ∀ j, j < b.length → b.getD j 0 ≠ 0 → b'.getD j 0 = b.getD j 0

/-- The value constraint the solver preserves: board entries are
    non-negative and, on grids of at least two cells, never equal to `sz`
    (the flood mark sentinel).  `BoardOK` implies it; on a 1-cell grid the
    solver may write the value `1 = sz`. -/
def WeakOK (sz : Nat) (b : List Int) : Prop :=
  ∀ v ∈ b, 0 ≤ v ∧ (sz ≤ 1 ∨ v ≠ (sz : Int))

/-- The absorption test of the solver's empty-cell rule for one neighbour
    `idx` of the empty cell `i`: pre-mark `i`, flood-count from `idx`, and
    compare the count with the (restored) value of `idx`. -/
def absorbTest (board : List Int) (w h i idx : Nat) : Bool :=
  let nc := count (board.set i (-((w * h : Nat) : Int))) w h idx
  decide (nc.1 < nc.2.getD idx 0)

/-- The first direction (in `dx`/`dy` order) whose in-range, non-empty
    neighbour of `i` passes the absorption test; the neighbour is returned. -/
def firstAbsorb (board : List Int) (w h i : Nat) : List Nat → Option Nat
  | [] => none
  | k :: ks =>
    match neighbor w h i k with
    | none => firstAbsorb board w h i ks
    | some idx =>
      if board.getD idx 0 = 0 then firstAbsorb board w h i ks
      else if absorbTest board w h i idx then some idx
      else firstAbsorb board w h i ks

/-- The per-neighbour condition under which the `one` flag survives a
    numbered neighbour: the neighbour's value is not 1 and the would-be
    size of `i` joining it exceeds that value. -/
def oneKeeps (board : List Int) (d : DSF) (w h i idx : Nat) : Bool :=
  let v := board.getD idx 0
  !(v == 1 || decide (expandsize board d w h i v ≤ v))

/-- The final value of the `one` flag over a direction list: false as soon
    as an in-range neighbour is empty, and conjunction of `oneKeeps` over
    the numbered neighbours. -/
def allOne (board : List Int) (d : DSF) (w h i : Nat) : List Nat → Bool
  | [] => true
  | k :: ks =>
    match neighbor w h i k with
    | none => allOne board d w h i ks
    | some idx =>
      if board.getD idx 0 = 0 then false
      else oneKeeps board d w h i idx && allOne board d w h i ks

/-- Following the words of the spec (for comparison with the code): the
    would-be size of the empty cell `i` joining the region of its
    neighbour `idx` is "obtained by flood-filling outward from idx through
    exactly the cells currently valued v, plus tentatively counting i
    itself" — i.e. the size of the maximal equal-valued region of `idx`
    plus one. -/
def specWouldBeSize (board : List Int) (w h idx : Nat) : Int :=
  ((makeDsf board w h).size idx : Int) + 1

/-- Following the words of the spec (for comparison with the code): the
    claimed condition under which the solver drops a 1 into the empty cell
    `i`: no neighbour triggers the absorption rule, `i` has no empty
    neighbour, and every numbered neighbour's value `v` satisfies `v = 1`
    or the would-be size of `i` joining that neighbour's region exceeds
    `v`. -/
def specForcedOneB (board : List Int) (d : DSF) (w h i : Nat) : Bool :=
  (firstAbsorb board w h i [0, 1, 2, 3]).isNone &&
  (List.range 4).all (fun j =>
    match neighbor w h i j with
    | none => true
    | some idx =>
      let v := board.getD idx 0
      !(v == 0) && (v == 1 || decide (v < expandsize board d w h i v)))

/-- A concrete 2×2 game state (clue board `1220`, untouched). -/
def c6st : GState := ⟨2, 2, [1, 2, 2, 0], [1, 2, 2, 0], false, false⟩

/-- The move strings used in the edit-rejection scenarios. -/
def mvAbc : List Char := ['a', 'b', 'c']

/-- The move string of the out-of-range edit scenario. -/
def mv099 : List Char := ['0', '_', '9', '9']

/-- A concrete 3×1 solver state (board `[0,2,2]`, the two 2s already
    unified) used to exercise the forced-singleton rule. -/
def c3wState : SState := ⟨[0, 2, 2], ⟨3, [0, 1, 1], [1, 2, 1]⟩, [0, 2, 1], 1, false⟩

/-- A concrete 4×1 solver state (board `[0,3,3,1]`, union-find still all
    singletons — the absorption test does not consult it) used to exercise
    the absorption rule. -/
def c4wState : SState := ⟨[0, 3, 3, 1], dsfInit 4, [0, 1, 2, 3], 1, false⟩

/-- The solver states traversed by the concrete 7×7 scenario: `c9S0` is
    the initialised state for the decoded clue string, and each following
    state is the result of one more cell step of the deduction passes
    (`c9in`/`c9out` are the scenario clue and solution strings). -/
def c9S0 : SState := ⟨[6, 0, 0, 2, 0, 0, 2, 0, 3, 0, 6, 0, 3, 0, 3, 0, 0, 0, 0, 0, 1, 0, 2, 3, 0, 4, 2, 0, 2, 0, 0, 0, 0, 0, 3, 0, 5, 0, 1, 0, 4, 0, 4, 0, 0, 3, 0, 0, 3], ⟨49, [0, 1, 2, 3, 4, 5, 6, 7, 8, 9, 10, 11, 12, 13, 14, 15, 16, 17, 18, 19, 20, 21, 22, 23, 24, 25, 26, 27, 28, 29, 30, 31, 32, 33, 34, 35, 36, 37, 38, 39, 40, 41, 42, 43, 44, 45, 46, 47, 48], [1, 1, 1, 1, 1, 1, 1, 1, 1, 1, 1, 1, 1, 1, 1, 1, 1, 1, 1, 1, 1, 1, 1, 1, 1, 1, 1, 1, 1, 1, 1, 1, 1, 1, 1, 1, 1, 1, 1, 1, 1, 1, 1, 1, 1, 1, 1, 1, 1]⟩, [0, 1, 2, 3, 4, 5, 6, 7, 8, 9, 10, 11, 12, 13, 14, 15, 16, 17, 18, 19, 20, 21, 22, 23, 24, 25, 26, 27, 28, 29, 30, 31, 32, 33, 34, 35, 36, 37, 38, 39, 40, 41, 42, 43, 44, 45, 46, 47, 48], 29, false⟩

def c9S1 : SState := ⟨[6, 6, 0, 2, 0, 0, 2, 0, 3, 0, 6, 0, 3, 0, 3, 0, 0, 0, 0, 0, 1, 0, 2, 3, 0, 4, 2, 0, 2, 0, 0, 0, 0, 0, 3, 0, 5, 0, 1, 0, 4, 0, 4, 0, 0, 3, 0, 0, 3], ⟨49, [1, 1, 2, 3, 4, 5, 6, 7, 8, 9, 10, 11, 12, 13, 14, 15, 16, 17, 18, 19, 20, 21, 22, 23, 24, 25, 26, 27, 28, 29, 30, 31, 32, 33, 34, 35, 36, 37, 38, 39, 40, 41, 42, 43, 44, 45, 46, 47, 48], [1, 2, 1, 1, 1, 1, 1, 1, 1, 1, 1, 1, 1, 1, 1, 1, 1, 1, 1, 1, 1, 1, 1, 1, 1, 1, 1, 1, 1, 1, 1, 1, 1, 1, 1, 1, 1, 1, 1, 1, 1, 1, 1, 1, 1, 1, 1, 1, 1]⟩, [1, 0, 2, 3, 4, 5, 6, 7, 8, 9, 10, 11, 12, 13, 14, 15, 16, 17, 18, 19, 20, 21, 22, 23, 24, 25, 26, 27, 28, 29, 30, 31, 32, 33, 34, 35, 36, 37, 38, 39, 40, 41, 42, 43, 44, 45, 46, 47, 48], 28, true⟩

def c9S2 : SState := ⟨[6, 6, 6, 2, 0, 0, 2, 0, 3, 0, 6, 0, 3, 0, 3, 0, 0, 0, 0, 0, 1, 0, 2, 3, 0, 4, 2, 0, 2, 0, 0, 0, 0, 0, 3, 0, 5, 0, 1, 0, 4, 0, 4, 0, 0, 3, 0, 0, 3], ⟨49, [1, 1, 1, 3, 4, 5, 6, 7, 8, 9, 10, 11, 12, 13, 14, 15, 16, 17, 18, 19, 20, 21, 22, 23, 24, 25, 26, 27, 28, 29, 30, 31, 32, 33, 34, 35, 36, 37, 38, 39, 40, 41, 42, 43, 44, 45, 46, 47, 48], [1, 3, 1, 1, 1, 1, 1, 1, 1, 1, 1, 1, 1, 1, 1, 1, 1, 1, 1, 1, 1, 1, 1, 1, 1, 1, 1, 1, 1, 1, 1, 1, 1, 1, 1, 1, 1, 1, 1, 1, 1, 1, 1, 1, 1, 1, 1, 1, 1]⟩, [1, 2, 0, 3, 4, 5, 6, 7, 8, 9, 10, 11, 12, 13, 14, 15, 16, 17, 18, 19, 20, 21, 22, 23, 24, 25, 26, 27, 28, 29, 30, 31, 32, 33, 34, 35, 36, 37, 38, 39, 40, 41, 42, 43, 44, 45, 46, 47, 48], 27, true⟩

def c9S3 : SState := ⟨[6, 6, 6, 2, 2, 0, 2, 0, 3, 0, 6, 0, 3, 0, 3, 0, 0, 0, 0, 0, 1, 0, 2, 3, 0, 4, 2, 0, 2, 0, 0, 0, 0, 0, 3, 0, 5, 0, 1, 0, 4, 0, 4, 0, 0, 3, 0, 0, 3], ⟨49, [1, 1, 1, 4, 4, 5, 6, 7, 8, 9, 10, 11, 12, 13, 14, 15, 16, 17, 18, 19, 20, 21, 22, 23, 24, 25, 26, 27, 28, 29, 30, 31, 32, 33, 34, 35, 36, 37, 38, 39, 40, 41, 42, 43, 44, 45, 46, 47, 48], [1, 3, 1, 1, 2, 1, 1, 1, 1, 1, 1, 1, 1, 1, 1, 1, 1, 1, 1, 1, 1, 1, 1, 1, 1, 1, 1, 1, 1, 1, 1, 1, 1, 1, 1, 1, 1, 1, 1, 1, 1, 1, 1, 1, 1, 1, 1, 1, 1]⟩, [1, 2, 0, 4, 3, 5, 6, 7, 8, 9, 10, 11, 12, 13, 14, 15, 16, 17, 18, 19, 20, 21, 22, 23, 24, 25, 26, 27, 28, 29, 30, 31, 32, 33, 34, 35, 36, 37, 38, 39, 40, 41, 42, 43, 44, 45, 46, 47, 48], 26, true⟩

def c9S4 : SState := ⟨[6, 6, 6, 2, 2, 0, 2, 0, 3, 0, 6, 0, 3, 2, 3, 0, 0, 0, 0, 0, 1, 0, 2, 3, 0, 4, 2, 0, 2, 0, 0, 0, 0, 0, 3, 0, 5, 0, 1, 0, 4, 0, 4, 0, 0, 3, 0, 0, 3], ⟨49, [1, 1, 1, 4, 4, 5, 13, 7, 8, 9, 10, 11, 12, 13, 14, 15, 16, 17, 18, 19, 20, 21, 22, 23, 24, 25, 26, 27, 28, 29, 30, 31, 32, 33, 34, 35, 36, 37, 38, 39, 40, 41, 42, 43, 44, 45, 46, 47, 48], [1, 3, 1, 1, 2, 1, 1, 1, 1, 1, 1, 1, 1, 2, 1, 1, 1, 1, 1, 1, 1, 1, 1, 1, 1, 1, 1, 1, 1, 1, 1, 1, 1, 1, 1, 1, 1, 1, 1, 1, 1, 1, 1, 1, 1, 1, 1, 1, 1]⟩, [1, 2, 0, 4, 3, 5, 13, 7, 8, 9, 10, 11, 12, 6, 14, 15, 16, 17, 18, 19, 20, 21, 22, 23, 24, 25, 26, 27, 28, 29, 30, 31, 32, 33, 34, 35, 36, 37, 38, 39, 40, 41, 42, 43, 44, 45, 46, 47, 48], 25, true⟩

def c9S5 : SState := ⟨[6, 6, 6, 2, 2, 0, 2, 0, 3, 6, 6, 0, 3, 2, 3, 0, 0, 0, 0, 0, 1, 0, 2, 3, 0, 4, 2, 0, 2, 0, 0, 0, 0, 0, 3, 0, 5, 0, 1, 0, 4, 0, 4, 0, 0, 3, 0, 0, 3], ⟨49, [1, 1, 1, 4, 4, 5, 13, 7, 8, 1, 1, 11, 12, 13, 14, 15, 16, 17, 18, 19, 20, 21, 22, 23, 24, 25, 26, 27, 28, 29, 30, 31, 32, 33, 34, 35, 36, 37, 38, 39, 40, 41, 42, 43, 44, 45, 46, 47, 48], [1, 5, 1, 1, 2, 1, 1, 1, 1, 2, 1, 1, 1, 2, 1, 1, 1, 1, 1, 1, 1, 1, 1, 1, 1, 1, 1, 1, 1, 1, 1, 1, 1, 1, 1, 1, 1, 1, 1, 1, 1, 1, 1, 1, 1, 1, 1, 1, 1]⟩, [1, 10, 0, 4, 3, 5, 13, 7, 8, 2, 9, 11, 12, 6, 14, 15, 16, 17, 18, 19, 20, 21, 22, 23, 24, 25, 26, 27, 28, 29, 30, 31, 32, 33, 34, 35, 36, 37, 38, 39, 40, 41, 42, 43, 44, 45, 46, 47, 48], 24, true⟩

def c9S6 : SState := ⟨[6, 6, 6, 2, 2, 0, 2, 0, 3, 6, 6, 0, 3, 2, 3, 2, 0, 0, 0, 0, 1, 0, 2, 3, 0, 4, 2, 0, 2, 0, 0, 0, 0, 0, 3, 0, 5, 0, 1, 0, 4, 0, 4, 0, 0, 3, 0, 0, 3], ⟨49, [1, 1, 1, 4, 4, 5, 13, 7, 8, 1, 1, 11, 12, 13, 14, 15, 16, 17, 18, 19, 20, 21, 15, 23, 24, 25, 26, 27, 28, 29, 30, 31, 32, 33, 34, 35, 36, 37, 38, 39, 40, 41, 42, 43, 44, 45, 46, 47, 48], [1, 5, 1, 1, 2, 1, 1, 1, 1, 2, 1, 1, 1, 2, 1, 2, 1, 1, 1, 1, 1, 1, 1, 1, 1, 1, 1, 1, 1, 1, 1, 1, 1, 1, 1, 1, 1, 1, 1, 1, 1, 1, 1, 1, 1, 1, 1, 1, 1]⟩, [1, 10, 0, 4, 3, 5, 13, 7, 8, 2, 9, 11, 12, 6, 14, 22, 16, 17, 18, 19, 20, 21, 15, 23, 24, 25, 26, 27, 28, 29, 30, 31, 32, 33, 34, 35, 36, 37, 38, 39, 40, 41, 42, 43, 44, 45, 46, 47, 48], 23, true⟩

def c9S7 : SState := ⟨[6, 6, 6, 2, 2, 0, 2, 0, 3, 6, 6, 0, 3, 2, 3, 2, 0, 0, 0, 0, 1, 0, 2, 3, 0, 4, 2, 0, 2, 0, 0, 0, 0, 0, 3, 2, 5, 0, 1, 0, 4, 0, 4, 0, 0, 3, 0, 0, 3], ⟨49, [1, 1, 1, 4, 4, 5, 13, 7, 8, 1, 1, 11, 12, 13, 14, 15, 16, 17, 18, 19, 20, 21, 15, 23, 24, 25, 26, 27, 35, 29, 30, 31, 32, 33, 34, 35, 36, 37, 38, 39, 40, 41, 42, 43, 44, 45, 46, 47, 48], [1, 5, 1, 1, 2, 1, 1, 1, 1, 2, 1, 1, 1, 2, 1, 2, 1, 1, 1, 1, 1, 1, 1, 1, 1, 1, 1, 1, 1, 1, 1, 1, 1, 1, 1, 2, 1, 1, 1, 1, 1, 1, 1, 1, 1, 1, 1, 1, 1]⟩, [1, 10, 0, 4, 3, 5, 13, 7, 8, 2, 9, 11, 12, 6, 14, 22, 16, 17, 18, 19, 20, 21, 15, 23, 24, 25, 26, 27, 35, 29, 30, 31, 32, 33, 34, 28, 36, 37, 38, 39, 40, 41, 42, 43, 44, 45, 46, 47, 48], 22, true⟩

def c9S8 : SState := ⟨[6, 6, 6, 2, 2, 0, 2, 0, 3, 6, 6, 0, 3, 2, 3, 2, 0, 0, 0, 0, 1, 0, 2, 3, 0, 4, 2, 0, 2, 0, 0, 0, 0, 0, 3, 2, 5, 0, 1, 0, 4, 0, 4, 4, 0, 3, 0, 0, 3], ⟨49, [1, 1, 1, 4, 4, 5, 13, 7, 8, 1, 1, 11, 12, 13, 14, 15, 16, 17, 18, 19, 20, 21, 15, 23, 24, 25, 26, 27, 35, 29, 30, 31, 32, 33, 34, 35, 36, 37, 38, 39, 40, 41, 43, 43, 44, 45, 46, 47, 48], [1, 5, 1, 1, 2, 1, 1, 1, 1, 2, 1, 1, 1, 2, 1, 2, 1, 1, 1, 1, 1, 1, 1, 1, 1, 1, 1, 1, 1, 1, 1, 1, 1, 1, 1, 2, 1, 1, 1, 1, 1, 1, 1, 2, 1, 1, 1, 1, 1]⟩, [1, 10, 0, 4, 3, 5, 13, 7, 8, 2, 9, 11, 12, 6, 14, 22, 16, 17, 18, 19, 20, 21, 15, 23, 24, 25, 26, 27, 35, 29, 30, 31, 32, 33, 34, 28, 36, 37, 38, 39, 40, 41, 43, 42, 44, 45, 46, 47, 48], 21, true⟩

def c9S9 : SState := ⟨[6, 6, 6, 2, 2, 0, 2, 0, 3, 6, 6, 0, 3, 2, 3, 2, 0, 0, 0, 0, 1, 0, 2, 3, 0, 4, 2, 0, 2, 0, 0, 0, 0, 0, 3, 2, 5, 0, 1, 0, 4, 0, 4, 4, 4, 3, 0, 0, 3], ⟨49, [1, 1, 1, 4, 4, 5, 13, 7, 8, 1, 1, 11, 12, 13, 14, 15, 16, 17, 18, 19, 20, 21, 15, 23, 24, 25, 26, 27, 35, 29, 30, 31, 32, 33, 34, 35, 36, 37, 38, 39, 40, 41, 43, 43, 43, 45, 46, 47, 48], [1, 5, 1, 1, 2, 1, 1, 1, 1, 2, 1, 1, 1, 2, 1, 2, 1, 1, 1, 1, 1, 1, 1, 1, 1, 1, 1, 1, 1, 1, 1, 1, 1, 1, 1, 2, 1, 1, 1, 1, 1, 1, 1, 3, 1, 1, 1, 1, 1]⟩, [1, 10, 0, 4, 3, 5, 13, 7, 8, 2, 9, 11, 12, 6, 14, 22, 16, 17, 18, 19, 20, 21, 15, 23, 24, 25, 26, 27, 35, 29, 30, 31, 32, 33, 34, 28, 36, 37, 38, 39, 40, 41, 43, 44, 42, 45, 46, 47, 48], 20, true⟩

def c9S10 : SState := ⟨[6, 6, 6, 2, 2, 0, 2, 0, 3, 6, 6, 0, 3, 2, 3, 2, 0, 0, 0, 0, 1, 0, 2, 3, 0, 4, 2, 0, 2, 0, 0, 0, 0, 0, 3, 2, 5, 0, 1, 0, 4, 0, 4, 4, 4, 3, 3, 0, 3], ⟨49, [1, 1, 1, 4, 4, 5, 13, 7, 8, 1, 1, 11, 12, 13, 14, 15, 16, 17, 18, 19, 20, 21, 15, 23, 24, 25, 26, 27, 35, 29, 30, 31, 32, 33, 34, 35, 36, 37, 38, 39, 40, 41, 43, 43, 43, 46, 46, 47, 48], [1, 5, 1, 1, 2, 1, 1, 1, 1, 2, 1, 1, 1, 2, 1, 2, 1, 1, 1, 1, 1, 1, 1, 1, 1, 1, 1, 1, 1, 1, 1, 1, 1, 1, 1, 2, 1, 1, 1, 1, 1, 1, 1, 3, 1, 1, 2, 1, 1]⟩, [1, 10, 0, 4, 3, 5, 13, 7, 8, 2, 9, 11, 12, 6, 14, 22, 16, 17, 18, 19, 20, 21, 15, 23, 24, 25, 26, 27, 35, 29, 30, 31, 32, 33, 34, 28, 36, 37, 38, 39, 40, 41, 43, 44, 42, 46, 45, 47, 48], 19, true⟩

def c9S11 : SState := ⟨[6, 6, 6, 2, 2, 0, 2, 0, 3, 6, 6, 0, 3, 2, 3, 2, 0, 0, 0, 0, 1, 0, 2, 3, 0, 4, 2, 0, 2, 0, 0, 0, 0, 0, 3, 2, 5, 0, 1, 3, 4, 0, 4, 4, 4, 3, 3, 0, 3], ⟨49, [1, 1, 1, 4, 4, 5, 13, 7, 8, 1, 1, 11, 12, 13, 14, 15, 16, 17, 18, 19, 20, 21, 15, 23, 24, 25, 26, 27, 35, 29, 30, 31, 32, 33, 34, 35, 36, 37, 38, 46, 40, 41, 43, 43, 43, 46, 46, 47, 48], [1, 5, 1, 1, 2, 1, 1, 1, 1, 2, 1, 1, 1, 2, 1, 2, 1, 1, 1, 1, 1, 1, 1, 1, 1, 1, 1, 1, 1, 1, 1, 1, 1, 1, 1, 2, 1, 1, 1, 1, 1, 1, 1, 3, 1, 1, 3, 1, 1]⟩, [1, 10, 0, 4, 3, 5, 13, 7, 8, 2, 9, 11, 12, 6, 14, 22, 16, 17, 18, 19, 20, 21, 15, 23, 24, 25, 26, 27, 35, 29, 30, 31, 32, 33, 34, 28, 36, 37, 38, 45, 40, 41, 43, 44, 42, 46, 39, 47, 48], 18, true⟩

def c9S12 : SState := ⟨[6, 6, 6, 2, 2, 0, 2, 0, 3, 6, 6, 0, 3, 2, 3, 2, 0, 0, 0, 0, 1, 0, 2, 3, 0, 4, 2, 0, 2, 0, 0, 0, 0, 0, 3, 2, 5, 0, 1, 3, 4, 3, 4, 4, 4, 3, 3, 0, 3], ⟨49, [1, 1, 1, 4, 4, 5, 13, 7, 8, 1, 1, 11, 12, 13, 14, 15, 16, 17, 18, 19, 20, 21, 15, 23, 24, 25, 26, 27, 35, 29, 30, 31, 32, 33, 41, 35, 36, 37, 38, 46, 40, 41, 43, 43, 43, 46, 46, 47, 41], [1, 5, 1, 1, 2, 1, 1, 1, 1, 2, 1, 1, 1, 2, 1, 2, 1, 1, 1, 1, 1, 1, 1, 1, 1, 1, 1, 1, 1, 1, 1, 1, 1, 1, 1, 2, 1, 1, 1, 1, 1, 3, 1, 3, 1, 1, 3, 1, 1]⟩, [1, 10, 0, 4, 3, 5, 13, 7, 8, 2, 9, 11, 12, 6, 14, 22, 16, 17, 18, 19, 20, 21, 15, 23, 24, 25, 26, 27, 35, 29, 30, 31, 32, 33, 41, 28, 36, 37, 38, 45, 40, 48, 43, 44, 42, 46, 39, 47, 34], 17, true⟩

def c9S13 : SState := ⟨[6, 6, 6, 2, 2, 0, 2, 0, 3, 6, 6, 0, 3, 2, 3, 2, 0, 0, 0, 0, 1, 0, 2, 3, 0, 4, 2, 0, 2, 0, 0, 0, 0, 0, 3, 2, 5, 0, 1, 3, 4, 3, 4, 4, 4, 3, 3, 0, 3], ⟨49, [1, 1, 1, 4, 4, 5, 13, 7, 8, 1, 1, 11, 12, 13, 14, 15, 16, 17, 18, 19, 20, 21, 15, 23, 24, 25, 26, 27, 35, 29, 30, 31, 32, 33, 41, 35, 36, 37, 38, 46, 40, 41, 43, 43, 43, 46, 46, 47, 41], [1, 5, 1, 1, 2, 1, 1, 1, 1, 2, 1, 1, 1, 2, 1, 2, 1, 1, 1, 1, 1, 1, 1, 1, 1, 1, 1, 1, 1, 1, 1, 1, 1, 1, 1, 2, 1, 1, 1, 1, 1, 3, 1, 3, 1, 1, 3, 1, 1]⟩, [1, 10, 0, 4, 3, 5, 13, 7, 8, 2, 9, 11, 12, 6, 14, 22, 16, 17, 18, 19, 20, 21, 15, 23, 24, 25, 26, 27, 35, 29, 30, 31, 32, 33, 41, 28, 36, 37, 38, 45, 40, 48, 43, 44, 42, 46, 39, 47, 34], 17, false⟩

def c9S14 : SState := ⟨[6, 6, 6, 2, 2, 0, 2, 3, 3, 6, 6, 0, 3, 2, 3, 2, 0, 0, 0, 0, 1, 0, 2, 3, 0, 4, 2, 0, 2, 0, 0, 0, 0, 0, 3, 2, 5, 0, 1, 3, 4, 3, 4, 4, 4, 3, 3, 0, 3], ⟨49, [1, 1, 1, 4, 4, 5, 13, 7, 7, 1, 1, 11, 12, 13, 7, 15, 16, 17, 18, 19, 20, 21, 15, 23, 24, 25, 26, 27, 35, 29, 30, 31, 32, 33, 41, 35, 36, 37, 38, 46, 40, 41, 43, 43, 43, 46, 46, 47, 41], [1, 5, 1, 1, 2, 1, 1, 3, 1, 2, 1, 1, 1, 2, 1, 2, 1, 1, 1, 1, 1, 1, 1, 1, 1, 1, 1, 1, 1, 1, 1, 1, 1, 1, 1, 2, 1, 1, 1, 1, 1, 3, 1, 3, 1, 1, 3, 1, 1]⟩, [1, 10, 0, 4, 3, 5, 13, 14, 7, 2, 9, 11, 12, 6, 8, 22, 16, 17, 18, 19, 20, 21, 15, 23, 24, 25, 26, 27, 35, 29, 30, 31, 32, 33, 41, 28, 36, 37, 38, 45, 40, 48, 43, 44, 42, 46, 39, 47, 34], 16, true⟩

def c9S15 : SState := ⟨[6, 6, 6, 2, 2, 0, 2, 3, 3, 6, 6, 0, 3, 2, 3, 2, 0, 0, 0, 0, 1, 1, 2, 3, 0, 4, 2, 0, 2, 0, 0, 0, 0, 0, 3, 2, 5, 0, 1, 3, 4, 3, 4, 4, 4, 3, 3, 0, 3], ⟨49, [1, 1, 1, 4, 4, 5, 13, 7, 7, 1, 1, 11, 12, 13, 7, 15, 16, 17, 18, 19, 20, 21, 15, 23, 24, 25, 26, 27, 35, 29, 30, 31, 32, 33, 41, 35, 36, 37, 38, 46, 40, 41, 43, 43, 43, 46, 46, 47, 41], [1, 5, 1, 1, 2, 1, 1, 3, 1, 2, 1, 1, 1, 2, 1, 2, 1, 1, 1, 1, 1, 1, 1, 1, 1, 1, 1, 1, 1, 1, 1, 1, 1, 1, 1, 2, 1, 1, 1, 1, 1, 3, 1, 3, 1, 1, 3, 1, 1]⟩, [1, 10, 0, 4, 3, 5, 13, 14, 7, 2, 9, 11, 12, 6, 8, 22, 16, 17, 18, 19, 20, 21, 15, 23, 24, 25, 26, 27, 35, 29, 30, 31, 32, 33, 41, 28, 36, 37, 38, 45, 40, 48, 43, 44, 42, 46, 39, 47, 34], 15, true⟩

def c9S16 : SState := ⟨[6, 6, 6, 2, 2, 0, 2, 3, 3, 6, 6, 0, 3, 2, 3, 2, 0, 0, 0, 0, 1, 1, 2, 3, 0, 4, 2, 0, 2, 0, 0, 0, 0, 4, 3, 2, 5, 0, 1, 3, 4, 3, 4, 4, 4, 3, 3, 0, 3], ⟨49, [1, 1, 1, 4, 4, 5, 13, 7, 7, 1, 1, 11, 12, 13, 7, 15, 16, 17, 18, 19, 20, 21, 15, 23, 24, 25, 26, 27, 35, 29, 30, 31, 32, 33, 41, 35, 36, 37, 38, 46, 33, 41, 43, 43, 43, 46, 46, 47, 41], [1, 5, 1, 1, 2, 1, 1, 3, 1, 2, 1, 1, 1, 2, 1, 2, 1, 1, 1, 1, 1, 1, 1, 1, 1, 1, 1, 1, 1, 1, 1, 1, 1, 2, 1, 2, 1, 1, 1, 1, 1, 3, 1, 3, 1, 1, 3, 1, 1]⟩, [1, 10, 0, 4, 3, 5, 13, 14, 7, 2, 9, 11, 12, 6, 8, 22, 16, 17, 18, 19, 20, 21, 15, 23, 24, 25, 26, 27, 35, 29, 30, 31, 32, 40, 41, 28, 36, 37, 38, 45, 33, 48, 43, 44, 42, 46, 39, 47, 34], 14, true⟩

def c9S17 : SState := ⟨[6, 6, 6, 2, 2, 0, 2, 3, 3, 6, 6, 0, 3, 2, 3, 2, 0, 0, 0, 0, 1, 1, 2, 3, 0, 4, 2, 0, 2, 0, 0, 0, 0, 4, 3, 2, 5, 4, 1, 3, 4, 3, 4, 4, 4, 3, 3, 0, 3], ⟨49, [1, 1, 1, 4, 4, 5, 13, 7, 7, 1, 1, 11, 12, 13, 7, 15, 16, 17, 18, 19, 20, 21, 15, 23, 24, 25, 26, 27, 35, 29, 30, 31, 32, 33, 41, 35, 36, 43, 38, 46, 33, 41, 43, 43, 43, 46, 46, 47, 41], [1, 5, 1, 1, 2, 1, 1, 3, 1, 2, 1, 1, 1, 2, 1, 2, 1, 1, 1, 1, 1, 1, 1, 1, 1, 1, 1, 1, 1, 1, 1, 1, 1, 2, 1, 2, 1, 1, 1, 1, 1, 3, 1, 4, 1, 1, 3, 1, 1]⟩, [1, 10, 0, 4, 3, 5, 13, 14, 7, 2, 9, 11, 12, 6, 8, 22, 16, 17, 18, 19, 20, 21, 15, 23, 24, 25, 26, 27, 35, 29, 30, 31, 32, 40, 41, 28, 36, 44, 38, 45, 33, 48, 43, 37, 42, 46, 39, 47, 34], 13, true⟩

def c9S18 : SState := ⟨[6, 6, 6, 2, 2, 0, 2, 3, 3, 6, 6, 0, 3, 2, 3, 2, 0, 0, 0, 0, 1, 1, 2, 3, 0, 4, 2, 0, 2, 0, 0, 0, 0, 4, 3, 2, 5, 4, 1, 3, 4, 3, 4, 4, 4, 3, 3, 0, 3], ⟨49, [1, 1, 1, 4, 4, 5, 13, 7, 7, 1, 1, 11, 12, 13, 7, 15, 16, 17, 18, 19, 20, 21, 15, 23, 24, 25, 26, 27, 35, 29, 30, 31, 32, 33, 41, 35, 36, 43, 38, 46, 33, 41, 43, 43, 43, 46, 46, 47, 41], [1, 5, 1, 1, 2, 1, 1, 3, 1, 2, 1, 1, 1, 2, 1, 2, 1, 1, 1, 1, 1, 1, 1, 1, 1, 1, 1, 1, 1, 1, 1, 1, 1, 2, 1, 2, 1, 1, 1, 1, 1, 3, 1, 4, 1, 1, 3, 1, 1]⟩, [1, 10, 0, 4, 3, 5, 13, 14, 7, 2, 9, 11, 12, 6, 8, 22, 16, 17, 18, 19, 20, 21, 15, 23, 24, 25, 26, 27, 35, 29, 30, 31, 32, 40, 41, 28, 36, 44, 38, 45, 33, 48, 43, 37, 42, 46, 39, 47, 34], 13, false⟩

def c9S19 : SState := ⟨[6, 6, 6, 2, 2, 0, 2, 3, 3, 6, 6, 0, 3, 2, 3, 2, 0, 0, 0, 0, 1, 1, 2, 3, 0, 4, 2, 0, 2, 5, 0, 0, 0, 4, 3, 2, 5, 4, 1, 3, 4, 3, 4, 4, 4, 3, 3, 0, 3], ⟨49, [1, 1, 1, 4, 4, 5, 13, 7, 7, 1, 1, 11, 12, 13, 7, 15, 16, 17, 18, 19, 20, 21, 15, 23, 24, 25, 26, 27, 35, 29, 30, 31, 32, 33, 41, 35, 29, 43, 38, 46, 33, 41, 43, 43, 43, 46, 46, 47, 41], [1, 5, 1, 1, 2, 1, 1, 3, 1, 2, 1, 1, 1, 2, 1, 2, 1, 1, 1, 1, 1, 1, 1, 1, 1, 1, 1, 1, 1, 2, 1, 1, 1, 2, 1, 2, 1, 1, 1, 1, 1, 3, 1, 4, 1, 1, 3, 1, 1]⟩, [1, 10, 0, 4, 3, 5, 13, 14, 7, 2, 9, 11, 12, 6, 8, 22, 16, 17, 18, 19, 20, 21, 15, 23, 24, 25, 26, 27, 35, 36, 30, 31, 32, 40, 41, 28, 29, 44, 38, 45, 33, 48, 43, 37, 42, 46, 39, 47, 34], 12, true⟩

def c9S20 : SState := ⟨[6, 6, 6, 2, 2, 0, 2, 3, 3, 6, 6, 0, 3, 2, 3, 2, 0, 0, 0, 0, 1, 1, 2, 3, 0, 4, 2, 0, 2, 5, 5, 0, 0, 4, 3, 2, 5, 4, 1, 3, 4, 3, 4, 4, 4, 3, 3, 0, 3], ⟨49, [1, 1, 1, 4, 4, 5, 13, 7, 7, 1, 1, 11, 12, 13, 7, 15, 16, 17, 18, 19, 20, 21, 15, 23, 24, 25, 26, 27, 35, 29, 29, 31, 32, 33, 41, 35, 29, 43, 38, 46, 33, 41, 43, 43, 43, 46, 46, 47, 41], [1, 5, 1, 1, 2, 1, 1, 3, 1, 2, 1, 1, 1, 2, 1, 2, 1, 1, 1, 1, 1, 1, 1, 1, 1, 1, 1, 1, 1, 3, 1, 1, 1, 2, 1, 2, 1, 1, 1, 1, 1, 3, 1, 4, 1, 1, 3, 1, 1]⟩, [1, 10, 0, 4, 3, 5, 13, 14, 7, 2, 9, 11, 12, 6, 8, 22, 16, 17, 18, 19, 20, 21, 15, 23, 24, 25, 26, 27, 35, 30, 36, 31, 32, 40, 41, 28, 29, 44, 38, 45, 33, 48, 43, 37, 42, 46, 39, 47, 34], 11, true⟩

def c9S21 : SState := ⟨[6, 6, 6, 2, 2, 0, 2, 3, 3, 6, 6, 0, 3, 2, 3, 2, 0, 0, 0, 0, 1, 1, 2, 3, 0, 4, 2, 0, 2, 5, 5, 5, 0, 4, 3, 2, 5, 4, 1, 3, 4, 3, 4, 4, 4, 3, 3, 0, 3], ⟨49, [1, 1, 1, 4, 4, 5, 13, 7, 7, 1, 1, 11, 12, 13, 7, 15, 16, 17, 18, 19, 20, 21, 15, 23, 24, 25, 26, 27, 35, 29, 29, 29, 32, 33, 41, 35, 29, 43, 38, 46, 33, 41, 43, 43, 43, 46, 46, 47, 41], [1, 5, 1, 1, 2, 1, 1, 3, 1, 2, 1, 1, 1, 2, 1, 2, 1, 1, 1, 1, 1, 1, 1, 1, 1, 1, 1, 1, 1, 4, 1, 1, 1, 2, 1, 2, 1, 1, 1, 1, 1, 3, 1, 4, 1, 1, 3, 1, 1]⟩, [1, 10, 0, 4, 3, 5, 13, 14, 7, 2, 9, 11, 12, 6, 8, 22, 16, 17, 18, 19, 20, 21, 15, 23, 24, 25, 26, 27, 35, 31, 36, 30, 32, 40, 41, 28, 29, 44, 38, 45, 33, 48, 43, 37, 42, 46, 39, 47, 34], 10, true⟩

def c9S22 : SState := ⟨[6, 6, 6, 2, 2, 0, 2, 3, 3, 6, 6, 0, 3, 2, 3, 2, 0, 0, 0, 0, 1, 1, 2, 3, 0, 4, 2, 0, 2, 5, 5, 5, 4, 4, 3, 2, 5, 4, 1, 3, 4, 3, 4, 4, 4, 3, 3, 0, 3], ⟨49, [1, 1, 1, 4, 4, 5, 13, 7, 7, 1, 1, 11, 12, 13, 7, 15, 16, 17, 18, 19, 20, 21, 15, 23, 24, 33, 26, 27, 35, 29, 29, 29, 33, 33, 41, 35, 29, 43, 38, 46, 33, 41, 43, 43, 43, 46, 46, 47, 41], [1, 5, 1, 1, 2, 1, 1, 3, 1, 2, 1, 1, 1, 2, 1, 2, 1, 1, 1, 1, 1, 1, 1, 1, 1, 1, 1, 1, 1, 4, 1, 1, 1, 4, 1, 2, 1, 1, 1, 1, 1, 3, 1, 4, 1, 1, 3, 1, 1]⟩, [1, 10, 0, 4, 3, 5, 13, 14, 7, 2, 9, 11, 12, 6, 8, 22, 16, 17, 18, 19, 20, 21, 15, 23, 24, 32, 26, 27, 35, 31, 36, 30, 40, 25, 41, 28, 29, 44, 38, 45, 33, 48, 43, 37, 42, 46, 39, 47, 34], 9, true⟩

def c9S23 : SState := ⟨[6, 6, 6, 2, 2, 0, 2, 3, 3, 6, 6, 0, 3, 2, 3, 2, 0, 0, 0, 0, 1, 1, 2, 3, 0, 4, 2, 0, 2, 5, 5, 5, 4, 4, 3, 2, 5, 4, 1, 3, 4, 3, 4, 4, 4, 3, 3, 1, 3], ⟨49, [1, 1, 1, 4, 4, 5, 13, 7, 7, 1, 1, 11, 12, 13, 7, 15, 16, 17, 18, 19, 20, 21, 15, 23, 24, 33, 26, 27, 35, 29, 29, 29, 33, 33, 41, 35, 29, 43, 38, 46, 33, 41, 43, 43, 43, 46, 46, 47, 41], [1, 5, 1, 1, 2, 1, 1, 3, 1, 2, 1, 1, 1, 2, 1, 2, 1, 1, 1, 1, 1, 1, 1, 1, 1, 1, 1, 1, 1, 4, 1, 1, 1, 4, 1, 2, 1, 1, 1, 1, 1, 3, 1, 4, 1, 1, 3, 1, 1]⟩, [1, 10, 0, 4, 3, 5, 13, 14, 7, 2, 9, 11, 12, 6, 8, 22, 16, 17, 18, 19, 20, 21, 15, 23, 24, 32, 26, 27, 35, 31, 36, 30, 40, 25, 41, 28, 29, 44, 38, 45, 33, 48, 43, 37, 42, 46, 39, 47, 34], 8, true⟩

def c9S24 : SState := ⟨[6, 6, 6, 2, 2, 0, 2, 3, 3, 6, 6, 0, 3, 2, 3, 2, 0, 0, 0, 0, 1, 1, 2, 3, 0, 4, 2, 0, 2, 5, 5, 5, 4, 4, 3, 2, 5, 4, 1, 3, 4, 3, 4, 4, 4, 3, 3, 1, 3], ⟨49, [1, 1, 1, 4, 4, 5, 13, 7, 7, 1, 1, 11, 12, 13, 7, 15, 16, 17, 18, 19, 20, 21, 15, 23, 24, 33, 26, 27, 35, 29, 29, 29, 33, 33, 41, 35, 29, 43, 38, 46, 33, 41, 43, 43, 43, 46, 46, 47, 41], [1, 5, 1, 1, 2, 1, 1, 3, 1, 2, 1, 1, 1, 2, 1, 2, 1, 1, 1, 1, 1, 1, 1, 1, 1, 1, 1, 1, 1, 4, 1, 1, 1, 4, 1, 2, 1, 1, 1, 1, 1, 3, 1, 4, 1, 1, 3, 1, 1]⟩, [1, 10, 0, 4, 3, 5, 13, 14, 7, 2, 9, 11, 12, 6, 8, 22, 16, 17, 18, 19, 20, 21, 15, 23, 24, 32, 26, 27, 35, 31, 36, 30, 40, 25, 41, 28, 29, 44, 38, 45, 33, 48, 43, 37, 42, 46, 39, 47, 34], 8, false⟩

def c9S25 : SState := ⟨[6, 6, 6, 2, 2, 0, 2, 3, 3, 6, 6, 0, 3, 2, 3, 2, 0, 0, 0, 0, 1, 1, 2, 3, 5, 4, 2, 0, 2, 5, 5, 5, 4, 4, 3, 2, 5, 4, 1, 3, 4, 3, 4, 4, 4, 3, 3, 1, 3], ⟨49, [1, 1, 1, 4, 4, 5, 13, 7, 7, 1, 1, 11, 12, 13, 7, 15, 16, 17, 18, 19, 20, 21, 15, 23, 29, 33, 26, 27, 35, 29, 29, 29, 33, 33, 41, 35, 29, 43, 38, 46, 33, 41, 43, 43, 43, 46, 46, 47, 41], [1, 5, 1, 1, 2, 1, 1, 3, 1, 2, 1, 1, 1, 2, 1, 2, 1, 1, 1, 1, 1, 1, 1, 1, 1, 1, 1, 1, 1, 5, 1, 1, 1, 4, 1, 2, 1, 1, 1, 1, 1, 3, 1, 4, 1, 1, 3, 1, 1]⟩, [1, 10, 0, 4, 3, 5, 13, 14, 7, 2, 9, 11, 12, 6, 8, 22, 16, 17, 18, 19, 20, 21, 15, 23, 31, 32, 26, 27, 35, 24, 36, 30, 40, 25, 41, 28, 29, 44, 38, 45, 33, 48, 43, 37, 42, 46, 39, 47, 34], 7, true⟩

def c9S26 : SState := ⟨[6, 6, 6, 2, 2, 0, 2, 3, 3, 6, 6, 0, 3, 2, 3, 2, 0, 0, 0, 0, 1, 1, 2, 3, 5, 4, 2, 0, 2, 5, 5, 5, 4, 4, 3, 2, 5, 4, 1, 3, 4, 3, 4, 4, 4, 3, 3, 1, 3], ⟨49, [1, 1, 1, 4, 4, 5, 13, 7, 7, 1, 1, 11, 12, 13, 7, 15, 16, 17, 18, 19, 20, 21, 15, 23, 29, 33, 26, 27, 35, 29, 29, 29, 33, 33, 41, 35, 29, 43, 38, 46, 33, 41, 43, 43, 43, 46, 46, 47, 41], [1, 5, 1, 1, 2, 1, 1, 3, 1, 2, 1, 1, 1, 2, 1, 2, 1, 1, 1, 1, 1, 1, 1, 1, 1, 1, 1, 1, 1, 5, 1, 1, 1, 4, 1, 2, 1, 1, 1, 1, 1, 3, 1, 4, 1, 1, 3, 1, 1]⟩, [1, 10, 0, 4, 3, 5, 13, 14, 7, 2, 9, 11, 12, 6, 8, 22, 16, 17, 18, 19, 20, 21, 15, 23, 31, 32, 26, 27, 35, 24, 36, 30, 40, 25, 41, 28, 29, 44, 38, 45, 33, 48, 43, 37, 42, 46, 39, 47, 34], 7, false⟩

def c9S27 : SState := ⟨[6, 6, 6, 2, 2, 0, 2, 3, 3, 6, 6, 0, 3, 2, 3, 2, 3, 0, 0, 0, 1, 1, 2, 3, 5, 4, 2, 0, 2, 5, 5, 5, 4, 4, 3, 2, 5, 4, 1, 3, 4, 3, 4, 4, 4, 3, 3, 1, 3], ⟨49, [1, 1, 1, 4, 4, 5, 13, 7, 7, 1, 1, 11, 12, 13, 7, 15, 16, 17, 18, 19, 20, 21, 15, 16, 29, 33, 26, 27, 35, 29, 29, 29, 33, 33, 41, 35, 29, 43, 38, 46, 33, 41, 43, 43, 43, 46, 46, 47, 41], [1, 5, 1, 1, 2, 1, 1, 3, 1, 2, 1, 1, 1, 2, 1, 2, 2, 1, 1, 1, 1, 1, 1, 1, 1, 1, 1, 1, 1, 5, 1, 1, 1, 4, 1, 2, 1, 1, 1, 1, 1, 3, 1, 4, 1, 1, 3, 1, 1]⟩, [1, 10, 0, 4, 3, 5, 13, 14, 7, 2, 9, 11, 12, 6, 8, 22, 23, 17, 18, 19, 20, 21, 15, 16, 31, 32, 26, 27, 35, 24, 36, 30, 40, 25, 41, 28, 29, 44, 38, 45, 33, 48, 43, 37, 42, 46, 39, 47, 34], 6, true⟩

def c9S28 : SState := ⟨[6, 6, 6, 2, 2, 0, 2, 3, 3, 6, 6, 0, 3, 2, 3, 2, 3, 3, 0, 0, 1, 1, 2, 3, 5, 4, 2, 0, 2, 5, 5, 5, 4, 4, 3, 2, 5, 4, 1, 3, 4, 3, 4, 4, 4, 3, 3, 1, 3], ⟨49, [1, 1, 1, 4, 4, 5, 13, 7, 7, 1, 1, 11, 12, 13, 7, 15, 16, 16, 18, 19, 20, 21, 15, 16, 29, 33, 26, 27, 35, 29, 29, 29, 33, 33, 41, 35, 29, 43, 38, 46, 33, 41, 43, 43, 43, 46, 46, 47, 41], [1, 5, 1, 1, 2, 1, 1, 3, 1, 2, 1, 1, 1, 2, 1, 2, 3, 1, 1, 1, 1, 1, 1, 1, 1, 1, 1, 1, 1, 5, 1, 1, 1, 4, 1, 2, 1, 1, 1, 1, 1, 3, 1, 4, 1, 1, 3, 1, 1]⟩, [1, 10, 0, 4, 3, 5, 13, 14, 7, 2, 9, 11, 12, 6, 8, 22, 17, 23, 18, 19, 20, 21, 15, 16, 31, 32, 26, 27, 35, 24, 36, 30, 40, 25, 41, 28, 29, 44, 38, 45, 33, 48, 43, 37, 42, 46, 39, 47, 34], 5, true⟩

def c9S29 : SState := ⟨[6, 6, 6, 2, 2, 0, 2, 3, 3, 6, 6, 0, 3, 2, 3, 2, 3, 3, 0, 0, 1, 1, 2, 3, 5, 4, 2, 0, 2, 5, 5, 5, 4, 4, 3, 2, 5, 4, 1, 3, 4, 3, 4, 4, 4, 3, 3, 1, 3], ⟨49, [1, 1, 1, 4, 4, 5, 13, 7, 7, 1, 1, 11, 12, 13, 7, 15, 16, 16, 18, 19, 20, 21, 15, 16, 29, 33, 26, 27, 35, 29, 29, 29, 33, 33, 41, 35, 29, 43, 38, 46, 33, 41, 43, 43, 43, 46, 46, 47, 41], [1, 5, 1, 1, 2, 1, 1, 3, 1, 2, 1, 1, 1, 2, 1, 2, 3, 1, 1, 1, 1, 1, 1, 1, 1, 1, 1, 1, 1, 5, 1, 1, 1, 4, 1, 2, 1, 1, 1, 1, 1, 3, 1, 4, 1, 1, 3, 1, 1]⟩, [1, 10, 0, 4, 3, 5, 13, 14, 7, 2, 9, 11, 12, 6, 8, 22, 17, 23, 18, 19, 20, 21, 15, 16, 31, 32, 26, 27, 35, 24, 36, 30, 40, 25, 41, 28, 29, 44, 38, 45, 33, 48, 43, 37, 42, 46, 39, 47, 34], 5, false⟩

def c9S30 : SState := ⟨[6, 6, 6, 2, 2, 0, 2, 3, 3, 6, 6, 6, 3, 2, 3, 2, 3, 3, 0, 0, 1, 1, 2, 3, 5, 4, 2, 0, 2, 5, 5, 5, 4, 4, 3, 2, 5, 4, 1, 3, 4, 3, 4, 4, 4, 3, 3, 1, 3], ⟨49, [1, 1, 1, 4, 4, 5, 13, 7, 7, 1, 1, 1, 12, 13, 7, 15, 16, 16, 18, 19, 20, 21, 15, 16, 29, 33, 26, 27, 35, 29, 29, 29, 33, 33, 41, 35, 29, 43, 38, 46, 33, 41, 43, 43, 43, 46, 46, 47, 41], [1, 6, 1, 1, 2, 1, 1, 3, 1, 2, 1, 1, 1, 2, 1, 2, 3, 1, 1, 1, 1, 1, 1, 1, 1, 1, 1, 1, 1, 5, 1, 1, 1, 4, 1, 2, 1, 1, 1, 1, 1, 3, 1, 4, 1, 1, 3, 1, 1]⟩, [1, 11, 0, 4, 3, 5, 13, 14, 7, 2, 9, 10, 12, 6, 8, 22, 17, 23, 18, 19, 20, 21, 15, 16, 31, 32, 26, 27, 35, 24, 36, 30, 40, 25, 41, 28, 29, 44, 38, 45, 33, 48, 43, 37, 42, 46, 39, 47, 34], 4, true⟩

def c9S31 : SState := ⟨[6, 6, 6, 2, 2, 0, 2, 3, 3, 6, 6, 6, 3, 2, 3, 2, 3, 3, 0, 3, 1, 1, 2, 3, 5, 4, 2, 0, 2, 5, 5, 5, 4, 4, 3, 2, 5, 4, 1, 3, 4, 3, 4, 4, 4, 3, 3, 1, 3], ⟨49, [1, 1, 1, 4, 4, 5, 13, 7, 7, 1, 1, 1, 19, 13, 7, 15, 16, 16, 18, 19, 20, 21, 15, 16, 29, 33, 26, 27, 35, 29, 29, 29, 33, 33, 41, 35, 29, 43, 38, 46, 33, 41, 43, 43, 43, 46, 46, 47, 41], [1, 6, 1, 1, 2, 1, 1, 3, 1, 2, 1, 1, 1, 2, 1, 2, 3, 1, 1, 2, 1, 1, 1, 1, 1, 1, 1, 1, 1, 5, 1, 1, 1, 4, 1, 2, 1, 1, 1, 1, 1, 3, 1, 4, 1, 1, 3, 1, 1]⟩, [1, 11, 0, 4, 3, 5, 13, 14, 7, 2, 9, 10, 19, 6, 8, 22, 17, 23, 18, 12, 20, 21, 15, 16, 31, 32, 26, 27, 35, 24, 36, 30, 40, 25, 41, 28, 29, 44, 38, 45, 33, 48, 43, 37, 42, 46, 39, 47, 34], 3, true⟩

def c9S32 : SState := ⟨[6, 6, 6, 2, 2, 0, 2, 3, 3, 6, 6, 6, 3, 2, 3, 2, 3, 3, 0, 3, 1, 1, 2, 3, 5, 4, 2, 2, 2, 5, 5, 5, 4, 4, 3, 2, 5, 4, 1, 3, 4, 3, 4, 4, 4, 3, 3, 1, 3], ⟨49, [1, 1, 1, 4, 4, 5, 13, 7, 7, 1, 1, 1, 19, 13, 7, 15, 16, 16, 18, 19, 20, 21, 15, 16, 29, 33, 27, 27, 35, 29, 29, 29, 33, 33, 41, 35, 29, 43, 38, 46, 33, 41, 43, 43, 43, 46, 46, 47, 41], [1, 6, 1, 1, 2, 1, 1, 3, 1, 2, 1, 1, 1, 2, 1, 2, 3, 1, 1, 2, 1, 1, 1, 1, 1, 1, 1, 2, 1, 5, 1, 1, 1, 4, 1, 2, 1, 1, 1, 1, 1, 3, 1, 4, 1, 1, 3, 1, 1]⟩, [1, 11, 0, 4, 3, 5, 13, 14, 7, 2, 9, 10, 19, 6, 8, 22, 17, 23, 18, 12, 20, 21, 15, 16, 31, 32, 27, 26, 35, 24, 36, 30, 40, 25, 41, 28, 29, 44, 38, 45, 33, 48, 43, 37, 42, 46, 39, 47, 34], 2, true⟩

def c9S33 : SState := ⟨[6, 6, 6, 2, 2, 0, 2, 3, 3, 6, 6, 6, 3, 2, 3, 2, 3, 3, 0, 3, 1, 1, 2, 3, 5, 4, 2, 2, 2, 5, 5, 5, 4, 4, 3, 2, 5, 4, 1, 3, 4, 3, 4, 4, 4, 3, 3, 1, 3], ⟨49, [1, 1, 1, 4, 4, 5, 13, 7, 7, 1, 1, 1, 19, 13, 7, 15, 16, 16, 18, 19, 20, 21, 15, 16, 29, 33, 27, 27, 35, 29, 29, 29, 33, 33, 41, 35, 29, 43, 38, 46, 33, 41, 43, 43, 43, 46, 46, 47, 41], [1, 6, 1, 1, 2, 1, 1, 3, 1, 2, 1, 1, 1, 2, 1, 2, 3, 1, 1, 2, 1, 1, 1, 1, 1, 1, 1, 2, 1, 5, 1, 1, 1, 4, 1, 2, 1, 1, 1, 1, 1, 3, 1, 4, 1, 1, 3, 1, 1]⟩, [1, 11, 0, 4, 3, 5, 13, 14, 7, 2, 9, 10, 19, 6, 8, 22, 17, 23, 18, 12, 20, 21, 15, 16, 31, 32, 27, 26, 35, 24, 36, 30, 40, 25, 41, 28, 29, 44, 38, 45, 33, 48, 43, 37, 42, 46, 39, 47, 34], 2, false⟩

def c9S34 : SState := ⟨[6, 6, 6, 2, 2, 0, 2, 3, 3, 6, 6, 6, 3, 2, 3, 2, 3, 3, 1, 3, 1, 1, 2, 3, 5, 4, 2, 2, 2, 5, 5, 5, 4, 4, 3, 2, 5, 4, 1, 3, 4, 3, 4, 4, 4, 3, 3, 1, 3], ⟨49, [1, 1, 1, 4, 4, 5, 13, 7, 7, 1, 1, 1, 19, 13, 7, 15, 16, 16, 18, 19, 20, 21, 15, 16, 29, 33, 27, 27, 35, 29, 29, 29, 33, 33, 41, 35, 29, 43, 38, 46, 33, 41, 43, 43, 43, 46, 46, 47, 41], [1, 6, 1, 1, 2, 1, 1, 3, 1, 2, 1, 1, 1, 2, 1, 2, 3, 1, 1, 2, 1, 1, 1, 1, 1, 1, 1, 2, 1, 5, 1, 1, 1, 4, 1, 2, 1, 1, 1, 1, 1, 3, 1, 4, 1, 1, 3, 1, 1]⟩, [1, 11, 0, 4, 3, 5, 13, 14, 7, 2, 9, 10, 19, 6, 8, 22, 17, 23, 18, 12, 20, 21, 15, 16, 31, 32, 27, 26, 35, 24, 36, 30, 40, 25, 41, 28, 29, 44, 38, 45, 33, 48, 43, 37, 42, 46, 39, 47, 34], 1, true⟩

def c9S35 : SState := ⟨[6, 6, 6, 2, 2, 3, 2, 3, 3, 6, 6, 6, 3, 2, 3, 2, 3, 3, 1, 3, 1, 1, 2, 3, 5, 4, 2, 2, 2, 5, 5, 5, 4, 4, 3, 2, 5, 4, 1, 3, 4, 3, 4, 4, 4, 3, 3, 1, 3], ⟨49, [1, 1, 1, 4, 4, 19, 13, 7, 7, 1, 1, 1, 19, 13, 7, 15, 16, 16, 18, 19, 20, 21, 15, 16, 29, 33, 27, 27, 35, 29, 29, 29, 33, 33, 41, 35, 29, 43, 38, 46, 33, 41, 43, 43, 43, 46, 46, 47, 41], [1, 6, 1, 1, 2, 1, 1, 3, 1, 2, 1, 1, 1, 2, 1, 2, 3, 1, 1, 3, 1, 1, 1, 1, 1, 1, 1, 2, 1, 5, 1, 1, 1, 4, 1, 2, 1, 1, 1, 1, 1, 3, 1, 4, 1, 1, 3, 1, 1]⟩, [1, 11, 0, 4, 3, 12, 13, 14, 7, 2, 9, 10, 19, 6, 8, 22, 17, 23, 18, 5, 20, 21, 15, 16, 31, 32, 27, 26, 35, 24, 36, 30, 40, 25, 41, 28, 29, 44, 38, 45, 33, 48, 43, 37, 42, 46, 39, 47, 34], 0, true⟩

def c9in : String := "6002002030603030000010230420200000305010404003003"

def c9out : String := "6662232336663232331311235422255544325413434443313"

/-- The marking relation of the flood fill: `b` agrees with the base board
    `c` except that some cells of value 0 carry the mark `-(w*h)` and, when
    `n` is positive, some cells of value `n` carry the mark `-n`. -/
def MarkedFrom (sz : Nat) (n : Int) (c b : List Int) : Prop :=
  b.length = c.length ∧ ∀ j, j < c.length →
    b.getD j 0 = c.getD j 0 ∨
    (c.getD j 0 = 0 ∧ b.getD j 0 = -(sz : Int)) ∨
    (0 < n ∧ c.getD j 0 = n ∧ b.getD j 0 = -n)

theorem checkComplete_board (st : GState) : (checkComplete st).board = st.board := by
  unfold checkComplete
  split
  · rfl
  · split
    · rfl
    · rfl

theorem checkComplete_cheated (st : GState) : (checkComplete st).cheated = st.cheated := by
  unfold checkComplete
  split
  · rfl
  · split
    · rfl
    · rfl

/-- C5: `validate_desc` is claimed to reject every description containing a
    non-digit character.  The code tests `isdigit` on `*desc` — the first
    character — at every loop iteration, so a non-digit beyond position 0
    whose code does not exceed the size bound is accepted: on a 1×2 grid
    the description `"1/"` passes validation (`validateDesc` returns no
    error) although `'/'` is not a digit. -/
theorem c5_validate_desc_accepts_nondigit :
    validateDesc 1 2 ['1', '/'] = none ∧ isdigitChar '/' = false := by decide

/-- C6, counterexample: applying the edit string `"0_99"` to a 2×2 state
    (where `max(w,h) < 9`) is *not* rejected: `execute_move` accepts it and
    writes 99 into cell 0. -/
theorem c6_cex_write99 :
    (executeMove c6st mv099).map (fun s => s.board) = some [99, 2, 2, 0] ∧
    max c6st.w c6st.h < 9 := by decide

/-- C6 (amended): malformed single-cell edits with no parsable number
    (such as `"abc"`) are rejected with the state unchanged, but no range
    validation is applied to a well-formed `<index>_<value>` pair: `"0_99"`
    is accepted on every state and writes 99 into cell 0 (and the parses
    use `strtol` with base 0, so whitespace, signs and hex/octal prefixes
    are also accepted). -/
theorem c6_amended_no_range_check :
    (∀ st : GState, executeMove st mvAbc = none) ∧
    (∀ st : GState, ∃ st', executeMove st mv099 = some st' ∧
      st'.board = st.board.set 0 99 ∧ st'.cheated = st.cheated) := by
  refine ⟨fun st => rfl, fun st => ⟨_, rfl, ?_, ?_⟩⟩
  · rw [checkComplete_board]
    rfl
  · rw [checkComplete_cheated]


/-- C3, counterexample: on the 2×1 board `[1, 0]`, cell 1 satisfies the
    claimed condition for the forced singleton (its only neighbour is
    numbered with value `v = 1`, it has no empty neighbour, and no
    neighbour triggers the absorption rule), yet the solver does not assign
    `1` to it: the board is returned unchanged and unsolved (the code
    clears the `one` flag whenever a neighbour holds 1). -/
theorem c3_cex_one_neighbour :
    specForcedOneB (solverInit [1, 0] 2 1).board (solverInit [1, 0] 2 1).dsf 2 1 1 = true ∧
    solver [1, 0] 2 1 = (false, [1, 0]) := by decide

/-- C4, counterexample: on the 4×1 board `[0, 3, 3, 1]` the absorption rule
    fires at the empty cell 0 with neighbour 1 (value 3) — cell 0 is
    assigned 3 — although the would-be size in the claim's sense (the
    equal-valued region of the neighbour plus one for the absorbed cell,
    i.e. `3`) is *not* less than `v = 3`.  The code's flood count also
    passes through empty cells and blocks the pre-marked cell, giving 2
    here. -/
theorem c4_cex_pocket :
    firstAbsorb (solverInit [0, 3, 3, 1] 4 1).board 4 1 0 [0, 1, 2, 3] = some 1 ∧
    (emptyCellCase 4 1 0 (solverInit [0, 3, 3, 1] 4 1)).board = [3, 3, 3, 1] ∧
    specWouldBeSize [0, 3, 3, 1] 4 1 1 = 3 ∧
    ¬ (specWouldBeSize [0, 3, 3, 1] 4 1 1 < ([0, 3, 3, 1] : List Int).getD 1 0) := by
  decide

/-- C8, counterexample: on the 9×1 board `[9, 0, …, 0]` (a valid
    description for 9×1, whose clue value equals `w*h`), the first solver
    pass makes forced assignments (`learn` is set) yet the number of empty
    cells *increases* from 8 to 9: the flood's `-SENTINEL` mark collides
    with the mark of value `w*h` and `count_and_clear` erases those cells
    to empty. -/
theorem c8_cex_erasure :
    countEmpty [9, 0, 0, 0, 0, 0, 0, 0, 0] = 8 ∧
    (onePass 9 1 (solverInit [9, 0, 0, 0, 0, 0, 0, 0, 0] 9 1)).learn = true ∧
    countEmpty (onePass 9 1 (solverInit [9, 0, 0, 0, 0, 0, 0, 0, 0] 9 1)).board = 9 := by
  decide

/-- C10, counterexample: the solver does not always preserve non-empty
    input cells: on the 9×1 board `[9, 0, …, 0]` the clue 9 in cell 0 is
    erased (the final board holds 0 there). -/
theorem c10_cex_erasure :
    ([9, 0, 0, 0, 0, 0, 0, 0, 0] : List Int).getD 0 0 = 9 ∧
    (solver [9, 0, 0, 0, 0, 0, 0, 0, 0] 9 1).2.getD 0 0 = 0 := by decide

/-- C7, counterexample: with all sets singletons (the state at the start of
    every generation attempt) and shuffled priority array `[1, 0, 2, 3]` on
    a 2×2 grid, `validate_board` reports the conflict `(a, b) = (1, 3)` —
    cell 1 with its *last* conflicting neighbour 3 — although cell 0 (a
    lower cell index) also has a conflict, with its first neighbour 1.
    The scan follows the shuffled order, not ascending cell index, and the
    last conflicting neighbour of the scanned cell wins. -/
theorem c7_cex_scan_order :
    validateBoard (dsfInit 4) 2 2 [1, 0, 2, 3] = some (1, 3, none) ∧
    (scanCell (dsfInit 4) 2 2 0).isSome = true ∧
    (dsfInit 4).canon 0 ≠ (dsfInit 4).canon 1 ∧
    (dsfInit 4).size 0 = (dsfInit 4).size 1 := by decide

theorem foldl_preserve {α : Type} {β : Type} (P : α → Prop) (f : α → β → α)
    (h : ∀ a x, P a → P (f a x)) : ∀ (l : List β) (a : α), P a → P (l.foldl f a) := by
  intro l
  induction l with
  | nil => intro a ha; exact ha
  | cons x xs ih => intro a ha; exact ih (f a x) (h a x ha)

theorem getD_set (l : List Int) (i j : Nat) (v : Int) :
    (l.set i v).getD j 0 = if j = i ∧ j < l.length then v else l.getD j 0 := by
  by_cases h1 : j = i ∧ j < l.length
  · obtain ⟨rfl, h2⟩ := h1
    rw [if_pos ⟨rfl, h2⟩, List.getD_eq_getElem _ 0 (by simpa using h2)]
    simp
  · rw [if_neg h1]
    by_cases hji : j = i
    · subst hji
      have hge : l.length ≤ j := by omega
      rw [List.getD_eq_default _ _ (by simpa using hge), List.getD_eq_default _ _ hge]
    · by_cases hj : j < l.length
      · rw [List.getD_eq_getElem _ 0 (by simpa using hj), List.getD_eq_getElem _ 0 hj]
        exact List.getElem_set_ne (by omega) _
      · rw [List.getD_eq_default _ _ (by simpa using not_lt.mp hj),
          List.getD_eq_default _ _ (not_lt.mp hj)]

theorem floodF_succ (fuel : Nat) (board : List Int) (w h i : Nat) (n : Int) :
    floodF (fuel + 1) board w h i n =
      if board.getD i 0 = 0 ∨ board.getD i 0 = n then
        (List.range 4).foldl
          (fun b j => match neighbor w h i j with
            | some idx => floodF fuel b w h idx n
            | none => b)
          (board.set i (if board.getD i 0 = 0 then -((w * h : Nat) : Int)
                        else -(board.getD i 0)))
      else board := rfl

theorem markedFrom_set (sz : Nat) (n : Int) (c b : List Int) (i : Nat)
    (hsz : 0 < sz) (hn : 0 ≤ n) (hb : MarkedFrom sz n c b)
    (hcond : b.getD i 0 = 0 ∨ b.getD i 0 = n) :
    MarkedFrom sz n c
      (b.set i (if b.getD i 0 = 0 then -(sz : Int) else -(b.getD i 0))) := by
  obtain ⟨hlen, hpt⟩ := hb
  refine ⟨by simpa using hlen, ?_⟩
  intro j hj
  rw [getD_set]
  by_cases hji : j = i ∧ j < b.length
  · rw [if_pos hji]
    obtain ⟨rfl, _⟩ := hji
    rcases hpt j hj with hA | ⟨hc0, hbm⟩ | ⟨hpos, hcn, hbn⟩
    · by_cases h0 : b.getD j 0 = 0
      · rw [if_pos h0]
        right; left
        exact ⟨by omega, rfl⟩
      · rw [if_neg h0]
        have hbn2 : b.getD j 0 = n := by tauto
        right; right
        exact ⟨by omega, by omega, by omega⟩
    · exfalso
      rcases hcond with h0 | hnn <;> omega
    · exfalso
      rcases hcond with h0 | hnn <;> omega
  · rw [if_neg hji]
    exact hpt j hj

theorem flood_marks (w h : Nat) (n : Int) (c : List Int)
    (hsz : 0 < w * h) (hn : 0 ≤ n) :
    ∀ (fuel : Nat) (b : List Int) (i : Nat),
      MarkedFrom (w * h) n c b → MarkedFrom (w * h) n c (floodF fuel b w h i n) := by
  intro fuel
  induction fuel with
  | zero => intro b i hb; exact hb
  | succ fuel ih =>
    intro b i hb
    rw [floodF_succ]
    by_cases hcond : b.getD i 0 = 0 ∨ b.getD i 0 = n
    · rw [if_pos hcond]
      apply foldl_preserve (MarkedFrom (w * h) n c)
      · intro a x ha
        cases hnb : neighbor w h i x with
        | some idx => exact ih a idx ha
        | none => exact ha
      · exact markedFrom_set (w * h) n c b i hsz hn ⟨hb.1, hb.2⟩ hcond
    · rw [if_neg hcond]
      exact hb

theorem countAndClear_restore (sz : Nat) (n : Int) (c b : List Int)
    (hsz : 0 < sz) (hnsz : n ≠ (sz : Int))
    (hc : ∀ j, j < c.length →
      (0 ≤ c.getD j 0 ∧ c.getD j 0 ≠ (sz : Int)) ∨ c.getD j 0 = -(sz : Int))
    (hm : MarkedFrom sz n c b) :
    (countAndClear sz b).2 = c.map (fun v => if v = -(sz : Int) then 0 else v) := by
  obtain ⟨hlen, hpt⟩ := hm
  have hcc : (countAndClear sz b).2 =
      b.map (fun v => if v < 0 then (if v = -(sz : Int) then 0 else -v) else v) := rfl
  rw [hcc]
  apply List.ext_getElem
  · simpa using hlen
  · intro j h1 h2
    have hjb : j < b.length := by simpa using h1
    have hjc : j < c.length := by simpa using h2
    rw [List.getElem_map, List.getElem_map,
      ← List.getD_eq_getElem b 0 hjb, ← List.getD_eq_getElem c 0 hjc]
    rcases hpt j hjc with hA | ⟨hc0, hbm⟩ | ⟨hpos, hcn, hbn⟩
    · rw [hA]
      rcases hc j hjc with ⟨hge, hne⟩ | hcm
      · split_ifs <;> omega
      · rw [hcm]
        split_ifs <;> omega
    · rw [hc0, hbm]
      split_ifs <;> omega
    · rw [hcn, hbn]
      split_ifs <;> omega

theorem boardOK_getD (sz : Nat) (b : List Int) (hok : BoardOK sz b) (j : Nat)
    (hsz : 0 < sz) : 0 ≤ b.getD j 0 ∧ b.getD j 0 ≠ (sz : Int) := by
  by_cases hj : j < b.length
  · rw [List.getD_eq_getElem b 0 hj]
    exact hok _ (List.getElem_mem hj)
  · rw [List.getD_eq_default _ _ (not_lt.mp hj)]
    constructor
    · omega
    · omega

theorem count_premark_restore (w h : Nat) (b : List Int) (i idx : Nat)
    (hw : 0 < w * h) (hlen : b.length = w * h) (hok : BoardOK (w * h) b)
    (hi0 : b.getD i 0 = 0) (hne : idx ≠ i) :
    (count (b.set i (-((w * h : Nat) : Int))) w h idx).2 = b := by
  set c := b.set i (-((w * h : Nat) : Int)) with hcdef
  have hcget : ∀ j, c.getD j 0 = if j = i ∧ j < b.length then -((w * h : Nat) : Int)
      else b.getD j 0 := fun j => getD_set b i j _
  have hn : c.getD idx 0 = b.getD idx 0 := by
    rw [hcget]
    rw [if_neg (by tauto)]
  have hnge : 0 ≤ b.getD idx 0 ∧ b.getD idx 0 ≠ ((w * h : Nat) : Int) :=
    boardOK_getD _ _ hok idx hw
  have hcok : ∀ j, j < c.length →
      (0 ≤ c.getD j 0 ∧ c.getD j 0 ≠ ((w * h : Nat) : Int)) ∨
      c.getD j 0 = -((w * h : Nat) : Int) := by
    intro j hj
    rw [hcget]
    by_cases hji : j = i ∧ j < b.length
    · rw [if_pos hji]; right; rfl
    · rw [if_neg hji]
      left
      exact boardOK_getD _ _ hok j hw
  have hm0 : MarkedFrom (w * h) (c.getD idx 0) c c := by
    refine ⟨rfl, ?_⟩
    intro j hj
    left; rfl
  have hmk := flood_marks w h (c.getD idx 0) c hw (hn ▸ hnge.1) (floodFuel w h) c idx hm0
  have hres := countAndClear_restore (w * h) (c.getD idx 0) c _ hw (hn ▸ hnge.2) hcok hmk
  have hcount : count c w h idx =
      countAndClear (w * h) (floodF (floodFuel w h) c w h idx (c.getD idx 0)) := rfl
  rw [hcount, hres]
  apply List.ext_getElem
  · simp [hcdef]
  · intro j h1 h2
    rw [List.getElem_map]
    have hjb : j < b.length := h2
    have hjc : j < c.length := by simpa [hcdef] using h2
    rw [← List.getD_eq_getElem c 0 hjc, ← List.getD_eq_getElem b 0 hjb, hcget]
    have hbOK := boardOK_getD _ _ hok j hw
    by_cases hji : j = i ∧ j < b.length
    · rw [if_pos hji, if_pos rfl]
      obtain ⟨rfl, _⟩ := hji
      omega
    · rw [if_neg hji, if_neg (by omega)]

theorem neighbor_char (w h i j idx : Nat) (hn : neighbor w h i j = some idx) :
    0 ≤ ((i % w : Nat) : Int) + dxs.getD j 0 ∧
    ((i % w : Nat) : Int) + dxs.getD j 0 < (w : Int) ∧
    0 ≤ ((i / w : Nat) : Int) + dys.getD j 0 ∧
    ((i / w : Nat) : Int) + dys.getD j 0 < (h : Int) ∧
    (idx : Int) = (w : Int) * (((i / w : Nat) : Int) + dys.getD j 0) +
      (((i % w : Nat) : Int) + dxs.getD j 0) := by
  simp only [neighbor] at hn
  split at hn
  · rename_i hcond
    obtain ⟨h1, h2, h3, h4⟩ := hcond
    refine ⟨h1, h2, h3, h4, ?_⟩
    have hinj : ((w : Int) * (((i / w : Nat) : Int) + dys.getD j 0) +
        (((i % w : Nat) : Int) + dxs.getD j 0)).toNat = idx := by
      exact Option.some.inj hn
    have hnn : 0 ≤ (w : Int) * (((i / w : Nat) : Int) + dys.getD j 0) +
        (((i % w : Nat) : Int) + dxs.getD j 0) :=
      add_nonneg (mul_nonneg (by positivity) h3) h1
    rw [← hinj, Int.toNat_of_nonneg hnn]
  · exact absurd hn (by simp)

theorem neighbor_lt (w h i j idx : Nat) (hn : neighbor w h i j = some idx) :
    idx < w * h := by
  obtain ⟨h1, h2, h3, h4, h5⟩ := neighbor_char w h i j idx hn
  have hwpos : (0 : Int) < w := by omega
  have hstep : (w : Int) * (((i / w : Nat) : Int) + dys.getD j 0 + 1) ≤ (w : Int) * h :=
    mul_le_mul_of_nonneg_left (by omega) (by omega)
  have hexp : (w : Int) * (((i / w : Nat) : Int) + dys.getD j 0 + 1) =
      (w : Int) * (((i / w : Nat) : Int) + dys.getD j 0) + w := by ring
  have : (idx : Int) < (w : Int) * h := by omega
  exact_mod_cast this

theorem neighbor_ne_self (w h i j idx : Nat) (hj : j < 4)
    (hn : neighbor w h i j = some idx) : idx ≠ i := by
  obtain ⟨h1, h2, h3, h4, h5⟩ := neighbor_char w h i j idx hn
  have hkey : (w : Int) * ((i / w : Nat) : Int) + ((i % w : Nat) : Int) = i := by
    exact_mod_cast Nat.div_add_mod i w
  have hm : (0 : Int) ≤ ((i % w : Nat) : Int) := by positivity
  have hq : (0 : Int) ≤ ((i / w : Nat) : Int) := by positivity
  intro hEq
  have hII : (idx : Int) = (i : Int) := by exact_mod_cast hEq
  interval_cases j
  · have hdx : dxs.getD 0 0 = -1 := rfl
    have hdy : dys.getD 0 0 = 0 := rfl
    rw [hdx] at h1 h2 h5
    rw [hdy] at h3 h4 h5
    have e1 : (w : Int) * (((i / w : Nat) : Int) + 0) +
        (((i % w : Nat) : Int) + -1) =
        (w : Int) * ((i / w : Nat) : Int) + ((i % w : Nat) : Int) - 1 := by ring
    rw [e1] at h5
    linarith
  · have hdx : dxs.getD 1 0 = 1 := rfl
    have hdy : dys.getD 1 0 = 0 := rfl
    rw [hdx] at h1 h2 h5
    rw [hdy] at h3 h4 h5
    have e1 : (w : Int) * (((i / w : Nat) : Int) + 0) +
        (((i % w : Nat) : Int) + 1) =
        (w : Int) * ((i / w : Nat) : Int) + ((i % w : Nat) : Int) + 1 := by ring
    rw [e1] at h5
    linarith
  · have hdx : dxs.getD 2 0 = 0 := rfl
    have hdy : dys.getD 2 0 = -1 := rfl
    rw [hdx] at h1 h2 h5
    rw [hdy] at h3 h4 h5
    have e1 : (w : Int) * (((i / w : Nat) : Int) + -1) +
        (((i % w : Nat) : Int) + 0) =
        (w : Int) * ((i / w : Nat) : Int) + ((i % w : Nat) : Int) - w := by ring
    rw [e1] at h5
    linarith
  · have hdx : dxs.getD 3 0 = 0 := rfl
    have hdy : dys.getD 3 0 = 1 := rfl
    rw [hdx] at h1 h2 h5
    rw [hdy] at h3 h4 h5
    have e1 : (w : Int) * (((i / w : Nat) : Int) + 1) +
        (((i % w : Nat) : Int) + 0) =
        (w : Int) * ((i / w : Nat) : Int) + ((i % w : Nat) : Int) + w := by ring
    rw [e1] at h5
    linarith

theorem emptyKLoop_cons_eq (w h i k : Nat) (ks : List Nat) (s : SState) (one : Bool) :
    emptyKLoop w h i (k :: ks) s one =
      match neighbor w h i k with
      | none => emptyKLoop w h i ks s one
      | some idx =>
        if s.board.getD idx 0 = 0 then emptyKLoop w h i ks s false
        else
          if (count (s.board.set i (-((w * h : Nat) : Int))) w h idx).2.getD idx 0 ≤
              (count (s.board.set i (-((w * h : Nat) : Int))) w h idx).1 then
            emptyKLoop w h i ks
              { s with board := (count (s.board.set i (-((w * h : Nat) : Int))) w h idx).2 }
              (one && oneKeeps s.board s.dsf w h i idx)
          else
            (expandCell
              { s with board := (count (s.board.set i (-((w * h : Nat) : Int))) w h idx).2 }
              w h i idx,
             one && oneKeeps s.board s.dsf w h i idx, true) := rfl

theorem emptyKLoop_cons_none (w h i k : Nat) (ks : List Nat) (s : SState) (one : Bool)
    (hnb : neighbor w h i k = none) :
    emptyKLoop w h i (k :: ks) s one = emptyKLoop w h i ks s one := by
  rw [emptyKLoop_cons_eq, hnb]

theorem emptyKLoop_cons_some (w h i k idx : Nat) (ks : List Nat) (s : SState) (one : Bool)
    (hnb : neighbor w h i k = some idx) :
    emptyKLoop w h i (k :: ks) s one =
      if s.board.getD idx 0 = 0 then emptyKLoop w h i ks s false
      else
        if (count (s.board.set i (-((w * h : Nat) : Int))) w h idx).2.getD idx 0 ≤
            (count (s.board.set i (-((w * h : Nat) : Int))) w h idx).1 then
          emptyKLoop w h i ks
            { s with board := (count (s.board.set i (-((w * h : Nat) : Int))) w h idx).2 }
            (one && oneKeeps s.board s.dsf w h i idx)
        else
          (expandCell
            { s with board := (count (s.board.set i (-((w * h : Nat) : Int))) w h idx).2 }
            w h i idx,
           one && oneKeeps s.board s.dsf w h i idx, true) := by
  rw [emptyKLoop_cons_eq, hnb]

theorem firstAbsorb_cons_none (board : List Int) (w h i k : Nat) (ks : List Nat)
    (hnb : neighbor w h i k = none) :
    firstAbsorb board w h i (k :: ks) = firstAbsorb board w h i ks := by
  simp only [firstAbsorb, hnb]

theorem firstAbsorb_cons_some (board : List Int) (w h i k idx : Nat) (ks : List Nat)
    (hnb : neighbor w h i k = some idx) :
    firstAbsorb board w h i (k :: ks) =
      if board.getD idx 0 = 0 then firstAbsorb board w h i ks
      else if absorbTest board w h i idx then some idx
      else firstAbsorb board w h i ks := by
  simp only [firstAbsorb, hnb]

theorem allOne_cons_none (board : List Int) (d : DSF) (w h i k : Nat) (ks : List Nat)
    (hnb : neighbor w h i k = none) :
    allOne board d w h i (k :: ks) = allOne board d w h i ks := by
  simp only [allOne, hnb]

theorem allOne_cons_some (board : List Int) (d : DSF) (w h i k idx : Nat) (ks : List Nat)
    (hnb : neighbor w h i k = some idx) :
    allOne board d w h i (k :: ks) =
      if board.getD idx 0 = 0 then false
      else oneKeeps board d w h i idx && allOne board d w h i ks := by
  simp only [allOne, hnb]

theorem emptyKLoop_absorb_none (w h : Nat) (s : SState) (i : Nat)
    (hw : 0 < w * h) (hlen : s.board.length = w * h) (hok : BoardOK (w * h) s.board)
    (hi0 : s.board.getD i 0 = 0) :
    ∀ ks : List Nat, (∀ k ∈ ks, k < 4) →
      firstAbsorb s.board w h i ks = none →
      ∀ one, emptyKLoop w h i ks s one = (s, one && allOne s.board s.dsf w h i ks, false) := by
  intro ks
  induction ks with
  | nil =>
    intro _ _ one
    simp [emptyKLoop, allOne]
  | cons k ks ih =>
    intro hks hfa one
    have hkstail : ∀ k ∈ ks, k < 4 := fun x hx => hks x (List.mem_cons_of_mem k hx)
    cases hnb : neighbor w h i k with
    | none =>
      rw [firstAbsorb_cons_none _ _ _ _ _ _ hnb] at hfa
      rw [emptyKLoop_cons_none _ _ _ _ _ _ _ hnb, ih hkstail hfa one,
        allOne_cons_none _ _ _ _ _ _ _ hnb]
    | some idx =>
      have hne : idx ≠ i := neighbor_ne_self w h i k idx (hks k (List.mem_cons_self k ks)) hnb
      have hres : (count (s.board.set i (-((w * h : Nat) : Int))) w h idx).2 = s.board :=
        count_premark_restore w h s.board i idx hw hlen hok hi0 hne
      rw [firstAbsorb_cons_some _ _ _ _ _ _ _ hnb] at hfa
      rw [emptyKLoop_cons_some _ _ _ _ _ _ _ _ hnb,
        allOne_cons_some _ _ _ _ _ _ _ _ hnb]
      by_cases hv : s.board.getD idx 0 = 0
      · rw [if_pos hv] at hfa ⊢
        rw [ih hkstail hfa false, if_pos hv]
        simp only [Bool.false_and, Bool.and_false]
      · rw [if_neg hv] at hfa ⊢
        have habs : absorbTest s.board w h i idx = false := by
          by_cases hab : absorbTest s.board w h i idx
          · rw [if_pos hab] at hfa; cases hfa
          · simpa using hab
        have hcond : (count (s.board.set i (-((w * h : Nat) : Int))) w h idx).2.getD idx 0 ≤
            (count (s.board.set i (-((w * h : Nat) : Int))) w h idx).1 := by
          have h2 := habs
          unfold absorbTest at h2
          simpa using of_decide_eq_false h2
        rw [if_pos hcond, hres]
        have hskip : firstAbsorb s.board w h i ks = none := by
          rwa [if_neg (by simp [habs])] at hfa
        have heta : { s with board := s.board } = s := rfl
        rw [heta, ih hkstail hskip (one && oneKeeps s.board s.dsf w h i idx), if_neg hv,
          Bool.and_assoc]

theorem emptyKLoop_absorb_some (w h : Nat) (s : SState) (i : Nat)
    (hw : 0 < w * h) (hlen : s.board.length = w * h) (hok : BoardOK (w * h) s.board)
    (hi0 : s.board.getD i 0 = 0) :
    ∀ ks : List Nat, (∀ k ∈ ks, k < 4) → ∀ idx,
      firstAbsorb s.board w h i ks = some idx →
      ∀ one, (emptyKLoop w h i ks s one).1 = expandCell s w h i idx ∧
        (emptyKLoop w h i ks s one).2.2 = true := by
  intro ks
  induction ks with
  | nil =>
    intro _ idx hfa
    simp [firstAbsorb] at hfa
  | cons k ks ih =>
    intro hks idx hfa one
    have hkstail : ∀ k ∈ ks, k < 4 := fun x hx => hks x (List.mem_cons_of_mem k hx)
    cases hnb : neighbor w h i k with
    | none =>
      rw [firstAbsorb_cons_none _ _ _ _ _ _ hnb] at hfa
      rw [emptyKLoop_cons_none _ _ _ _ _ _ _ hnb]
      exact ih hkstail idx hfa one
    | some idx2 =>
      have hne : idx2 ≠ i := neighbor_ne_self w h i k idx2 (hks k (List.mem_cons_self k ks)) hnb
      have hres : (count (s.board.set i (-((w * h : Nat) : Int))) w h idx2).2 = s.board :=
        count_premark_restore w h s.board i idx2 hw hlen hok hi0 hne
      rw [firstAbsorb_cons_some _ _ _ _ _ _ _ hnb] at hfa
      rw [emptyKLoop_cons_some _ _ _ _ _ _ _ _ hnb]
      by_cases hv : s.board.getD idx2 0 = 0
      · rw [if_pos hv] at hfa ⊢
        exact ih hkstail idx hfa false
      · rw [if_neg hv] at hfa ⊢
        by_cases hab : absorbTest s.board w h i idx2
        · rw [if_pos hab] at hfa
          have hidx : idx2 = idx := Option.some.inj hfa
          subst hidx
          have hlt : (count (s.board.set i (-((w * h : Nat) : Int))) w h idx2).1 <
              (count (s.board.set i (-((w * h : Nat) : Int))) w h idx2).2.getD idx2 0 := by
            have h2 := hab
            unfold absorbTest at h2
            simpa using of_decide_eq_true h2
          rw [if_neg (by omega)]
          rw [hres]
          exact ⟨rfl, rfl⟩
        · rw [if_neg hab] at hfa
          have hge : (count (s.board.set i (-((w * h : Nat) : Int))) w h idx2).2.getD idx2 0 ≤
              (count (s.board.set i (-((w * h : Nat) : Int))) w h idx2).1 := by
            have h2 : absorbTest s.board w h i idx2 = false := by simpa using hab
            unfold absorbTest at h2
            simpa using of_decide_eq_false h2
          rw [if_pos hge, hres]
          have heta : { s with board := s.board } = s := rfl
          rw [heta]
          exact ih hkstail idx hfa _

theorem emptyCellCase_eq (w h i : Nat) (s : SState) :
    emptyCellCase w h i s =
      if (emptyKLoop w h i [0, 1, 2, 3] s true).2.2 then
        (emptyKLoop w h i [0, 1, 2, 3] s true).1
      else if (emptyKLoop w h i [0, 1, 2, 3] s true).2.1 then
        { (emptyKLoop w h i [0, 1, 2, 3] s true).1 with
          board := (emptyKLoop w h i [0, 1, 2, 3] s true).1.board.set i 1,
          nempty := (emptyKLoop w h i [0, 1, 2, 3] s true).1.nempty - 1,
          learn := true }
      else (emptyKLoop w h i [0, 1, 2, 3] s true).1 := rfl

theorem emptyCellCase_char (w h : Nat) (s : SState) (i : Nat)
    (hw : 0 < w * h) (hlen : s.board.length = w * h) (hok : BoardOK (w * h) s.board)
    (hi0 : s.board.getD i 0 = 0) :
    emptyCellCase w h i s =
      match firstAbsorb s.board w h i [0, 1, 2, 3] with
      | some idx => expandCell s w h i idx
      | none =>
        if allOne s.board s.dsf w h i [0, 1, 2, 3] then
          ⟨s.board.set i 1, s.dsf, s.conn, s.nempty - 1, true⟩
        else s := by
  have hks : ∀ k ∈ ([0, 1, 2, 3] : List Nat), k < 4 := by decide
  cases hfa : firstAbsorb s.board w h i [0, 1, 2, 3] with
  | some idx =>
    obtain ⟨h1, h2⟩ :=
      emptyKLoop_absorb_some w h s i hw hlen hok hi0 [0, 1, 2, 3] hks idx hfa true
    rw [emptyCellCase_eq, h1, h2]
    simp
  | none =>
    have hkl := emptyKLoop_absorb_none w h s i hw hlen hok hi0 [0, 1, 2, 3] hks hfa true
    rw [emptyCellCase_eq, hkl]
    simp only [Bool.true_and]
    by_cases hone : allOne s.board s.dsf w h i [0, 1, 2, 3]
    · simp [hone]
    · simp [hone]

/-- C3 (amended): the solver drops a 1 into the empty cell `i` exactly when
    no neighbour triggers the absorption rule, `i` has no empty in-range
    neighbour, and every numbered neighbour's value `v` satisfies both
    `v ≠ 1` *and* "the would-be size of `i` joining that neighbour's region
    exceeds `v`" (the `allOne` condition `oneKeeps`); the claim's
    "`v == 1` or the would-be size exceeds `v`" must be corrected to
    "`v ≠ 1` and the would-be size exceeds `v`" — a neighbouring 1 blocks
    the deduction.  The empty-cell branch equals: expand at the first
    absorbing neighbour if one exists; otherwise assign 1 exactly when
    `allOne` holds; otherwise leave the state unchanged. -/
theorem c3_forced_one_characterisation (w h : Nat) (s : SState) (i : Nat)
    (hw : 0 < w * h) (hlen : s.board.length = w * h) (hok : BoardOK (w * h) s.board)
    (hi0 : s.board.getD i 0 = 0) :
    emptyCellCase w h i s =
      match firstAbsorb s.board w h i [0, 1, 2, 3] with
      | some idx => expandCell s w h i idx
      | none =>
        if allOne s.board s.dsf w h i [0, 1, 2, 3] then
          ⟨s.board.set i 1, s.dsf, s.conn, s.nempty - 1, true⟩
        else s :=
  emptyCellCase_char w h s i hw hlen hok hi0

theorem firstAbsorb_some_spec (board : List Int) (w h i : Nat) :
    ∀ ks : List Nat, ∀ idx, firstAbsorb board w h i ks = some idx →
      ∃ k ∈ ks, neighbor w h i k = some idx ∧ board.getD idx 0 ≠ 0 ∧
        absorbTest board w h i idx = true := by
  intro ks
  induction ks with
  | nil =>
    intro idx hfa
    simp [firstAbsorb] at hfa
  | cons k ks ih =>
    intro idx hfa
    cases hnb : neighbor w h i k with
    | none =>
      rw [firstAbsorb_cons_none _ _ _ _ _ _ hnb] at hfa
      obtain ⟨k2, hk2, hrest⟩ := ih idx hfa
      exact ⟨k2, List.mem_cons_of_mem k hk2, hrest⟩
    | some idx2 =>
      rw [firstAbsorb_cons_some _ _ _ _ _ _ _ hnb] at hfa
      by_cases hv : board.getD idx2 0 = 0
      · rw [if_pos hv] at hfa
        obtain ⟨k2, hk2, hrest⟩ := ih idx hfa
        exact ⟨k2, List.mem_cons_of_mem k hk2, hrest⟩
      · rw [if_neg hv] at hfa
        by_cases hab : absorbTest board w h i idx2
        · rw [if_pos hab] at hfa
          have : idx2 = idx := Option.some.inj hfa
          subst this
          exact ⟨k, List.mem_cons_self k ks, hnb, hv, by simpa using hab⟩
        · rw [if_neg hab] at hfa
          obtain ⟨k2, hk2, hrest⟩ := ih idx hfa
          exact ⟨k2, List.mem_cons_of_mem k hk2, hrest⟩

theorem firstAbsorb_none_spec (board : List Int) (w h i : Nat) :
    ∀ ks : List Nat, firstAbsorb board w h i ks = none →
      ∀ k ∈ ks, ∀ idx, neighbor w h i k = some idx → board.getD idx 0 ≠ 0 →
        absorbTest board w h i idx = false := by
  intro ks
  induction ks with
  | nil =>
    intro _ k hk
    simp at hk
  | cons k ks ih =>
    intro hfa k2 hk2 idx hnb2 hv2
    cases hnb : neighbor w h i k with
    | none =>
      rw [firstAbsorb_cons_none _ _ _ _ _ _ hnb] at hfa
      rcases List.mem_cons.mp hk2 with rfl | hk2t
      · rw [hnb] at hnb2; cases hnb2
      · exact ih hfa k2 hk2t idx hnb2 hv2
    | some idx2 =>
      rw [firstAbsorb_cons_some _ _ _ _ _ _ _ hnb] at hfa
      by_cases hv : board.getD idx2 0 = 0
      · rw [if_pos hv] at hfa
        rcases List.mem_cons.mp hk2 with rfl | hk2t
        · rw [hnb] at hnb2
          have : idx2 = idx := Option.some.inj hnb2
          subst this
          exact absurd hv hv2
        · exact ih hfa k2 hk2t idx hnb2 hv2
      · rw [if_neg hv] at hfa
        by_cases hab : absorbTest board w h i idx2
        · rw [if_pos hab] at hfa; cases hfa
        · rcases List.mem_cons.mp hk2 with rfl | hk2t
          · rw [hnb] at hnb2
            have : idx2 = idx := Option.some.inj hnb2
            subst this
            simpa using hab
          · rw [if_neg hab] at hfa
            exact ih hfa k2 hk2t idx hnb2 hv2

theorem expandCell_board (s : SState) (w h dst src : Nat) :
    (expandCell s w h dst src).board = s.board.set dst (s.board.getD src 0) := rfl

theorem mem_dirs_lt (k : Nat) (hk : k ∈ ([0, 1, 2, 3] : List Nat)) : k < 4 := by
  simp at hk
  rcases hk with rfl | rfl | rfl | rfl <;> omega

/-- C4 (amended): in the empty-cell absorption rule, the size tested
    against `v = board[idx]` is the flood count from `idx` through the
    cells currently valued `v` *or empty*, with the tentatively marked cell
    `i` blocked and not counted; `i` is assigned `v` (at the first such
    neighbour in direction order) exactly when that count is less than
    `v`. -/
theorem c4_absorption_characterisation (w h : Nat) (s : SState) (i : Nat)
    (hw : 0 < w * h) (hlen : s.board.length = w * h) (hok : BoardOK (w * h) s.board)
    (hi0 : s.board.getD i 0 = 0) :
    match firstAbsorb s.board w h i [0, 1, 2, 3] with
    | some idx =>
        s.board.getD idx 0 ≠ 0 ∧
        (count (s.board.set i (-((w * h : Nat) : Int))) w h idx).1 < s.board.getD idx 0 ∧
        (emptyCellCase w h i s).board = s.board.set i (s.board.getD idx 0)
    | none =>
        (∀ k ∈ ([0, 1, 2, 3] : List Nat), ∀ idx, neighbor w h i k = some idx →
          s.board.getD idx 0 ≠ 0 →
          s.board.getD idx 0 ≤ (count (s.board.set i (-((w * h : Nat) : Int))) w h idx).1) ∧
        ((emptyCellCase w h i s).board = s.board.set i 1 ∨
          (emptyCellCase w h i s).board = s.board) := by
  have hchar := emptyCellCase_char w h s i hw hlen hok hi0
  cases hfa : firstAbsorb s.board w h i [0, 1, 2, 3] with
  | some idx =>
    obtain ⟨k, hk, hnb, hv, hab⟩ := firstAbsorb_some_spec s.board w h i [0, 1, 2, 3] idx hfa
    have hne : idx ≠ i := neighbor_ne_self w h i k idx (mem_dirs_lt k hk) hnb
    have hres : (count (s.board.set i (-((w * h : Nat) : Int))) w h idx).2 = s.board :=
      count_premark_restore w h s.board i idx hw hlen hok hi0 hne
    have hlt : (count (s.board.set i (-((w * h : Nat) : Int))) w h idx).1 <
        (count (s.board.set i (-((w * h : Nat) : Int))) w h idx).2.getD idx 0 := by
      unfold absorbTest at hab
      simpa using of_decide_eq_true hab
    rw [hres] at hlt
    refine ⟨hv, hlt, ?_⟩
    rw [hfa] at hchar
    rw [hchar, expandCell_board]
  | none =>
    have hall := firstAbsorb_none_spec s.board w h i [0, 1, 2, 3] hfa
    constructor
    · intro k hk idx hnb hv
      have hne : idx ≠ i := neighbor_ne_self w h i k idx (mem_dirs_lt k hk) hnb
      have hres : (count (s.board.set i (-((w * h : Nat) : Int))) w h idx).2 = s.board :=
        count_premark_restore w h s.board i idx hw hlen hok hi0 hne
      have hab := hall k hk idx hnb hv
      unfold absorbTest at hab
      have hge := of_decide_eq_false hab
      rw [hres] at hge
      omega
    · rw [hfa] at hchar
      rw [hchar]
      by_cases hone : allOne s.board s.dsf w h i [0, 1, 2, 3]
      · left
        rw [if_pos hone]
      · right
        rw [if_neg hone]

theorem c3_amended_witness :
    (emptyCellCase 3 1 0 c3wState).board = [1, 2, 2] := by
  have hchar := c3_forced_one_characterisation 3 1 c3wState 0
    (by decide) (by decide) (by unfold BoardOK; decide) (by decide)
  rw [hchar]
  decide

theorem c4_amended_witness :
    (emptyCellCase 4 1 0 c4wState).board = ([0, 3, 3, 1] : List Int).set 0 3 := by
  have hchar := c4_absorption_characterisation 4 1 c4wState 0
    (by decide) (by decide) (by unfold BoardOK; decide) (by decide)
  rw [show firstAbsorb c4wState.board 4 1 0 [0, 1, 2, 3] = some 1 from by decide] at hchar
  exact hchar.2.2

theorem foldl_preserve_mem {α : Type} {β : Type} (P : α → Prop) (f : α → β → α) :
    ∀ (l : List β), (∀ a, P a → ∀ b ∈ l, P (f a b)) → ∀ a, P a → P (l.foldl f a) := by
  intro l
  induction l with
  | nil => intro _ a ha; exact ha
  | cons x xs ih =>
    intro hstep a ha
    exact ih (fun a2 ha2 b hb => hstep a2 ha2 b (List.mem_cons_of_mem x hb)) (f a x)
      (hstep a ha x (List.mem_cons_self x xs))

theorem countEmpty_set (b : List Int) : ∀ (dst : Nat) (v : Int), dst < b.length →
    b.getD dst 0 = 0 → v ≠ 0 → countEmpty (b.set dst v) + 1 = countEmpty b := by
  induction b with
  | nil => intro dst v hd; simp at hd
  | cons x xs ih =>
    intro dst v hd h0 hv
    cases dst with
    | zero =>
      simp only [List.getD_cons_zero] at h0
      subst h0
      simp [countEmpty, List.countP_cons, hv]
    | succ d =>
      simp only [List.getD_cons_succ] at h0
      have hkey := ih d v (by simpa using hd) h0 hv
      simp only [List.set_cons_succ, countEmpty, List.countP_cons] at hkey ⊢
      omega

theorem boardOK_weak (sz : Nat) (b : List Int) (h : BoardOK sz b) : WeakOK sz b :=
  fun v hv => ⟨(h v hv).1, Or.inr (h v hv).2⟩

theorem weakOK_strong (sz : Nat) (b : List Int) (h : WeakOK sz b) (h2 : 2 ≤ sz) :
    BoardOK sz b := by
  intro v hv
  refine ⟨(h v hv).1, ?_⟩
  rcases (h v hv).2 with h3 | h3
  · omega
  · exact h3

theorem weakOK_set (sz : Nat) (b : List Int) (dst : Nat) (v : Int) (h : WeakOK sz b)
    (hv : 0 ≤ v) (hd : sz ≤ 1 ∨ v ≠ (sz : Int)) : WeakOK sz (b.set dst v) := by
  intro x hx
  rcases List.mem_or_eq_of_mem_set hx with hx2 | rfl
  · exact h x hx2
  · exact ⟨hv, hd⟩

theorem weakOK_getD (sz : Nat) (b : List Int) (h : WeakOK sz b) (j : Nat)
    (hj : j < b.length) : 0 ≤ b.getD j 0 ∧ (sz ≤ 1 ∨ b.getD j 0 ≠ (sz : Int)) := by
  rw [List.getD_eq_getElem b 0 hj]
  exact h _ (List.getElem_mem hj)

theorem expandCell_nempty (s : SState) (w h dst src : Nat) :
    (expandCell s w h dst src).nempty = s.nempty - 1 := rfl

theorem expandCell_learn (s : SState) (w h dst src : Nat) :
    (expandCell s w h dst src).learn = true := rfl

theorem dirScan_cons_none (board : List Int) (d : DSF) (w h j k : Nat) (ks : List Nat)
    (exp : Option Nat) (hnb : neighbor w h j k = none) :
    dirScan board d w h j (k :: ks) exp = dirScan board d w h j ks exp := by
  simp only [dirScan, hnb]

theorem dirScan_cons_some (board : List Int) (d : DSF) (w h j k idx : Nat) (ks : List Nat)
    (exp : Option Nat) (hnb : neighbor w h j k = some idx) :
    dirScan board d w h j (k :: ks) exp =
      if board.getD idx 0 ≠ 0 then dirScan board d w h j ks exp
      else if exp = some idx then dirScan board d w h j ks exp
      else if board.getD j 0 < expandsize board d w h idx (board.getD j 0) then
        dirScan board d w h j ks exp
      else
        match exp with
        | some _ => none
        | none => dirScan board d w h j ks (some idx) := by
  simp only [dirScan, hnb]

theorem dirScan_empty (board : List Int) (d : DSF) (w h j : Nat) :
    ∀ (ks : List Nat) (exp : Option Nat),
      (∀ e, exp = some e → board.getD e 0 = 0 ∧ e < w * h) →
      ∀ r, dirScan board d w h j ks exp = some (some r) →
        board.getD r 0 = 0 ∧ r < w * h := by
  intro ks
  induction ks with
  | nil =>
    intro exp hexp r hr
    simp only [dirScan, Option.some.injEq] at hr
    exact hexp r hr
  | cons k ks ih =>
    intro exp hexp r hr
    cases hnb : neighbor w h j k with
    | none =>
      rw [dirScan_cons_none _ _ _ _ _ _ _ _ hnb] at hr
      exact ih exp hexp r hr
    | some idx =>
      rw [dirScan_cons_some _ _ _ _ _ _ _ _ _ hnb] at hr
      by_cases h1 : board.getD idx 0 ≠ 0
      · rw [if_pos h1] at hr
        exact ih exp hexp r hr
      · rw [if_neg h1] at hr
        by_cases h2 : exp = some idx
        · rw [if_pos h2] at hr
          exact ih exp hexp r hr
        · rw [if_neg h2] at hr
          by_cases h3 : board.getD j 0 < expandsize board d w h idx (board.getD j 0)
          · rw [if_pos h3] at hr
            exact ih exp hexp r hr
          · rw [if_neg h3] at hr
            cases exp with
            | some e => simp at hr
            | none =>
              refine ih (some idx) ?_ r hr
              intro e he
              have he2 : idx = e := Option.some.inj he
              subst he2
              exact ⟨not_not.mp h1, neighbor_lt w h j k idx hnb⟩

theorem ringScan_succ (board : List Int) (d : DSF) (conn : List Nat) (w h i fuel j : Nat)
    (exp : Option Nat) :
    ringScan board d conn w h i (fuel + 1) j exp =
      match dirScan board d w h j [0, 1, 2, 3] exp with
      | none => none
      | some exp1 =>
        if conn.getD j j = i then some exp1
        else ringScan board d conn w h i fuel (conn.getD j j) exp1 := rfl

theorem ringScan_empty (board : List Int) (d : DSF) (conn : List Nat) (w h i : Nat) :
    ∀ (fuel j : Nat) (exp : Option Nat),
      (∀ e, exp = some e → board.getD e 0 = 0 ∧ e < w * h) →
      ∀ exp1, ringScan board d conn w h i fuel j exp = some exp1 →
        ∀ r, exp1 = some r → board.getD r 0 = 0 ∧ r < w * h := by
  intro fuel
  induction fuel with
  | zero =>
    intro j exp hexp exp1 hr r hr2
    simp only [ringScan, Option.some.injEq] at hr
    subst hr
    exact hexp r hr2
  | succ f ih =>
    intro j exp hexp exp1 hr r hr2
    rw [ringScan_succ] at hr
    cases hds : dirScan board d w h j [0, 1, 2, 3] exp with
    | none =>
      rw [hds] at hr
      simp at hr
    | some e1 =>
      rw [hds] at hr
      have hr3 : (if conn.getD j j = i then some e1
          else ringScan board d conn w h i f (conn.getD j j) e1) = some exp1 := hr
      have he1 : ∀ e, e1 = some e → board.getD e 0 = 0 ∧ e < w * h := by
        intro e he
        subst he
        exact dirScan_empty board d w h j [0, 1, 2, 3] exp hexp e hds
      by_cases hj : conn.getD j j = i
      · rw [if_pos hj] at hr3
        have he2 : e1 = exp1 := by simpa using hr3
        subst he2
        exact he1 r hr2
      · rw [if_neg hj] at hr3
        exact ih (conn.getD j j) e1 he1 exp1 hr3 r hr2

theorem regionCase_cases (w h i : Nat) (s : SState) :
    regionCase w h i s = s ∨
      ∃ dst, dst < w * h ∧ s.board.getD dst 0 = 0 ∧
        regionCase w h i s = expandCell s w h dst i := by
  by_cases h1 : i ≠ s.dsf.canon i
  · left
    simp only [regionCase]
    rw [if_pos h1]
  · by_cases h2 : (s.dsf.size (s.dsf.canon i) : Int) = s.board.getD (s.dsf.canon i) 0
    · left
      simp only [regionCase]
      rw [if_neg h1, if_pos h2]
    · cases hrs : ringScan s.board s.dsf s.conn w h i (w * h) i none with
      | none =>
        left
        simp only [regionCase]
        rw [if_neg h1, if_neg h2, hrs]
      | some exp1 =>
        cases exp1 with
        | none =>
          left
          simp only [regionCase]
          rw [if_neg h1, if_neg h2, hrs]
        | some e =>
          right
          have he := ringScan_empty s.board s.dsf s.conn w h i (w * h) i none
            (by intro e2 he2; cases he2) (some e) hrs e rfl
          refine ⟨e, he.2, he.1, ?_⟩
          simp only [regionCase]
          rw [if_neg h1, if_neg h2, hrs]

theorem cellStep_cases (w h : Nat) (s : SState) (i : Nat)
    (hw : 0 < w * h) (hi : i < w * h) (hlen : s.board.length = w * h)
    (hok : WeakOK (w * h) s.board) :
    cellStep w h s i = s ∨
      ∃ dst v, dst < w * h ∧ s.board.getD dst 0 = 0 ∧ 0 < v ∧
        (w * h ≤ 1 ∨ v ≠ ((w * h : Nat) : Int)) ∧
        (cellStep w h s i).board = s.board.set dst v ∧
        (cellStep w h s i).nempty = s.nempty - 1 ∧
        (cellStep w h s i).learn = true := by
  by_cases hi0 : s.board.getD i 0 = 0
  · have hcs : cellStep w h s i = emptyCellCase w h i s := by
      unfold cellStep
      rw [if_pos hi0]
    by_cases hsz : 2 ≤ w * h
    · have hokB : BoardOK (w * h) s.board := weakOK_strong _ _ hok hsz
      have hchar := emptyCellCase_char w h s i hw hlen hokB hi0
      cases hfa : firstAbsorb s.board w h i [0, 1, 2, 3] with
      | some idx =>
        rw [hfa] at hchar
        obtain ⟨k, hk, hnb, hv, hab⟩ :=
          firstAbsorb_some_spec s.board w h i [0, 1, 2, 3] idx hfa
        have hidxlt : idx < w * h := neighbor_lt w h i k idx hnb
        obtain ⟨hge, hdis⟩ := weakOK_getD _ _ hok idx (by omega)
        right
        refine ⟨i, s.board.getD idx 0, hi, hi0, by omega, hdis, ?_, ?_, ?_⟩
        · rw [hcs, hchar, expandCell_board]
        · rw [hcs, hchar, expandCell_nempty]
        · rw [hcs, hchar, expandCell_learn]
      | none =>
        rw [hfa] at hchar
        by_cases hone : allOne s.board s.dsf w h i [0, 1, 2, 3]
        · rw [if_pos hone] at hchar
          right
          refine ⟨i, 1, hi, hi0, one_pos, Or.inr (by omega), ?_, ?_, ?_⟩ <;>
            rw [hcs, hchar]
        · rw [if_neg hone] at hchar
          left
          rw [hcs, hchar]
    · have hsz1 : w * h = 1 := by omega
      have hi00 : i = 0 := by omega
      subst hi00
      have hw0 : w ≠ 0 := by
        intro hc
        rw [hc] at hsz1
        simp at hsz1
      have hh0 : h ≠ 0 := by
        intro hc
        rw [hc] at hsz1
        simp at hsz1
      have hwle : w ≤ 1 := by
        by_contra hc
        push_neg at hc
        have hmul : 2 * 1 ≤ w * h := Nat.mul_le_mul (by omega) (by omega)
        omega
      have hhle : h ≤ 1 := by
        by_contra hc
        push_neg at hc
        have hmul : 1 * 2 ≤ w * h := Nat.mul_le_mul (by omega) (by omega)
        omega
      have hw1 : w = 1 := by omega
      have hh1 : h = 1 := by omega
      subst hw1
      subst hh1
      have hkl : emptyKLoop 1 1 0 [0, 1, 2, 3] s true = (s, true, false) := by
        rw [emptyKLoop_cons_none 1 1 0 0 [1, 2, 3] s true (by decide),
          emptyKLoop_cons_none 1 1 0 1 [2, 3] s true (by decide),
          emptyKLoop_cons_none 1 1 0 2 [3] s true (by decide),
          emptyKLoop_cons_none 1 1 0 3 [] s true (by decide)]
        rfl
      right
      refine ⟨0, 1, by omega, hi0, one_pos, Or.inl (by omega), ?_, ?_, ?_⟩ <;>
        · rw [hcs, emptyCellCase_eq, hkl]
          rfl
  · have hcs : cellStep w h s i = regionCase w h i s := by
      unfold cellStep
      rw [if_neg hi0]
    rcases regionCase_cases w h i s with hreq | ⟨dst, hdlt, hd0, hreq⟩
    · left
      rw [hcs, hreq]
    · right
      obtain ⟨hge, hdis⟩ := weakOK_getD _ _ hok i (by omega)
      refine ⟨dst, s.board.getD i 0, hdlt, hd0, by omega, hdis, ?_, ?_, ?_⟩
      · rw [hcs, hreq, expandCell_board]
      · rw [hcs, hreq, expandCell_nempty]
      · rw [hcs, hreq, expandCell_learn]

theorem onePass_step (w h : Nat) (s : SState) (hw : 0 < w * h)
    (hlen : s.board.length = w * h) (hok : WeakOK (w * h) s.board) :
    (onePass w h s).board.length = w * h ∧ WeakOK (w * h) (onePass w h s).board ∧
    (onePass w h s).nempty - (countEmpty (onePass w h s).board : Int) =
      s.nempty - (countEmpty s.board : Int) ∧
    agreesNonzero s.board (onePass w h s).board ∧
    countEmpty (onePass w h s).board ≤ countEmpty s.board ∧
    ((onePass w h s).learn = true →
      countEmpty (onePass w h s).board < countEmpty s.board) := by
  have hop : onePass w h s =
      (List.range (w * h)).foldl (cellStep w h) { s with learn := false } := rfl
  rw [hop]
  refine foldl_preserve_mem
    (fun t : SState => t.board.length = w * h ∧ WeakOK (w * h) t.board ∧
      t.nempty - (countEmpty t.board : Int) = s.nempty - (countEmpty s.board : Int) ∧
      agreesNonzero s.board t.board ∧ countEmpty t.board ≤ countEmpty s.board ∧
      (t.learn = true → countEmpty t.board < countEmpty s.board))
    (cellStep w h) (List.range (w * h)) ?_ { s with learn := false }
    ⟨hlen, hok, rfl, fun j hj hn => rfl, le_refl _,
      fun hc => absurd hc Bool.false_ne_true⟩
  intro t ht b hb
  have hblt : b < w * h := List.mem_range.mp hb
  obtain ⟨hl, hwk, hne, hag, hle, hlt⟩ := ht
  rcases cellStep_cases w h t b hw hblt hl hwk with
    heq | ⟨dst, v, hdlt, hd0, hv0, hvd, hbrd, hnem, hlrn⟩
  · rw [heq]
    exact ⟨hl, hwk, hne, hag, hle, hlt⟩
  · have hdlen : dst < t.board.length := by omega
    have hce : countEmpty (t.board.set dst v) + 1 = countEmpty t.board :=
      countEmpty_set t.board dst v hdlen hd0 (by omega)
    refine ⟨?_, ?_, ?_, ?_, ?_, ?_⟩
    · rw [hbrd, List.length_set, hl]
    · rw [hbrd]
      exact weakOK_set _ _ _ _ hwk (by omega) hvd
    · rw [hbrd, hnem]
      have hceZ : (countEmpty (t.board.set dst v) : Int) + 1 = (countEmpty t.board : Int) := by
        exact_mod_cast hce
      omega
    · intro j hj hn
      have h1 := hag j hj hn
      have hjd : j ≠ dst := by
        intro hc
        subst hc
        rw [h1] at hd0
        exact hn hd0
      rw [hbrd, getD_set]
      rw [if_neg (fun hc => hjd hc.1)]
      exact h1
    · rw [hbrd]
      omega
    · intro _
      rw [hbrd]
      omega

theorem agreesNonzero_trans (a b c : List Int) (hl : a.length = b.length)
    (h1 : agreesNonzero a b) (h2 : agreesNonzero b c) : agreesNonzero a c := by
  intro j hj hn
  have e1 := h1 j hj hn
  have e2 := h2 j (by omega) (by rw [e1]; exact hn)
  rw [e2, e1]

theorem solverLoop_succ (w h fuel : Nat) (s : SState) :
    solverLoop w h (fuel + 1) s =
      if ((onePass w h s).learn && !((onePass w h s).nempty == 0)) = true then
        solverLoop w h fuel (onePass w h s)
      else onePass w h s := rfl

theorem solverLoop_step (w h : Nat) : ∀ (fuel : Nat) (s : SState), 0 < w * h →
    s.board.length = w * h → WeakOK (w * h) s.board →
    (solverLoop w h fuel s).board.length = w * h ∧
    WeakOK (w * h) (solverLoop w h fuel s).board ∧
    (solverLoop w h fuel s).nempty - (countEmpty (solverLoop w h fuel s).board : Int) =
      s.nempty - (countEmpty s.board : Int) ∧
    agreesNonzero s.board (solverLoop w h fuel s).board := by
  intro fuel
  induction fuel with
  | zero =>
    intro s hw hlen hok
    exact ⟨hlen, hok, rfl, fun j hj hn => rfl⟩
  | succ f ih =>
    intro s hw hlen hok
    obtain ⟨h1, h2, h3, h4, h5, h6⟩ := onePass_step w h s hw hlen hok
    rw [solverLoop_succ]
    by_cases hc : ((onePass w h s).learn && !((onePass w h s).nempty == 0)) = true
    · rw [if_pos hc]
      obtain ⟨g1, g2, g3, g4⟩ := ih (onePass w h s) hw h1 h2
      refine ⟨g1, g2, g3.trans h3, ?_⟩
      exact agreesNonzero_trans _ _ _ (by omega) h4 g4
    · rw [if_neg hc]
      exact ⟨h1, h2, h3, h4⟩

theorem solverLoop_fuel (w h : Nat) : ∀ (f1 f2 : Nat) (s : SState), 0 < w * h →
    s.board.length = w * h → WeakOK (w * h) s.board →
    countEmpty s.board < f1 → countEmpty s.board < f2 →
    solverLoop w h f1 s = solverLoop w h f2 s := by
  intro f1
  induction f1 with
  | zero =>
    intro f2 s _ _ _ hf1 _
    exact absurd hf1 (Nat.not_lt_zero _)
  | succ a ih =>
    intro f2 s hw hlen hok hf1 hf2
    cases f2 with
    | zero => exact absurd hf2 (Nat.not_lt_zero _)
    | succ b =>
      obtain ⟨h1, h2, h3, h4, h5, h6⟩ := onePass_step w h s hw hlen hok
      rw [solverLoop_succ, solverLoop_succ]
      by_cases hc : ((onePass w h s).learn && !((onePass w h s).nempty == 0)) = true
      · rw [if_pos hc, if_pos hc]
        have hlearn : (onePass w h s).learn = true := by
          simp only [Bool.and_eq_true] at hc
          exact hc.1
        have hdec := h6 hlearn
        exact ih b (onePass w h s) hw h1 h2 (by omega) (by omega)
      · rw [if_neg hc, if_neg hc]

theorem solverInitStep_board_nempty (w h : Nat) (s : SState) (i : Nat) :
    (solverInitStep w h s i).board = s.board ∧
    (solverInitStep w h s i).nempty =
      s.nempty + (if s.board.getD i 0 = 0 then 1 else 0) := by
  unfold solverInitStep
  by_cases h0 : s.board.getD i 0 = 0
  · rw [if_pos h0, if_pos h0]
    exact ⟨rfl, rfl⟩
  · rw [if_neg h0, if_neg h0]
    have key := foldl_preserve
      (fun t : SState => t.board = s.board ∧ t.nempty = s.nempty)
      (fun t j =>
        match neighbor w h i j with
        | some idx =>
          if t.board.getD i 0 = t.board.getD idx 0 then
            let dc := mergeConn t.dsf t.conn i idx
            { t with dsf := dc.1, conn := dc.2 }
          else t
        | none => t)
      (by
        intro a x ha
        cases hnb : neighbor w h i x with
        | none =>
          simp only [hnb]
          exact ha
        | some idx =>
          simp only [hnb]
          by_cases he : a.board.getD i 0 = a.board.getD idx 0
          · rw [if_pos he]
            exact ha
          · rw [if_neg he]
            exact ha)
      (List.range 4) s ⟨rfl, rfl⟩
    exact ⟨key.1, by rw [key.2]; omega⟩

theorem countP_cons_int (p : Nat → Bool) (a : Nat) (l : List Nat) :
    (((a :: l).countP p : Nat) : Int) =
      ((l.countP p : Nat) : Int) + (if p a = true then (1 : Int) else 0) := by
  rw [List.countP_cons]
  by_cases hp : p a = true
  · rw [if_pos hp, if_pos hp]
    push_cast
    ring
  · rw [if_neg hp, if_neg hp]
    push_cast
    ring

theorem solverInit_fold (w h : Nat) :
    ∀ (L : List Nat) (s : SState),
      (L.foldl (solverInitStep w h) s).board = s.board ∧
      (L.foldl (solverInitStep w h) s).nempty =
        s.nempty + ((L.countP fun i => s.board.getD i 0 == 0 : Nat) : Int) := by
  intro L
  induction L with
  | nil =>
    intro s
    refine ⟨rfl, ?_⟩
    simp
  | cons i L ih =>
    intro s
    rw [List.foldl_cons]
    obtain ⟨hb, hn⟩ := solverInitStep_board_nempty w h s i
    obtain ⟨hb2, hn2⟩ := ih (solverInitStep w h s i)
    constructor
    · rw [hb2, hb]
    · rw [hn2, hn, hb, countP_cons_int]
      by_cases h0 : s.board.getD i 0 = 0
      · have hbeq : (s.board.getD i 0 == 0) = true := by simpa using h0
        rw [hbeq, if_pos rfl, if_pos h0]
        ring
      · have hbeq : (s.board.getD i 0 == 0) = false := by simpa using h0
        rw [hbeq, if_neg Bool.false_ne_true, if_neg h0]
        ring

theorem countP_range_getD : ∀ (l : List Int),
    ((List.range l.length).countP fun i => l.getD i 0 == 0) = countEmpty l := by
  intro l
  induction l with
  | nil => rfl
  | cons x xs ih =>
    have hrhs : countEmpty (x :: xs) =
        countEmpty xs + if (x == 0 : Bool) = true then 1 else 0 := by
      unfold countEmpty
      rw [List.countP_cons]
    rw [List.length_cons, List.range_succ_eq_map, List.countP_cons, List.countP_map, hrhs]
    have hfun : ((fun i => (x :: xs).getD i 0 == 0) ∘ Nat.succ) =
        (fun i => xs.getD i 0 == 0) := by
      funext i
      rfl
    rw [hfun, ih]
    rfl

theorem solverInit_board (orig : List Int) (w h : Nat) :
    (solverInit orig w h).board = orig :=
  (solverInit_fold w h (List.range (w * h))
    ⟨orig, dsfInit (w * h), List.range (w * h), 0, false⟩).1

theorem solverInit_nempty (orig : List Int) (w h : Nat) (hlen : orig.length = w * h) :
    (solverInit orig w h).nempty = (countEmpty orig : Int) := by
  have key : (solverInit orig w h).nempty =
      (0 : Int) + (((List.range (w * h)).countP fun i => orig.getD i 0 == 0 : Nat) : Int) :=
    (solverInit_fold w h (List.range (w * h))
      ⟨orig, dsfInit (w * h), List.range (w * h), 0, false⟩).2
  have hcp : ((List.range (w * h)).countP fun i => orig.getD i 0 == 0) = countEmpty orig := by
    rw [← hlen]
    exact countP_range_getD orig
  rw [key, hcp]
  omega

/-- C8 (amended): the spec's termination invariant "each learning pass
    strictly decreases the count of empty cells" fails on raw boards (a
    clue of value `w*h` is erased by the flood's mark collision, which can
    *increase* the count), but holds on boards whose values avoid the
    sentinel `w*h`: under `BoardOK`, (i) every pass that sets its `learn`
    flag strictly decreases the number of empty cells, (ii) the loop
    therefore terminates within `w*h` passes — any fuel beyond `w*h + 1`
    gives the same result — and (iii) the solver reports success exactly
    when no empty cells remain in its final board. -/
theorem c8_termination_amended (orig : List Int) (w h : Nat)
    (hw : 0 < w * h) (hlen : orig.length = w * h) (hok : BoardOK (w * h) orig) :
    (∀ s : SState, s.board.length = w * h → WeakOK (w * h) s.board →
      (onePass w h s).learn = true →
      countEmpty (onePass w h s).board < countEmpty s.board) ∧
    (∀ fuel, w * h + 1 ≤ fuel →
      solverLoop w h fuel (solverInit orig w h) =
        solverLoop w h (w * h + 1) (solverInit orig w h)) ∧
    ((solver orig w h).1 = true ↔ countEmpty (solver orig w h).2 = 0) := by
  have hb := solverInit_board orig w h
  have hlen2 : (solverInit orig w h).board.length = w * h := by
    rw [hb]
    exact hlen
  have hok2 : WeakOK (w * h) (solverInit orig w h).board := by
    rw [hb]
    exact boardOK_weak _ _ hok
  have hce : countEmpty (solverInit orig w h).board ≤ w * h := by
    rw [hb, ← hlen]
    exact List.countP_le_length _
  refine ⟨?_, ?_, ?_⟩
  · intro s hl hkk hlearn
    exact (onePass_step w h s hw hl hkk).2.2.2.2.2 hlearn
  · intro fuel hf
    exact solverLoop_fuel w h fuel (w * h + 1) (solverInit orig w h) hw hlen2 hok2
      (by omega) (by omega)
  · obtain ⟨f1, f2, f3, f4⟩ := solverLoop_step w h (w * h + 1) (solverInit orig w h)
      hw hlen2 hok2
    have hne0 : (solverInit orig w h).nempty =
        (countEmpty (solverInit orig w h).board : Int) := by
      rw [solverInit_nempty orig w h hlen, hb]
    have hfe : (solverLoop w h (w * h + 1) (solverInit orig w h)).nempty =
        (countEmpty (solverLoop w h (w * h + 1) (solverInit orig w h)).board : Int) := by
      omega
    show ((solverLoop w h (w * h + 1) (solverInit orig w h)).nempty == 0) = true ↔
      countEmpty (solverLoop w h (w * h + 1) (solverInit orig w h)).board = 0
    rw [beq_iff_eq, hfe]
    exact Int.natCast_eq_zero

theorem c8_amended_witness :
    (solver [0, 3, 3, 1] 4 1).1 = true ↔ countEmpty (solver [0, 3, 3, 1] 4 1).2 = 0 :=
  (c8_termination_amended [0, 3, 3, 1] 4 1 (by decide) (by decide)
    (by unfold BoardOK; decide)).2.2

/-- C10 (amended): the claim "the solver only assigns to empty cells and
    never changes a nonzero cell" fails on raw boards (a clue equal to
    `w*h` collides with the flood's `-SENTINEL` mark and is erased), but
    holds under `BoardOK`: for every input board whose values are
    non-negative and avoid `w*h`, the solver's output board agrees with the
    input on every non-empty input cell. -/
theorem c10_frame_amended (orig : List Int) (w h : Nat)
    (hw : 0 < w * h) (hlen : orig.length = w * h) (hok : BoardOK (w * h) orig) :
    agreesNonzero orig (solver orig w h).2 := by
  have hb := solverInit_board orig w h
  have hlen2 : (solverInit orig w h).board.length = w * h := by
    rw [hb]
    exact hlen
  have hok2 : WeakOK (w * h) (solverInit orig w h).board := by
    rw [hb]
    exact boardOK_weak _ _ hok
  have hag := (solverLoop_step w h (w * h + 1) (solverInit orig w h) hw hlen2 hok2).2.2.2
  rw [hb] at hag
  exact hag

theorem c10_amended_witness : agreesNonzero [1, 0, 2, 2] (solver [1, 0, 2, 2] 2 2).2 :=
  c10_frame_amended [1, 0, 2, 2] 2 2 (by decide) (by decide) (by unfold BoardOK; decide)

theorem findSome?_cons_eq {α β : Type} (f : α → Option β) (a : α) (l : List α) :
    (a :: l).findSome? f =
      match f a with
      | some b => some b
      | none => l.findSome? f := rfl

theorem findSome?_first {α β : Type} (f : α → Option β) :
    ∀ (l : List α) (b : β), l.findSome? f = some b →
      ∃ pre x post, l = pre ++ x :: post ∧ (∀ y ∈ pre, f y = none) ∧ f x = some b := by
  intro l
  induction l with
  | nil =>
    intro b hb
    simp [List.findSome?] at hb
  | cons a l ih =>
    intro b hb
    rw [findSome?_cons_eq] at hb
    cases hfa : f a with
    | some b2 =>
      rw [hfa] at hb
      have hb2 : b2 = b := by simpa using hb
      subst hb2
      exact ⟨[], a, l, rfl, by simp, hfa⟩
    | none =>
      rw [hfa] at hb
      obtain ⟨pre, x, post, hl, hpre, hx⟩ := ih b hb
      refine ⟨a :: pre, x, post, by rw [hl]; rfl, ?_, hx⟩
      intro y hy
      rcases List.mem_cons.mp hy with rfl | hy2
      · exact hfa
      · exact hpre y hy2

theorem findSome?_none_all {α β : Type} (f : α → Option β) :
    ∀ (l : List α), l.findSome? f = none → ∀ x ∈ l, f x = none := by
  intro l
  induction l with
  | nil =>
    intro _ x hx
    simp at hx
  | cons a l ih =>
    intro hn x hx
    rw [findSome?_cons_eq] at hn
    cases hfa : f a with
    | some b2 =>
      rw [hfa] at hn
      cases hn
    | none =>
      rw [hfa] at hn
      rcases List.mem_cons.mp hx with rfl | hx2
      · exact hfa
      · exact ih hn x hx2

theorem scanStep_none (d : DSF) (w h cell : Nat) (acc : Option (Nat × Nat) × Option Nat)
    (j : Nat) (hnb : neighbor w h cell j = none) : scanStep d w h cell acc j = acc := by
  simp only [scanStep, hnb]

theorem scanStep_some (d : DSF) (w h cell : Nat) (acc : Option (Nat × Nat) × Option Nat)
    (j nb : Nat) (hnb : neighbor w h cell j = some nb) :
    scanStep d w h cell acc j =
      if d.canon cell = d.canon nb then acc
      else if d.size (d.canon cell) = d.size (d.canon nb) then
        (some (d.canon cell, d.canon nb), acc.2)
      else if acc.2 = none then (acc.1, some (d.canon nb))
      else acc := by
  simp only [scanStep, hnb]

theorem scanFold_inv (d : DSF) (w h cell : Nat) :
    ∀ (ks : List Nat), (∀ k ∈ ks, k < 4) →
      ∀ (acc : Option (Nat × Nat) × Option Nat),
      ((∀ p, acc.1 = some p → p.1 = d.canon cell ∧
          ∃ k nb, k < 4 ∧ neighbor w h cell k = some nb ∧ p.2 = d.canon nb ∧
            p.1 ≠ p.2 ∧ d.size p.1 = d.size p.2) ∧
        (∀ cc, acc.2 = some cc → ∃ k nb, k < 4 ∧ neighbor w h cell k = some nb ∧
          cc = d.canon nb ∧ d.canon cell ≠ cc ∧ d.size (d.canon cell) ≠ d.size cc)) →
      ((∀ p, (ks.foldl (scanStep d w h cell) acc).1 = some p → p.1 = d.canon cell ∧
          ∃ k nb, k < 4 ∧ neighbor w h cell k = some nb ∧ p.2 = d.canon nb ∧
            p.1 ≠ p.2 ∧ d.size p.1 = d.size p.2) ∧
        (∀ cc, (ks.foldl (scanStep d w h cell) acc).2 = some cc →
          ∃ k nb, k < 4 ∧ neighbor w h cell k = some nb ∧
          cc = d.canon nb ∧ d.canon cell ≠ cc ∧ d.size (d.canon cell) ≠ d.size cc)) := by
  intro ks
  induction ks with
  | nil =>
    intro _ acc hacc
    exact hacc
  | cons k ks ih =>
    intro hks acc hacc
    have hk4 : k < 4 := hks k (List.mem_cons_self k ks)
    have hkstail : ∀ x ∈ ks, x < 4 := fun x hx => hks x (List.mem_cons_of_mem k hx)
    rw [List.foldl_cons]
    refine ih hkstail (scanStep d w h cell acc k) ?_
    cases hnb : neighbor w h cell k with
    | none =>
      rw [scanStep_none _ _ _ _ _ _ hnb]
      exact hacc
    | some nb =>
      rw [scanStep_some _ _ _ _ _ _ _ hnb]
      by_cases h1 : d.canon cell = d.canon nb
      · rw [if_pos h1]
        exact hacc
      · rw [if_neg h1]
        by_cases h2 : d.size (d.canon cell) = d.size (d.canon nb)
        · rw [if_pos h2]
          constructor
          · intro p hp
            have hp2 : (d.canon cell, d.canon nb) = p := by simpa using hp
            subst hp2
            exact ⟨rfl, k, nb, hk4, hnb, rfl, h1, h2⟩
          · exact hacc.2
        · rw [if_neg h2]
          by_cases h3 : acc.2 = none
          · rw [if_pos h3]
            constructor
            · exact hacc.1
            · intro cc hcc
              have hcc2 : d.canon nb = cc := by simpa using hcc
              subst hcc2
              exact ⟨k, nb, hk4, hnb, rfl, h1, h2⟩
          · rw [if_neg h3]
            exact hacc

theorem scanCell_spec (d : DSF) (w h cell a b : Nat) (c : Option Nat)
    (hs : scanCell d w h cell = some (a, b, c)) :
    a = d.canon cell ∧
    (∃ k nb, k < 4 ∧ neighbor w h cell k = some nb ∧ b = d.canon nb ∧ a ≠ b ∧
      d.size a = d.size b) ∧
    (∀ cc, c = some cc → ∃ k nb, k < 4 ∧ neighbor w h cell k = some nb ∧
      cc = d.canon nb ∧ a ≠ cc ∧ d.size a ≠ d.size cc) := by
  have hinv := scanFold_inv d w h cell (List.range 4)
    (fun k hk => List.mem_range.mp hk) (none, none)
    ⟨fun p hp => Option.noConfusion hp, fun cc hcc => Option.noConfusion hcc⟩
  rcases hrr : (List.range 4).foldl (scanStep d w h cell) (none, none) with ⟨r1, r2⟩
  unfold scanCell at hs
  rw [hrr] at hs
  cases r1 with
  | none => simp at hs
  | some ab =>
    have hs2 : (some (ab.1, ab.2, r2) : Option (Nat × Nat × Option Nat)) =
        some (a, b, c) := hs
    have habc : ab.1 = a ∧ ab.2 = b ∧ r2 = c := by
      simp only [Option.some.injEq, Prod.mk.injEq] at hs2
      exact ⟨hs2.1, hs2.2.1, hs2.2.2⟩
    obtain ⟨ha, hb, hc⟩ := habc
    have hr1 : ((List.range 4).foldl (scanStep d w h cell) (none, none)).1 = some ab := by
      rw [hrr]
    obtain ⟨hab1, k, nb, hk4, hnb, hab2, hne, hsz⟩ := hinv.1 ab hr1
    refine ⟨by rw [← ha, hab1], ⟨k, nb, hk4, hnb, ?_, ?_, ?_⟩, ?_⟩
    · rw [← hb, hab2]
    · rw [← ha, ← hb]; exact hne
    · rw [← ha, ← hb]; exact hsz
    · intro cc hcc
      have hr2c : ((List.range 4).foldl (scanStep d w h cell) (none, none)).2 = some cc := by
        rw [hrr]
        show r2 = some cc
        rw [hc]
        exact hcc
      obtain ⟨k2, nb2, hk24, hnb2, hcc2, hne2, hsz2⟩ := hinv.2 cc hr2c
      have hac : a = d.canon cell := by rw [← ha, hab1]
      refine ⟨k2, nb2, hk24, hnb2, hcc2, ?_, ?_⟩
      · rw [hac]
        exact hne2
      · rw [hac]
        exact hsz2

theorem scanFold_conflict_none (d : DSF) (w h cell : Nat) :
    ∀ (ks : List Nat) (acc : Option (Nat × Nat) × Option Nat),
      (ks.foldl (scanStep d w h cell) acc).1 = none →
      acc.1 = none ∧ ∀ k ∈ ks, ∀ nb, neighbor w h cell k = some nb →
        d.canon cell ≠ d.canon nb →
        d.size (d.canon cell) ≠ d.size (d.canon nb) := by
  intro ks
  induction ks with
  | nil =>
    intro acc hn
    refine ⟨hn, ?_⟩
    intro k hk
    simp at hk
  | cons k ks ih =>
    intro acc hn
    rw [List.foldl_cons] at hn
    obtain ⟨hstep, htail⟩ := ih (scanStep d w h cell acc k) hn
    cases hnb : neighbor w h cell k with
    | none =>
      rw [scanStep_none _ _ _ _ _ _ hnb] at hstep
      refine ⟨hstep, ?_⟩
      intro k2 hk2 nb2 hnb2 hcan
      rcases List.mem_cons.mp hk2 with rfl | hk2t
      · rw [hnb] at hnb2
        cases hnb2
      · exact htail k2 hk2t nb2 hnb2 hcan
    | some nb =>
      rw [scanStep_some _ _ _ _ _ _ _ hnb] at hstep
      by_cases h1 : d.canon cell = d.canon nb
      · rw [if_pos h1] at hstep
        refine ⟨hstep, ?_⟩
        intro k2 hk2 nb2 hnb2 hcan
        rcases List.mem_cons.mp hk2 with rfl | hk2t
        · rw [hnb] at hnb2
          have : nb = nb2 := Option.some.inj hnb2
          subst this
          exact absurd h1 hcan
        · exact htail k2 hk2t nb2 hnb2 hcan
      · rw [if_neg h1] at hstep
        by_cases h2 : d.size (d.canon cell) = d.size (d.canon nb)
        · rw [if_pos h2] at hstep
          cases hstep
        · rw [if_neg h2] at hstep
          have hacc1 : acc.1 = none := by
            by_cases h3 : acc.2 = none
            · rw [if_pos h3] at hstep
              exact hstep
            · rw [if_neg h3] at hstep
              exact hstep
          refine ⟨hacc1, ?_⟩
          intro k2 hk2 nb2 hnb2 hcan
          rcases List.mem_cons.mp hk2 with rfl | hk2t
          · rw [hnb] at hnb2
            have : nb = nb2 := Option.some.inj hnb2
            subst this
            exact h2
          · exact htail k2 hk2t nb2 hnb2 hcan

theorem scanCell_none_spec (d : DSF) (w h cell : Nat)
    (hs : scanCell d w h cell = none) :
    ∀ k, k < 4 → ∀ nb, neighbor w h cell k = some nb →
      d.canon cell ≠ d.canon nb →
      d.size (d.canon cell) ≠ d.size (d.canon nb) := by
  rcases hrr : (List.range 4).foldl (scanStep d w h cell) (none, none) with ⟨r1, r2⟩
  unfold scanCell at hs
  rw [hrr] at hs
  cases r1 with
  | some ab => simp at hs
  | none =>
    intro k hk nb hnb hcan
    have hr1 : ((List.range 4).foldl (scanStep d w h cell) (none, none)).1 = none := by
      rw [hrr]
    exact (scanFold_conflict_none d w h cell (List.range 4) (none, none) hr1).2
      k (List.mem_range.mpr hk) nb hnb hcan

theorem attemptLoop_valid (w h maxsize : Nat) (sq : List Nat) :
    ∀ (fuel : Nat) (d0 : DSF) (board : List Int),
      attemptLoop w h maxsize sq fuel d0 = some board →
      ∃ d : DSF, validateBoard d w h sq = none ∧
        board = (List.range (w * h)).map (fun i => (d.size i : Int)) := by
  intro fuel
  induction fuel with
  | zero =>
    intro d0 board hb
    cases hb
  | succ f ih =>
    intro d0 board hb
    unfold attemptLoop at hb
    cases hv : validateBoard d0 w h sq with
    | none =>
      rw [hv] at hb
      have hb2 : (some ((List.range (w * h)).map fun i => (d0.size i : Int)) :
          Option (List Int)) = some board := hb
      exact ⟨d0, hv, (Option.some.inj hb2).symm⟩
    | some abc =>
      rw [hv] at hb
      have hb2 : (if maxsize <
            (d0.merge (d0.canon abc.1)
              (match abc.2.2 with | none => abc.2.1 | some cc => cc)).size
              (d0.canon abc.1) then none
          else attemptLoop w h maxsize sq f
            (d0.merge (d0.canon abc.1)
              (match abc.2.2 with | none => abc.2.1 | some cc => cc))) =
          some board := hb
      by_cases hcap : maxsize <
          (d0.merge (d0.canon abc.1)
            (match abc.2.2 with | none => abc.2.1 | some cc => cc)).size (d0.canon abc.1)
      · rw [if_pos hcap] at hb2
        cases hb2
      · rw [if_neg hcap] at hb2
        exact ih _ board hb2

theorem makeBoardGo_some (w h maxsize : Nat) (perms : Nat → List Nat) :
    ∀ (fuel k : Nat) (board : List Int),
      makeBoardGo w h maxsize perms fuel k = some board →
      ∃ k2, attemptLoop w h maxsize (perms k2) (w * h + 1) (dsfInit (w * h)) =
        some board := by
  intro fuel
  induction fuel with
  | zero =>
    intro k board hb
    cases hb
  | succ f ih =>
    intro k board hb
    unfold makeBoardGo at hb
    cases ha : attemptLoop w h maxsize (perms k) (w * h + 1) (dsfInit (w * h)) with
    | some b2 =>
      rw [ha] at hb
      exact ⟨k, by rw [ha, Option.some.inj hb]⟩
    | none =>
      rw [ha] at hb
      exact ih (k + 1) board hb

/-- C2: the generator hands a board out only after a full conflict scan
    found no two adjacent distinct sets of equal size (the claim's stated
    equivalent of the validity invariant).  Provided every shuffle the
    randomness oracle can produce visits every cell, a board returned by
    `makeBoard` is the size-map of a union-find state in which, for every
    cell and every in-range neighbour belonging to a different set, the two
    sets' sizes differ; each cell's value is the size of its own set, so
    adjacent cells of distinct sets also carry distinct values. -/
theorem c2_generator_validity (w h : Nat) (perms : Nat → List Nat)
    (hperm : ∀ k i, i < w * h → i ∈ perms k) (fuel : Nat) (board : List Int)
    (hm : makeBoard w h perms fuel = some board) :
    ∃ d : DSF,
      board = (List.range (w * h)).map (fun i => (d.size i : Int)) ∧
      ∀ cell, cell < w * h → ∀ k, k < 4 → ∀ nb, neighbor w h cell k = some nb →
        d.canon cell ≠ d.canon nb →
        d.size (d.canon cell) ≠ d.size (d.canon nb) := by
  obtain ⟨k2, ha⟩ := makeBoardGo_some w h (maxsizeOf w h) perms fuel 0 board hm
  obtain ⟨d, hv, hmap⟩ := attemptLoop_valid w h (maxsizeOf w h) (perms k2)
    (w * h + 1) (dsfInit (w * h)) board ha
  refine ⟨d, hmap, ?_⟩
  intro cell hcell k hk nb hnb hcan
  have hsc : scanCell d w h cell = none :=
    findSome?_none_all _ (perms k2) hv cell (hperm k2 cell hcell)
  exact scanCell_none_spec d w h cell hsc k hk nb hnb hcan

theorem c2_witness :
    ∃ d : DSF,
      ([3, 3, 3, 1] : List Int) = (List.range (2 * 2)).map (fun i => (d.size i : Int)) ∧
      ∀ cell, cell < 2 * 2 → ∀ k, k < 4 → ∀ nb, neighbor 2 2 cell k = some nb →
        d.canon cell ≠ d.canon nb →
        d.size (d.canon cell) ≠ d.size (d.canon nb) :=
  c2_generator_validity 2 2 (fun _ => [0, 1, 2, 3])
    (fun _ i hi => by
      show i ∈ [0, 1, 2, 3]
      interval_cases i <;> decide) 1 [3, 3, 3, 1] (by decide)

/-- C7 (amended): the repaired conflict is the one reported for the first
    conflicting cell in the *shuffled* scan order `sq` — not ascending cell
    index (the claim's scan order must be corrected); no cell scanned
    before it records any conflict.  The reported pair is `a = canon cell`
    together with `b`, the canonical set of an in-range neighbour of the
    cell with `a ≠ b` and equal set sizes (the last such neighbour in
    direction order), and the third set `c`, when present, is the
    canonical set of a neighbour of the same cell, distinct from `a`, whose
    size differs from the conflicting pair's common size. -/
theorem c7_repair_scan_characterisation (d : DSF) (w h : Nat) (sq : List Nat)
    (a b : Nat) (c : Option Nat)
    (hv : validateBoard d w h sq = some (a, b, c)) :
    ∃ pre cell post, sq = pre ++ cell :: post ∧
      (∀ x ∈ pre, scanCell d w h x = none) ∧
      scanCell d w h cell = some (a, b, c) ∧
      a = d.canon cell ∧
      (∃ k nb, k < 4 ∧ neighbor w h cell k = some nb ∧ b = d.canon nb ∧ a ≠ b ∧
        d.size a = d.size b) ∧
      (∀ cc, c = some cc → ∃ k nb, k < 4 ∧ neighbor w h cell k = some nb ∧
        cc = d.canon nb ∧ a ≠ cc ∧ d.size a ≠ d.size cc) := by
  obtain ⟨pre, cell, post, hsq, hpre, hcell⟩ :=
    findSome?_first (fun c2 => scanCell d w h c2) sq (a, b, c) hv
  obtain ⟨h1, h2, h3⟩ := scanCell_spec d w h cell a b c hcell
  exact ⟨pre, cell, post, hsq, hpre, hcell, h1, h2, h3⟩

theorem c7_amended_witness :
    ∃ pre cell post, ([1, 0, 2, 3] : List Nat) = pre ++ cell :: post ∧
      (∀ x ∈ pre, scanCell (dsfInit 4) 2 2 x = none) ∧
      scanCell (dsfInit 4) 2 2 cell = some (1, 3, none) ∧
      1 = (dsfInit 4).canon cell ∧
      (∃ k nb, k < 4 ∧ neighbor 2 2 cell k = some nb ∧ 3 = (dsfInit 4).canon nb ∧
        1 ≠ 3 ∧ (dsfInit 4).size 1 = (dsfInit 4).size 3) ∧
      (∀ cc, (none : Option Nat) = some cc →
        ∃ k nb, k < 4 ∧ neighbor 2 2 cell k = some nb ∧
        cc = (dsfInit 4).canon nb ∧ 1 ≠ cc ∧ (dsfInit 4).size 1 ≠ (dsfInit 4).size cc) :=
  c7_repair_scan_characterisation (dsfInit 4) 2 2 [1, 0, 2, 3] 1 3 none (by decide)

set_option maxRecDepth 4000 in
theorem hrange49 : List.range (7 * 7) = [0, 1, 2, 3, 4, 5, 6, 7, 8, 9, 10, 11, 12,
    13, 14, 15, 16, 17, 18, 19, 20, 21, 22, 23, 24, 25, 26, 27, 28, 29, 30, 31, 32,
    33, 34, 35, 36, 37, 38, 39, 40, 41, 42, 43, 44, 45, 46, 47, 48] := by rfl

theorem onePass_eq (w h : Nat) (s : SState) :
    onePass w h s =
      (List.range (w * h)).foldl (cellStep w h) ⟨s.board, s.dsf, s.conn, s.nempty, false⟩ := rfl

theorem foldl_step {α β : Type} {f : α → β → α} {X Y : α} {i : β} (rest : List β)
    (h : f X i = Y) : List.foldl f X (i :: rest) = List.foldl f Y rest := by
  rw [List.foldl_cons, h]

theorem solverLoop_succ_true (w h fuel : Nat) (s s1 : SState)
    (h1 : onePass w h s = s1) (h2 : (s1.learn && !(s1.nempty == 0)) = true) :
    solverLoop w h (fuel + 1) s = solverLoop w h fuel s1 := by
  show (let t := onePass w h s;
        if t.learn && !(t.nempty == 0) then solverLoop w h fuel t else t) = _
  rw [h1]
  show (if s1.learn && !(s1.nempty == 0) then solverLoop w h fuel s1 else s1) = _
  rw [h2]
  simp

theorem solverLoop_succ_false (w h fuel : Nat) (s s1 : SState)
    (h1 : onePass w h s = s1) (h2 : (s1.learn && !(s1.nempty == 0)) = false) :
    solverLoop w h (fuel + 1) s = s1 := by
  show (let t := onePass w h s;
        if t.learn && !(t.nempty == 0) then solverLoop w h fuel t else t) = _
  rw [h1]
  show (if s1.learn && !(s1.nempty == 0) then solverLoop w h fuel s1 else s1) = _
  rw [h2]
  simp


set_option maxRecDepth 100000 in
theorem c9r0 : (⟨c9S0.board, c9S0.dsf, c9S0.conn, c9S0.nempty, false⟩ : SState) = c9S0 := by rfl
set_option maxRecDepth 100000 in
theorem c9c0x0 : cellStep 7 7 c9S0 0 = c9S0 := by rfl
set_option maxRecDepth 100000 in
theorem c9c0x1 : cellStep 7 7 c9S0 1 = c9S1 := by rfl
set_option maxRecDepth 100000 in
theorem c9c0x2 : cellStep 7 7 c9S1 2 = c9S2 := by rfl
set_option maxRecDepth 100000 in
theorem c9c0x3 : cellStep 7 7 c9S2 3 = c9S3 := by rfl
set_option maxRecDepth 100000 in
theorem c9c0x4 : cellStep 7 7 c9S3 4 = c9S3 := by rfl
set_option maxRecDepth 100000 in
theorem c9c0x5 : cellStep 7 7 c9S3 5 = c9S3 := by rfl
set_option maxRecDepth 100000 in
theorem c9c0x6 : cellStep 7 7 c9S3 6 = c9S4 := by rfl
set_option maxRecDepth 100000 in
theorem c9c0x7 : cellStep 7 7 c9S4 7 = c9S4 := by rfl
set_option maxRecDepth 100000 in
theorem c9c0x8 : cellStep 7 7 c9S4 8 = c9S4 := by rfl
set_option maxRecDepth 100000 in
theorem c9c0x9 : cellStep 7 7 c9S4 9 = c9S5 := by rfl
set_option maxRecDepth 100000 in
theorem c9c0x10 : cellStep 7 7 c9S5 10 = c9S5 := by rfl
set_option maxRecDepth 100000 in
theorem c9c0x11 : cellStep 7 7 c9S5 11 = c9S5 := by rfl
set_option maxRecDepth 100000 in
theorem c9c0x12 : cellStep 7 7 c9S5 12 = c9S5 := by rfl
set_option maxRecDepth 100000 in
theorem c9c0x13 : cellStep 7 7 c9S5 13 = c9S5 := by rfl
set_option maxRecDepth 100000 in
theorem c9c0x14 : cellStep 7 7 c9S5 14 = c9S5 := by rfl
set_option maxRecDepth 100000 in
theorem c9c0x15 : cellStep 7 7 c9S5 15 = c9S5 := by rfl
set_option maxRecDepth 100000 in
theorem c9c0x16 : cellStep 7 7 c9S5 16 = c9S5 := by rfl
set_option maxRecDepth 100000 in
theorem c9c0x17 : cellStep 7 7 c9S5 17 = c9S5 := by rfl
set_option maxRecDepth 100000 in
theorem c9c0x18 : cellStep 7 7 c9S5 18 = c9S5 := by rfl
set_option maxRecDepth 100000 in
theorem c9c0x19 : cellStep 7 7 c9S5 19 = c9S5 := by rfl
set_option maxRecDepth 100000 in
theorem c9c0x20 : cellStep 7 7 c9S5 20 = c9S5 := by rfl
set_option maxRecDepth 100000 in
theorem c9c0x21 : cellStep 7 7 c9S5 21 = c9S5 := by rfl
set_option maxRecDepth 100000 in
theorem c9c0x22 : cellStep 7 7 c9S5 22 = c9S6 := by rfl
set_option maxRecDepth 100000 in
theorem c9c0x23 : cellStep 7 7 c9S6 23 = c9S6 := by rfl
set_option maxRecDepth 100000 in
theorem c9c0x24 : cellStep 7 7 c9S6 24 = c9S6 := by rfl
set_option maxRecDepth 100000 in
theorem c9c0x25 : cellStep 7 7 c9S6 25 = c9S6 := by rfl
set_option maxRecDepth 100000 in
theorem c9c0x26 : cellStep 7 7 c9S6 26 = c9S6 := by rfl
set_option maxRecDepth 100000 in
theorem c9c0x27 : cellStep 7 7 c9S6 27 = c9S6 := by rfl
set_option maxRecDepth 100000 in
theorem c9c0x28 : cellStep 7 7 c9S6 28 = c9S7 := by rfl
set_option maxRecDepth 100000 in
theorem c9c0x29 : cellStep 7 7 c9S7 29 = c9S7 := by rfl
set_option maxRecDepth 100000 in
theorem c9c0x30 : cellStep 7 7 c9S7 30 = c9S7 := by rfl
set_option maxRecDepth 100000 in
theorem c9c0x31 : cellStep 7 7 c9S7 31 = c9S7 := by rfl
set_option maxRecDepth 100000 in
theorem c9c0x32 : cellStep 7 7 c9S7 32 = c9S7 := by rfl
set_option maxRecDepth 100000 in
theorem c9c0x33 : cellStep 7 7 c9S7 33 = c9S7 := by rfl
set_option maxRecDepth 100000 in
theorem c9c0x34 : cellStep 7 7 c9S7 34 = c9S7 := by rfl
set_option maxRecDepth 100000 in
theorem c9c0x35 : cellStep 7 7 c9S7 35 = c9S7 := by rfl
set_option maxRecDepth 100000 in
theorem c9c0x36 : cellStep 7 7 c9S7 36 = c9S7 := by rfl
set_option maxRecDepth 100000 in
theorem c9c0x37 : cellStep 7 7 c9S7 37 = c9S7 := by rfl
set_option maxRecDepth 100000 in
theorem c9c0x38 : cellStep 7 7 c9S7 38 = c9S7 := by rfl
set_option maxRecDepth 100000 in
theorem c9c0x39 : cellStep 7 7 c9S7 39 = c9S7 := by rfl
set_option maxRecDepth 100000 in
theorem c9c0x40 : cellStep 7 7 c9S7 40 = c9S7 := by rfl
set_option maxRecDepth 100000 in
theorem c9c0x41 : cellStep 7 7 c9S7 41 = c9S7 := by rfl
set_option maxRecDepth 100000 in
theorem c9c0x42 : cellStep 7 7 c9S7 42 = c9S8 := by rfl
set_option maxRecDepth 100000 in
theorem c9c0x43 : cellStep 7 7 c9S8 43 = c9S9 := by rfl
set_option maxRecDepth 100000 in
theorem c9c0x44 : cellStep 7 7 c9S9 44 = c9S9 := by rfl
set_option maxRecDepth 100000 in
theorem c9c0x45 : cellStep 7 7 c9S9 45 = c9S10 := by rfl
set_option maxRecDepth 100000 in
theorem c9c0x46 : cellStep 7 7 c9S10 46 = c9S11 := by rfl
set_option maxRecDepth 100000 in
theorem c9c0x47 : cellStep 7 7 c9S11 47 = c9S11 := by rfl
set_option maxRecDepth 100000 in
theorem c9c0x48 : cellStep 7 7 c9S11 48 = c9S12 := by rfl
set_option maxRecDepth 100000 in
theorem c9p0 : onePass 7 7 c9S0 = c9S12 := by
  rw [onePass_eq, c9r0, hrange49]
  exact (foldl_step _ c9c0x0).trans ((foldl_step _ c9c0x1).trans ((foldl_step _ c9c0x2).trans ((foldl_step _ c9c0x3).trans ((foldl_step _ c9c0x4).trans ((foldl_step _ c9c0x5).trans ((foldl_step _ c9c0x6).trans ((foldl_step _ c9c0x7).trans ((foldl_step _ c9c0x8).trans ((foldl_step _ c9c0x9).trans ((foldl_step _ c9c0x10).trans ((foldl_step _ c9c0x11).trans ((foldl_step _ c9c0x12).trans ((foldl_step _ c9c0x13).trans ((foldl_step _ c9c0x14).trans ((foldl_step _ c9c0x15).trans ((foldl_step _ c9c0x16).trans ((foldl_step _ c9c0x17).trans ((foldl_step _ c9c0x18).trans ((foldl_step _ c9c0x19).trans ((foldl_step _ c9c0x20).trans ((foldl_step _ c9c0x21).trans ((foldl_step _ c9c0x22).trans ((foldl_step _ c9c0x23).trans ((foldl_step _ c9c0x24).trans ((foldl_step _ c9c0x25).trans ((foldl_step _ c9c0x26).trans ((foldl_step _ c9c0x27).trans ((foldl_step _ c9c0x28).trans ((foldl_step _ c9c0x29).trans ((foldl_step _ c9c0x30).trans ((foldl_step _ c9c0x31).trans ((foldl_step _ c9c0x32).trans ((foldl_step _ c9c0x33).trans ((foldl_step _ c9c0x34).trans ((foldl_step _ c9c0x35).trans ((foldl_step _ c9c0x36).trans ((foldl_step _ c9c0x37).trans ((foldl_step _ c9c0x38).trans ((foldl_step _ c9c0x39).trans ((foldl_step _ c9c0x40).trans ((foldl_step _ c9c0x41).trans ((foldl_step _ c9c0x42).trans ((foldl_step _ c9c0x43).trans ((foldl_step _ c9c0x44).trans ((foldl_step _ c9c0x45).trans ((foldl_step _ c9c0x46).trans ((foldl_step _ c9c0x47).trans ((foldl_step _ c9c0x48).trans (List.foldl_nil)))))))))))))))))))))))))))))))))))))))))))))))))
set_option maxRecDepth 100000 in
theorem c9r1 : (⟨c9S12.board, c9S12.dsf, c9S12.conn, c9S12.nempty, false⟩ : SState) = c9S13 := by rfl
set_option maxRecDepth 100000 in
theorem c9c1x0 : cellStep 7 7 c9S13 0 = c9S13 := by rfl
set_option maxRecDepth 100000 in
theorem c9c1x1 : cellStep 7 7 c9S13 1 = c9S13 := by rfl
set_option maxRecDepth 100000 in
theorem c9c1x2 : cellStep 7 7 c9S13 2 = c9S13 := by rfl
set_option maxRecDepth 100000 in
theorem c9c1x3 : cellStep 7 7 c9S13 3 = c9S13 := by rfl
set_option maxRecDepth 100000 in
theorem c9c1x4 : cellStep 7 7 c9S13 4 = c9S13 := by rfl
set_option maxRecDepth 100000 in
theorem c9c1x5 : cellStep 7 7 c9S13 5 = c9S13 := by rfl
set_option maxRecDepth 100000 in
theorem c9c1x6 : cellStep 7 7 c9S13 6 = c9S13 := by rfl
set_option maxRecDepth 100000 in
theorem c9c1x7 : cellStep 7 7 c9S13 7 = c9S14 := by rfl
set_option maxRecDepth 100000 in
theorem c9c1x8 : cellStep 7 7 c9S14 8 = c9S14 := by rfl
set_option maxRecDepth 100000 in
theorem c9c1x9 : cellStep 7 7 c9S14 9 = c9S14 := by rfl
set_option maxRecDepth 100000 in
theorem c9c1x10 : cellStep 7 7 c9S14 10 = c9S14 := by rfl
set_option maxRecDepth 100000 in
theorem c9c1x11 : cellStep 7 7 c9S14 11 = c9S14 := by rfl
set_option maxRecDepth 100000 in
theorem c9c1x12 : cellStep 7 7 c9S14 12 = c9S14 := by rfl
set_option maxRecDepth 100000 in
theorem c9c1x13 : cellStep 7 7 c9S14 13 = c9S14 := by rfl
set_option maxRecDepth 100000 in
theorem c9c1x14 : cellStep 7 7 c9S14 14 = c9S14 := by rfl
set_option maxRecDepth 100000 in
theorem c9c1x15 : cellStep 7 7 c9S14 15 = c9S14 := by rfl
set_option maxRecDepth 100000 in
theorem c9c1x16 : cellStep 7 7 c9S14 16 = c9S14 := by rfl
set_option maxRecDepth 100000 in
theorem c9c1x17 : cellStep 7 7 c9S14 17 = c9S14 := by rfl
set_option maxRecDepth 100000 in
theorem c9c1x18 : cellStep 7 7 c9S14 18 = c9S14 := by rfl
set_option maxRecDepth 100000 in
theorem c9c1x19 : cellStep 7 7 c9S14 19 = c9S14 := by rfl
set_option maxRecDepth 100000 in
theorem c9c1x20 : cellStep 7 7 c9S14 20 = c9S14 := by rfl
set_option maxRecDepth 100000 in
theorem c9c1x21 : cellStep 7 7 c9S14 21 = c9S15 := by rfl
set_option maxRecDepth 100000 in
theorem c9c1x22 : cellStep 7 7 c9S15 22 = c9S15 := by rfl
set_option maxRecDepth 100000 in
theorem c9c1x23 : cellStep 7 7 c9S15 23 = c9S15 := by rfl
set_option maxRecDepth 100000 in
theorem c9c1x24 : cellStep 7 7 c9S15 24 = c9S15 := by rfl
set_option maxRecDepth 100000 in
theorem c9c1x25 : cellStep 7 7 c9S15 25 = c9S15 := by rfl
set_option maxRecDepth 100000 in
theorem c9c1x26 : cellStep 7 7 c9S15 26 = c9S15 := by rfl
set_option maxRecDepth 100000 in
theorem c9c1x27 : cellStep 7 7 c9S15 27 = c9S15 := by rfl
set_option maxRecDepth 100000 in
theorem c9c1x28 : cellStep 7 7 c9S15 28 = c9S15 := by rfl
set_option maxRecDepth 100000 in
theorem c9c1x29 : cellStep 7 7 c9S15 29 = c9S15 := by rfl
set_option maxRecDepth 100000 in
theorem c9c1x30 : cellStep 7 7 c9S15 30 = c9S15 := by rfl
set_option maxRecDepth 100000 in
theorem c9c1x31 : cellStep 7 7 c9S15 31 = c9S15 := by rfl
set_option maxRecDepth 100000 in
theorem c9c1x32 : cellStep 7 7 c9S15 32 = c9S15 := by rfl
set_option maxRecDepth 100000 in
theorem c9c1x33 : cellStep 7 7 c9S15 33 = c9S16 := by rfl
set_option maxRecDepth 100000 in
theorem c9c1x34 : cellStep 7 7 c9S16 34 = c9S16 := by rfl
set_option maxRecDepth 100000 in
theorem c9c1x35 : cellStep 7 7 c9S16 35 = c9S16 := by rfl
set_option maxRecDepth 100000 in
theorem c9c1x36 : cellStep 7 7 c9S16 36 = c9S16 := by rfl
set_option maxRecDepth 100000 in
theorem c9c1x37 : cellStep 7 7 c9S16 37 = c9S17 := by rfl
set_option maxRecDepth 100000 in
theorem c9c1x38 : cellStep 7 7 c9S17 38 = c9S17 := by rfl
set_option maxRecDepth 100000 in
theorem c9c1x39 : cellStep 7 7 c9S17 39 = c9S17 := by rfl
set_option maxRecDepth 100000 in
theorem c9c1x40 : cellStep 7 7 c9S17 40 = c9S17 := by rfl
set_option maxRecDepth 100000 in
theorem c9c1x41 : cellStep 7 7 c9S17 41 = c9S17 := by rfl
set_option maxRecDepth 100000 in
theorem c9c1x42 : cellStep 7 7 c9S17 42 = c9S17 := by rfl
set_option maxRecDepth 100000 in
theorem c9c1x43 : cellStep 7 7 c9S17 43 = c9S17 := by rfl
set_option maxRecDepth 100000 in
theorem c9c1x44 : cellStep 7 7 c9S17 44 = c9S17 := by rfl
set_option maxRecDepth 100000 in
theorem c9c1x45 : cellStep 7 7 c9S17 45 = c9S17 := by rfl
set_option maxRecDepth 100000 in
theorem c9c1x46 : cellStep 7 7 c9S17 46 = c9S17 := by rfl
set_option maxRecDepth 100000 in
theorem c9c1x47 : cellStep 7 7 c9S17 47 = c9S17 := by rfl
set_option maxRecDepth 100000 in
theorem c9c1x48 : cellStep 7 7 c9S17 48 = c9S17 := by rfl
set_option maxRecDepth 100000 in
theorem c9p1 : onePass 7 7 c9S12 = c9S17 := by
  rw [onePass_eq, c9r1, hrange49]
  exact (foldl_step _ c9c1x0).trans ((foldl_step _ c9c1x1).trans ((foldl_step _ c9c1x2).trans ((foldl_step _ c9c1x3).trans ((foldl_step _ c9c1x4).trans ((foldl_step _ c9c1x5).trans ((foldl_step _ c9c1x6).trans ((foldl_step _ c9c1x7).trans ((foldl_step _ c9c1x8).trans ((foldl_step _ c9c1x9).trans ((foldl_step _ c9c1x10).trans ((foldl_step _ c9c1x11).trans ((foldl_step _ c9c1x12).trans ((foldl_step _ c9c1x13).trans ((foldl_step _ c9c1x14).trans ((foldl_step _ c9c1x15).trans ((foldl_step _ c9c1x16).trans ((foldl_step _ c9c1x17).trans ((foldl_step _ c9c1x18).trans ((foldl_step _ c9c1x19).trans ((foldl_step _ c9c1x20).trans ((foldl_step _ c9c1x21).trans ((foldl_step _ c9c1x22).trans ((foldl_step _ c9c1x23).trans ((foldl_step _ c9c1x24).trans ((foldl_step _ c9c1x25).trans ((foldl_step _ c9c1x26).trans ((foldl_step _ c9c1x27).trans ((foldl_step _ c9c1x28).trans ((foldl_step _ c9c1x29).trans ((foldl_step _ c9c1x30).trans ((foldl_step _ c9c1x31).trans ((foldl_step _ c9c1x32).trans ((foldl_step _ c9c1x33).trans ((foldl_step _ c9c1x34).trans ((foldl_step _ c9c1x35).trans ((foldl_step _ c9c1x36).trans ((foldl_step _ c9c1x37).trans ((foldl_step _ c9c1x38).trans ((foldl_step _ c9c1x39).trans ((foldl_step _ c9c1x40).trans ((foldl_step _ c9c1x41).trans ((foldl_step _ c9c1x42).trans ((foldl_step _ c9c1x43).trans ((foldl_step _ c9c1x44).trans ((foldl_step _ c9c1x45).trans ((foldl_step _ c9c1x46).trans ((foldl_step _ c9c1x47).trans ((foldl_step _ c9c1x48).trans (List.foldl_nil)))))))))))))))))))))))))))))))))))))))))))))))))
set_option maxRecDepth 100000 in
theorem c9r2 : (⟨c9S17.board, c9S17.dsf, c9S17.conn, c9S17.nempty, false⟩ : SState) = c9S18 := by rfl
set_option maxRecDepth 100000 in
theorem c9c2x0 : cellStep 7 7 c9S18 0 = c9S18 := by rfl
set_option maxRecDepth 100000 in
theorem c9c2x1 : cellStep 7 7 c9S18 1 = c9S18 := by rfl
set_option maxRecDepth 100000 in
theorem c9c2x2 : cellStep 7 7 c9S18 2 = c9S18 := by rfl
set_option maxRecDepth 100000 in
theorem c9c2x3 : cellStep 7 7 c9S18 3 = c9S18 := by rfl
set_option maxRecDepth 100000 in
theorem c9c2x4 : cellStep 7 7 c9S18 4 = c9S18 := by rfl
set_option maxRecDepth 100000 in
theorem c9c2x5 : cellStep 7 7 c9S18 5 = c9S18 := by rfl
set_option maxRecDepth 100000 in
theorem c9c2x6 : cellStep 7 7 c9S18 6 = c9S18 := by rfl
set_option maxRecDepth 100000 in
theorem c9c2x7 : cellStep 7 7 c9S18 7 = c9S18 := by rfl
set_option maxRecDepth 100000 in
theorem c9c2x8 : cellStep 7 7 c9S18 8 = c9S18 := by rfl
set_option maxRecDepth 100000 in
theorem c9c2x9 : cellStep 7 7 c9S18 9 = c9S18 := by rfl
set_option maxRecDepth 100000 in
theorem c9c2x10 : cellStep 7 7 c9S18 10 = c9S18 := by rfl
set_option maxRecDepth 100000 in
theorem c9c2x11 : cellStep 7 7 c9S18 11 = c9S18 := by rfl
set_option maxRecDepth 100000 in
theorem c9c2x12 : cellStep 7 7 c9S18 12 = c9S18 := by rfl
set_option maxRecDepth 100000 in
theorem c9c2x13 : cellStep 7 7 c9S18 13 = c9S18 := by rfl
set_option maxRecDepth 100000 in
theorem c9c2x14 : cellStep 7 7 c9S18 14 = c9S18 := by rfl
set_option maxRecDepth 100000 in
theorem c9c2x15 : cellStep 7 7 c9S18 15 = c9S18 := by rfl
set_option maxRecDepth 100000 in
theorem c9c2x16 : cellStep 7 7 c9S18 16 = c9S18 := by rfl
set_option maxRecDepth 100000 in
theorem c9c2x17 : cellStep 7 7 c9S18 17 = c9S18 := by rfl
set_option maxRecDepth 100000 in
theorem c9c2x18 : cellStep 7 7 c9S18 18 = c9S18 := by rfl
set_option maxRecDepth 100000 in
theorem c9c2x19 : cellStep 7 7 c9S18 19 = c9S18 := by rfl
set_option maxRecDepth 100000 in
theorem c9c2x20 : cellStep 7 7 c9S18 20 = c9S18 := by rfl
set_option maxRecDepth 100000 in
theorem c9c2x21 : cellStep 7 7 c9S18 21 = c9S18 := by rfl
set_option maxRecDepth 100000 in
theorem c9c2x22 : cellStep 7 7 c9S18 22 = c9S18 := by rfl
set_option maxRecDepth 100000 in
theorem c9c2x23 : cellStep 7 7 c9S18 23 = c9S18 := by rfl
set_option maxRecDepth 100000 in
theorem c9c2x24 : cellStep 7 7 c9S18 24 = c9S18 := by rfl
set_option maxRecDepth 100000 in
theorem c9c2x25 : cellStep 7 7 c9S18 25 = c9S18 := by rfl
set_option maxRecDepth 100000 in
theorem c9c2x26 : cellStep 7 7 c9S18 26 = c9S18 := by rfl
set_option maxRecDepth 100000 in
theorem c9c2x27 : cellStep 7 7 c9S18 27 = c9S18 := by rfl
set_option maxRecDepth 100000 in
theorem c9c2x28 : cellStep 7 7 c9S18 28 = c9S18 := by rfl
set_option maxRecDepth 100000 in
theorem c9c2x29 : cellStep 7 7 c9S18 29 = c9S19 := by rfl
set_option maxRecDepth 100000 in
theorem c9c2x30 : cellStep 7 7 c9S19 30 = c9S20 := by rfl
set_option maxRecDepth 100000 in
theorem c9c2x31 : cellStep 7 7 c9S20 31 = c9S21 := by rfl
set_option maxRecDepth 100000 in
theorem c9c2x32 : cellStep 7 7 c9S21 32 = c9S22 := by rfl
set_option maxRecDepth 100000 in
theorem c9c2x33 : cellStep 7 7 c9S22 33 = c9S22 := by rfl
set_option maxRecDepth 100000 in
theorem c9c2x34 : cellStep 7 7 c9S22 34 = c9S22 := by rfl
set_option maxRecDepth 100000 in
theorem c9c2x35 : cellStep 7 7 c9S22 35 = c9S22 := by rfl
set_option maxRecDepth 100000 in
theorem c9c2x36 : cellStep 7 7 c9S22 36 = c9S22 := by rfl
set_option maxRecDepth 100000 in
theorem c9c2x37 : cellStep 7 7 c9S22 37 = c9S22 := by rfl
set_option maxRecDepth 100000 in
theorem c9c2x38 : cellStep 7 7 c9S22 38 = c9S22 := by rfl
set_option maxRecDepth 100000 in
theorem c9c2x39 : cellStep 7 7 c9S22 39 = c9S22 := by rfl
set_option maxRecDepth 100000 in
theorem c9c2x40 : cellStep 7 7 c9S22 40 = c9S22 := by rfl
set_option maxRecDepth 100000 in
theorem c9c2x41 : cellStep 7 7 c9S22 41 = c9S22 := by rfl
set_option maxRecDepth 100000 in
theorem c9c2x42 : cellStep 7 7 c9S22 42 = c9S22 := by rfl
set_option maxRecDepth 100000 in
theorem c9c2x43 : cellStep 7 7 c9S22 43 = c9S22 := by rfl
set_option maxRecDepth 100000 in
theorem c9c2x44 : cellStep 7 7 c9S22 44 = c9S22 := by rfl
set_option maxRecDepth 100000 in
theorem c9c2x45 : cellStep 7 7 c9S22 45 = c9S22 := by rfl
set_option maxRecDepth 100000 in
theorem c9c2x46 : cellStep 7 7 c9S22 46 = c9S22 := by rfl
set_option maxRecDepth 100000 in
theorem c9c2x47 : cellStep 7 7 c9S22 47 = c9S23 := by rfl
set_option maxRecDepth 100000 in
theorem c9c2x48 : cellStep 7 7 c9S23 48 = c9S23 := by rfl
set_option maxRecDepth 100000 in
theorem c9p2 : onePass 7 7 c9S17 = c9S23 := by
  rw [onePass_eq, c9r2, hrange49]
  exact (foldl_step _ c9c2x0).trans ((foldl_step _ c9c2x1).trans ((foldl_step _ c9c2x2).trans ((foldl_step _ c9c2x3).trans ((foldl_step _ c9c2x4).trans ((foldl_step _ c9c2x5).trans ((foldl_step _ c9c2x6).trans ((foldl_step _ c9c2x7).trans ((foldl_step _ c9c2x8).trans ((foldl_step _ c9c2x9).trans ((foldl_step _ c9c2x10).trans ((foldl_step _ c9c2x11).trans ((foldl_step _ c9c2x12).trans ((foldl_step _ c9c2x13).trans ((foldl_step _ c9c2x14).trans ((foldl_step _ c9c2x15).trans ((foldl_step _ c9c2x16).trans ((foldl_step _ c9c2x17).trans ((foldl_step _ c9c2x18).trans ((foldl_step _ c9c2x19).trans ((foldl_step _ c9c2x20).trans ((foldl_step _ c9c2x21).trans ((foldl_step _ c9c2x22).trans ((foldl_step _ c9c2x23).trans ((foldl_step _ c9c2x24).trans ((foldl_step _ c9c2x25).trans ((foldl_step _ c9c2x26).trans ((foldl_step _ c9c2x27).trans ((foldl_step _ c9c2x28).trans ((foldl_step _ c9c2x29).trans ((foldl_step _ c9c2x30).trans ((foldl_step _ c9c2x31).trans ((foldl_step _ c9c2x32).trans ((foldl_step _ c9c2x33).trans ((foldl_step _ c9c2x34).trans ((foldl_step _ c9c2x35).trans ((foldl_step _ c9c2x36).trans ((foldl_step _ c9c2x37).trans ((foldl_step _ c9c2x38).trans ((foldl_step _ c9c2x39).trans ((foldl_step _ c9c2x40).trans ((foldl_step _ c9c2x41).trans ((foldl_step _ c9c2x42).trans ((foldl_step _ c9c2x43).trans ((foldl_step _ c9c2x44).trans ((foldl_step _ c9c2x45).trans ((foldl_step _ c9c2x46).trans ((foldl_step _ c9c2x47).trans ((foldl_step _ c9c2x48).trans (List.foldl_nil)))))))))))))))))))))))))))))))))))))))))))))))))
set_option maxRecDepth 100000 in
theorem c9r3 : (⟨c9S23.board, c9S23.dsf, c9S23.conn, c9S23.nempty, false⟩ : SState) = c9S24 := by rfl
set_option maxRecDepth 100000 in
theorem c9c3x0 : cellStep 7 7 c9S24 0 = c9S24 := by rfl
set_option maxRecDepth 100000 in
theorem c9c3x1 : cellStep 7 7 c9S24 1 = c9S24 := by rfl
set_option maxRecDepth 100000 in
theorem c9c3x2 : cellStep 7 7 c9S24 2 = c9S24 := by rfl
set_option maxRecDepth 100000 in
theorem c9c3x3 : cellStep 7 7 c9S24 3 = c9S24 := by rfl
set_option maxRecDepth 100000 in
theorem c9c3x4 : cellStep 7 7 c9S24 4 = c9S24 := by rfl
set_option maxRecDepth 100000 in
theorem c9c3x5 : cellStep 7 7 c9S24 5 = c9S24 := by rfl
set_option maxRecDepth 100000 in
theorem c9c3x6 : cellStep 7 7 c9S24 6 = c9S24 := by rfl
set_option maxRecDepth 100000 in
theorem c9c3x7 : cellStep 7 7 c9S24 7 = c9S24 := by rfl
set_option maxRecDepth 100000 in
theorem c9c3x8 : cellStep 7 7 c9S24 8 = c9S24 := by rfl
set_option maxRecDepth 100000 in
theorem c9c3x9 : cellStep 7 7 c9S24 9 = c9S24 := by rfl
set_option maxRecDepth 100000 in
theorem c9c3x10 : cellStep 7 7 c9S24 10 = c9S24 := by rfl
set_option maxRecDepth 100000 in
theorem c9c3x11 : cellStep 7 7 c9S24 11 = c9S24 := by rfl
set_option maxRecDepth 100000 in
theorem c9c3x12 : cellStep 7 7 c9S24 12 = c9S24 := by rfl
set_option maxRecDepth 100000 in
theorem c9c3x13 : cellStep 7 7 c9S24 13 = c9S24 := by rfl
set_option maxRecDepth 100000 in
theorem c9c3x14 : cellStep 7 7 c9S24 14 = c9S24 := by rfl
set_option maxRecDepth 100000 in
theorem c9c3x15 : cellStep 7 7 c9S24 15 = c9S24 := by rfl
set_option maxRecDepth 100000 in
theorem c9c3x16 : cellStep 7 7 c9S24 16 = c9S24 := by rfl
set_option maxRecDepth 100000 in
theorem c9c3x17 : cellStep 7 7 c9S24 17 = c9S24 := by rfl
set_option maxRecDepth 100000 in
theorem c9c3x18 : cellStep 7 7 c9S24 18 = c9S24 := by rfl
set_option maxRecDepth 100000 in
theorem c9c3x19 : cellStep 7 7 c9S24 19 = c9S24 := by rfl
set_option maxRecDepth 100000 in
theorem c9c3x20 : cellStep 7 7 c9S24 20 = c9S24 := by rfl
set_option maxRecDepth 100000 in
theorem c9c3x21 : cellStep 7 7 c9S24 21 = c9S24 := by rfl
set_option maxRecDepth 100000 in
theorem c9c3x22 : cellStep 7 7 c9S24 22 = c9S24 := by rfl
set_option maxRecDepth 100000 in
theorem c9c3x23 : cellStep 7 7 c9S24 23 = c9S24 := by rfl
set_option maxRecDepth 100000 in
theorem c9c3x24 : cellStep 7 7 c9S24 24 = c9S25 := by rfl
set_option maxRecDepth 100000 in
theorem c9c3x25 : cellStep 7 7 c9S25 25 = c9S25 := by rfl
set_option maxRecDepth 100000 in
theorem c9c3x26 : cellStep 7 7 c9S25 26 = c9S25 := by rfl
set_option maxRecDepth 100000 in
theorem c9c3x27 : cellStep 7 7 c9S25 27 = c9S25 := by rfl
set_option maxRecDepth 100000 in
theorem c9c3x28 : cellStep 7 7 c9S25 28 = c9S25 := by rfl
set_option maxRecDepth 100000 in
theorem c9c3x29 : cellStep 7 7 c9S25 29 = c9S25 := by rfl
set_option maxRecDepth 100000 in
theorem c9c3x30 : cellStep 7 7 c9S25 30 = c9S25 := by rfl
set_option maxRecDepth 100000 in
theorem c9c3x31 : cellStep 7 7 c9S25 31 = c9S25 := by rfl
set_option maxRecDepth 100000 in
theorem c9c3x32 : cellStep 7 7 c9S25 32 = c9S25 := by rfl
set_option maxRecDepth 100000 in
theorem c9c3x33 : cellStep 7 7 c9S25 33 = c9S25 := by rfl
set_option maxRecDepth 100000 in
theorem c9c3x34 : cellStep 7 7 c9S25 34 = c9S25 := by rfl
set_option maxRecDepth 100000 in
theorem c9c3x35 : cellStep 7 7 c9S25 35 = c9S25 := by rfl
set_option maxRecDepth 100000 in
theorem c9c3x36 : cellStep 7 7 c9S25 36 = c9S25 := by rfl
set_option maxRecDepth 100000 in
theorem c9c3x37 : cellStep 7 7 c9S25 37 = c9S25 := by rfl
set_option maxRecDepth 100000 in
theorem c9c3x38 : cellStep 7 7 c9S25 38 = c9S25 := by rfl
set_option maxRecDepth 100000 in
theorem c9c3x39 : cellStep 7 7 c9S25 39 = c9S25 := by rfl
set_option maxRecDepth 100000 in
theorem c9c3x40 : cellStep 7 7 c9S25 40 = c9S25 := by rfl
set_option maxRecDepth 100000 in
theorem c9c3x41 : cellStep 7 7 c9S25 41 = c9S25 := by rfl
set_option maxRecDepth 100000 in
theorem c9c3x42 : cellStep 7 7 c9S25 42 = c9S25 := by rfl
set_option maxRecDepth 100000 in
theorem c9c3x43 : cellStep 7 7 c9S25 43 = c9S25 := by rfl
set_option maxRecDepth 100000 in
theorem c9c3x44 : cellStep 7 7 c9S25 44 = c9S25 := by rfl
set_option maxRecDepth 100000 in
theorem c9c3x45 : cellStep 7 7 c9S25 45 = c9S25 := by rfl
set_option maxRecDepth 100000 in
theorem c9c3x46 : cellStep 7 7 c9S25 46 = c9S25 := by rfl
set_option maxRecDepth 100000 in
theorem c9c3x47 : cellStep 7 7 c9S25 47 = c9S25 := by rfl
set_option maxRecDepth 100000 in
theorem c9c3x48 : cellStep 7 7 c9S25 48 = c9S25 := by rfl
set_option maxRecDepth 100000 in
theorem c9p3 : onePass 7 7 c9S23 = c9S25 := by
  rw [onePass_eq, c9r3, hrange49]
  exact (foldl_step _ c9c3x0).trans ((foldl_step _ c9c3x1).trans ((foldl_step _ c9c3x2).trans ((foldl_step _ c9c3x3).trans ((foldl_step _ c9c3x4).trans ((foldl_step _ c9c3x5).trans ((foldl_step _ c9c3x6).trans ((foldl_step _ c9c3x7).trans ((foldl_step _ c9c3x8).trans ((foldl_step _ c9c3x9).trans ((foldl_step _ c9c3x10).trans ((foldl_step _ c9c3x11).trans ((foldl_step _ c9c3x12).trans ((foldl_step _ c9c3x13).trans ((foldl_step _ c9c3x14).trans ((foldl_step _ c9c3x15).trans ((foldl_step _ c9c3x16).trans ((foldl_step _ c9c3x17).trans ((foldl_step _ c9c3x18).trans ((foldl_step _ c9c3x19).trans ((foldl_step _ c9c3x20).trans ((foldl_step _ c9c3x21).trans ((foldl_step _ c9c3x22).trans ((foldl_step _ c9c3x23).trans ((foldl_step _ c9c3x24).trans ((foldl_step _ c9c3x25).trans ((foldl_step _ c9c3x26).trans ((foldl_step _ c9c3x27).trans ((foldl_step _ c9c3x28).trans ((foldl_step _ c9c3x29).trans ((foldl_step _ c9c3x30).trans ((foldl_step _ c9c3x31).trans ((foldl_step _ c9c3x32).trans ((foldl_step _ c9c3x33).trans ((foldl_step _ c9c3x34).trans ((foldl_step _ c9c3x35).trans ((foldl_step _ c9c3x36).trans ((foldl_step _ c9c3x37).trans ((foldl_step _ c9c3x38).trans ((foldl_step _ c9c3x39).trans ((foldl_step _ c9c3x40).trans ((foldl_step _ c9c3x41).trans ((foldl_step _ c9c3x42).trans ((foldl_step _ c9c3x43).trans ((foldl_step _ c9c3x44).trans ((foldl_step _ c9c3x45).trans ((foldl_step _ c9c3x46).trans ((foldl_step _ c9c3x47).trans ((foldl_step _ c9c3x48).trans (List.foldl_nil)))))))))))))))))))))))))))))))))))))))))))))))))
set_option maxRecDepth 100000 in
theorem c9r4 : (⟨c9S25.board, c9S25.dsf, c9S25.conn, c9S25.nempty, false⟩ : SState) = c9S26 := by rfl
set_option maxRecDepth 100000 in
theorem c9c4x0 : cellStep 7 7 c9S26 0 = c9S26 := by rfl
set_option maxRecDepth 100000 in
theorem c9c4x1 : cellStep 7 7 c9S26 1 = c9S26 := by rfl
set_option maxRecDepth 100000 in
theorem c9c4x2 : cellStep 7 7 c9S26 2 = c9S26 := by rfl
set_option maxRecDepth 100000 in
theorem c9c4x3 : cellStep 7 7 c9S26 3 = c9S26 := by rfl
set_option maxRecDepth 100000 in
theorem c9c4x4 : cellStep 7 7 c9S26 4 = c9S26 := by rfl
set_option maxRecDepth 100000 in
theorem c9c4x5 : cellStep 7 7 c9S26 5 = c9S26 := by rfl
set_option maxRecDepth 100000 in
theorem c9c4x6 : cellStep 7 7 c9S26 6 = c9S26 := by rfl
set_option maxRecDepth 100000 in
theorem c9c4x7 : cellStep 7 7 c9S26 7 = c9S26 := by rfl
set_option maxRecDepth 100000 in
theorem c9c4x8 : cellStep 7 7 c9S26 8 = c9S26 := by rfl
set_option maxRecDepth 100000 in
theorem c9c4x9 : cellStep 7 7 c9S26 9 = c9S26 := by rfl
set_option maxRecDepth 100000 in
theorem c9c4x10 : cellStep 7 7 c9S26 10 = c9S26 := by rfl
set_option maxRecDepth 100000 in
theorem c9c4x11 : cellStep 7 7 c9S26 11 = c9S26 := by rfl
set_option maxRecDepth 100000 in
theorem c9c4x12 : cellStep 7 7 c9S26 12 = c9S26 := by rfl
set_option maxRecDepth 100000 in
theorem c9c4x13 : cellStep 7 7 c9S26 13 = c9S26 := by rfl
set_option maxRecDepth 100000 in
theorem c9c4x14 : cellStep 7 7 c9S26 14 = c9S26 := by rfl
set_option maxRecDepth 100000 in
theorem c9c4x15 : cellStep 7 7 c9S26 15 = c9S26 := by rfl
set_option maxRecDepth 100000 in
theorem c9c4x16 : cellStep 7 7 c9S26 16 = c9S27 := by rfl
set_option maxRecDepth 100000 in
theorem c9c4x17 : cellStep 7 7 c9S27 17 = c9S28 := by rfl
set_option maxRecDepth 100000 in
theorem c9c4x18 : cellStep 7 7 c9S28 18 = c9S28 := by rfl
set_option maxRecDepth 100000 in
theorem c9c4x19 : cellStep 7 7 c9S28 19 = c9S28 := by rfl
set_option maxRecDepth 100000 in
theorem c9c4x20 : cellStep 7 7 c9S28 20 = c9S28 := by rfl
set_option maxRecDepth 100000 in
theorem c9c4x21 : cellStep 7 7 c9S28 21 = c9S28 := by rfl
set_option maxRecDepth 100000 in
theorem c9c4x22 : cellStep 7 7 c9S28 22 = c9S28 := by rfl
set_option maxRecDepth 100000 in
theorem c9c4x23 : cellStep 7 7 c9S28 23 = c9S28 := by rfl
set_option maxRecDepth 100000 in
theorem c9c4x24 : cellStep 7 7 c9S28 24 = c9S28 := by rfl
set_option maxRecDepth 100000 in
theorem c9c4x25 : cellStep 7 7 c9S28 25 = c9S28 := by rfl
set_option maxRecDepth 100000 in
theorem c9c4x26 : cellStep 7 7 c9S28 26 = c9S28 := by rfl
set_option maxRecDepth 100000 in
theorem c9c4x27 : cellStep 7 7 c9S28 27 = c9S28 := by rfl
set_option maxRecDepth 100000 in
theorem c9c4x28 : cellStep 7 7 c9S28 28 = c9S28 := by rfl
set_option maxRecDepth 100000 in
theorem c9c4x29 : cellStep 7 7 c9S28 29 = c9S28 := by rfl
set_option maxRecDepth 100000 in
theorem c9c4x30 : cellStep 7 7 c9S28 30 = c9S28 := by rfl
set_option maxRecDepth 100000 in
theorem c9c4x31 : cellStep 7 7 c9S28 31 = c9S28 := by rfl
set_option maxRecDepth 100000 in
theorem c9c4x32 : cellStep 7 7 c9S28 32 = c9S28 := by rfl
set_option maxRecDepth 100000 in
theorem c9c4x33 : cellStep 7 7 c9S28 33 = c9S28 := by rfl
set_option maxRecDepth 100000 in
theorem c9c4x34 : cellStep 7 7 c9S28 34 = c9S28 := by rfl
set_option maxRecDepth 100000 in
theorem c9c4x35 : cellStep 7 7 c9S28 35 = c9S28 := by rfl
set_option maxRecDepth 100000 in
theorem c9c4x36 : cellStep 7 7 c9S28 36 = c9S28 := by rfl
set_option maxRecDepth 100000 in
theorem c9c4x37 : cellStep 7 7 c9S28 37 = c9S28 := by rfl
set_option maxRecDepth 100000 in
theorem c9c4x38 : cellStep 7 7 c9S28 38 = c9S28 := by rfl
set_option maxRecDepth 100000 in
theorem c9c4x39 : cellStep 7 7 c9S28 39 = c9S28 := by rfl
set_option maxRecDepth 100000 in
theorem c9c4x40 : cellStep 7 7 c9S28 40 = c9S28 := by rfl
set_option maxRecDepth 100000 in
theorem c9c4x41 : cellStep 7 7 c9S28 41 = c9S28 := by rfl
set_option maxRecDepth 100000 in
theorem c9c4x42 : cellStep 7 7 c9S28 42 = c9S28 := by rfl
set_option maxRecDepth 100000 in
theorem c9c4x43 : cellStep 7 7 c9S28 43 = c9S28 := by rfl
set_option maxRecDepth 100000 in
theorem c9c4x44 : cellStep 7 7 c9S28 44 = c9S28 := by rfl
set_option maxRecDepth 100000 in
theorem c9c4x45 : cellStep 7 7 c9S28 45 = c9S28 := by rfl
set_option maxRecDepth 100000 in
theorem c9c4x46 : cellStep 7 7 c9S28 46 = c9S28 := by rfl
set_option maxRecDepth 100000 in
theorem c9c4x47 : cellStep 7 7 c9S28 47 = c9S28 := by rfl
set_option maxRecDepth 100000 in
theorem c9c4x48 : cellStep 7 7 c9S28 48 = c9S28 := by rfl
set_option maxRecDepth 100000 in
theorem c9p4 : onePass 7 7 c9S25 = c9S28 := by
  rw [onePass_eq, c9r4, hrange49]
  exact (foldl_step _ c9c4x0).trans ((foldl_step _ c9c4x1).trans ((foldl_step _ c9c4x2).trans ((foldl_step _ c9c4x3).trans ((foldl_step _ c9c4x4).trans ((foldl_step _ c9c4x5).trans ((foldl_step _ c9c4x6).trans ((foldl_step _ c9c4x7).trans ((foldl_step _ c9c4x8).trans ((foldl_step _ c9c4x9).trans ((foldl_step _ c9c4x10).trans ((foldl_step _ c9c4x11).trans ((foldl_step _ c9c4x12).trans ((foldl_step _ c9c4x13).trans ((foldl_step _ c9c4x14).trans ((foldl_step _ c9c4x15).trans ((foldl_step _ c9c4x16).trans ((foldl_step _ c9c4x17).trans ((foldl_step _ c9c4x18).trans ((foldl_step _ c9c4x19).trans ((foldl_step _ c9c4x20).trans ((foldl_step _ c9c4x21).trans ((foldl_step _ c9c4x22).trans ((foldl_step _ c9c4x23).trans ((foldl_step _ c9c4x24).trans ((foldl_step _ c9c4x25).trans ((foldl_step _ c9c4x26).trans ((foldl_step _ c9c4x27).trans ((foldl_step _ c9c4x28).trans ((foldl_step _ c9c4x29).trans ((foldl_step _ c9c4x30).trans ((foldl_step _ c9c4x31).trans ((foldl_step _ c9c4x32).trans ((foldl_step _ c9c4x33).trans ((foldl_step _ c9c4x34).trans ((foldl_step _ c9c4x35).trans ((foldl_step _ c9c4x36).trans ((foldl_step _ c9c4x37).trans ((foldl_step _ c9c4x38).trans ((foldl_step _ c9c4x39).trans ((foldl_step _ c9c4x40).trans ((foldl_step _ c9c4x41).trans ((foldl_step _ c9c4x42).trans ((foldl_step _ c9c4x43).trans ((foldl_step _ c9c4x44).trans ((foldl_step _ c9c4x45).trans ((foldl_step _ c9c4x46).trans ((foldl_step _ c9c4x47).trans ((foldl_step _ c9c4x48).trans (List.foldl_nil)))))))))))))))))))))))))))))))))))))))))))))))))
set_option maxRecDepth 100000 in
theorem c9r5 : (⟨c9S28.board, c9S28.dsf, c9S28.conn, c9S28.nempty, false⟩ : SState) = c9S29 := by rfl
set_option maxRecDepth 100000 in
theorem c9c5x0 : cellStep 7 7 c9S29 0 = c9S29 := by rfl
set_option maxRecDepth 100000 in
theorem c9c5x1 : cellStep 7 7 c9S29 1 = c9S30 := by rfl
set_option maxRecDepth 100000 in
theorem c9c5x2 : cellStep 7 7 c9S30 2 = c9S30 := by rfl
set_option maxRecDepth 100000 in
theorem c9c5x3 : cellStep 7 7 c9S30 3 = c9S30 := by rfl
set_option maxRecDepth 100000 in
theorem c9c5x4 : cellStep 7 7 c9S30 4 = c9S30 := by rfl
set_option maxRecDepth 100000 in
theorem c9c5x5 : cellStep 7 7 c9S30 5 = c9S30 := by rfl
set_option maxRecDepth 100000 in
theorem c9c5x6 : cellStep 7 7 c9S30 6 = c9S30 := by rfl
set_option maxRecDepth 100000 in
theorem c9c5x7 : cellStep 7 7 c9S30 7 = c9S30 := by rfl
set_option maxRecDepth 100000 in
theorem c9c5x8 : cellStep 7 7 c9S30 8 = c9S30 := by rfl
set_option maxRecDepth 100000 in
theorem c9c5x9 : cellStep 7 7 c9S30 9 = c9S30 := by rfl
set_option maxRecDepth 100000 in
theorem c9c5x10 : cellStep 7 7 c9S30 10 = c9S30 := by rfl
set_option maxRecDepth 100000 in
theorem c9c5x11 : cellStep 7 7 c9S30 11 = c9S30 := by rfl
set_option maxRecDepth 100000 in
theorem c9c5x12 : cellStep 7 7 c9S30 12 = c9S30 := by rfl
set_option maxRecDepth 100000 in
theorem c9c5x13 : cellStep 7 7 c9S30 13 = c9S30 := by rfl
set_option maxRecDepth 100000 in
theorem c9c5x14 : cellStep 7 7 c9S30 14 = c9S30 := by rfl
set_option maxRecDepth 100000 in
theorem c9c5x15 : cellStep 7 7 c9S30 15 = c9S30 := by rfl
set_option maxRecDepth 100000 in
theorem c9c5x16 : cellStep 7 7 c9S30 16 = c9S30 := by rfl
set_option maxRecDepth 100000 in
theorem c9c5x17 : cellStep 7 7 c9S30 17 = c9S30 := by rfl
set_option maxRecDepth 100000 in
theorem c9c5x18 : cellStep 7 7 c9S30 18 = c9S30 := by rfl
set_option maxRecDepth 100000 in
theorem c9c5x19 : cellStep 7 7 c9S30 19 = c9S31 := by rfl
set_option maxRecDepth 100000 in
theorem c9c5x20 : cellStep 7 7 c9S31 20 = c9S31 := by rfl
set_option maxRecDepth 100000 in
theorem c9c5x21 : cellStep 7 7 c9S31 21 = c9S31 := by rfl
set_option maxRecDepth 100000 in
theorem c9c5x22 : cellStep 7 7 c9S31 22 = c9S31 := by rfl
set_option maxRecDepth 100000 in
theorem c9c5x23 : cellStep 7 7 c9S31 23 = c9S31 := by rfl
set_option maxRecDepth 100000 in
theorem c9c5x24 : cellStep 7 7 c9S31 24 = c9S31 := by rfl
set_option maxRecDepth 100000 in
theorem c9c5x25 : cellStep 7 7 c9S31 25 = c9S31 := by rfl
set_option maxRecDepth 100000 in
theorem c9c5x26 : cellStep 7 7 c9S31 26 = c9S32 := by rfl
set_option maxRecDepth 100000 in
theorem c9c5x27 : cellStep 7 7 c9S32 27 = c9S32 := by rfl
set_option maxRecDepth 100000 in
theorem c9c5x28 : cellStep 7 7 c9S32 28 = c9S32 := by rfl
set_option maxRecDepth 100000 in
theorem c9c5x29 : cellStep 7 7 c9S32 29 = c9S32 := by rfl
set_option maxRecDepth 100000 in
theorem c9c5x30 : cellStep 7 7 c9S32 30 = c9S32 := by rfl
set_option maxRecDepth 100000 in
theorem c9c5x31 : cellStep 7 7 c9S32 31 = c9S32 := by rfl
set_option maxRecDepth 100000 in
theorem c9c5x32 : cellStep 7 7 c9S32 32 = c9S32 := by rfl
set_option maxRecDepth 100000 in
theorem c9c5x33 : cellStep 7 7 c9S32 33 = c9S32 := by rfl
set_option maxRecDepth 100000 in
theorem c9c5x34 : cellStep 7 7 c9S32 34 = c9S32 := by rfl
set_option maxRecDepth 100000 in
theorem c9c5x35 : cellStep 7 7 c9S32 35 = c9S32 := by rfl
set_option maxRecDepth 100000 in
theorem c9c5x36 : cellStep 7 7 c9S32 36 = c9S32 := by rfl
set_option maxRecDepth 100000 in
theorem c9c5x37 : cellStep 7 7 c9S32 37 = c9S32 := by rfl
set_option maxRecDepth 100000 in
theorem c9c5x38 : cellStep 7 7 c9S32 38 = c9S32 := by rfl
set_option maxRecDepth 100000 in
theorem c9c5x39 : cellStep 7 7 c9S32 39 = c9S32 := by rfl
set_option maxRecDepth 100000 in
theorem c9c5x40 : cellStep 7 7 c9S32 40 = c9S32 := by rfl
set_option maxRecDepth 100000 in
theorem c9c5x41 : cellStep 7 7 c9S32 41 = c9S32 := by rfl
set_option maxRecDepth 100000 in
theorem c9c5x42 : cellStep 7 7 c9S32 42 = c9S32 := by rfl
set_option maxRecDepth 100000 in
theorem c9c5x43 : cellStep 7 7 c9S32 43 = c9S32 := by rfl
set_option maxRecDepth 100000 in
theorem c9c5x44 : cellStep 7 7 c9S32 44 = c9S32 := by rfl
set_option maxRecDepth 100000 in
theorem c9c5x45 : cellStep 7 7 c9S32 45 = c9S32 := by rfl
set_option maxRecDepth 100000 in
theorem c9c5x46 : cellStep 7 7 c9S32 46 = c9S32 := by rfl
set_option maxRecDepth 100000 in
theorem c9c5x47 : cellStep 7 7 c9S32 47 = c9S32 := by rfl
set_option maxRecDepth 100000 in
theorem c9c5x48 : cellStep 7 7 c9S32 48 = c9S32 := by rfl
set_option maxRecDepth 100000 in
theorem c9p5 : onePass 7 7 c9S28 = c9S32 := by
  rw [onePass_eq, c9r5, hrange49]
  exact (foldl_step _ c9c5x0).trans ((foldl_step _ c9c5x1).trans ((foldl_step _ c9c5x2).trans ((foldl_step _ c9c5x3).trans ((foldl_step _ c9c5x4).trans ((foldl_step _ c9c5x5).trans ((foldl_step _ c9c5x6).trans ((foldl_step _ c9c5x7).trans ((foldl_step _ c9c5x8).trans ((foldl_step _ c9c5x9).trans ((foldl_step _ c9c5x10).trans ((foldl_step _ c9c5x11).trans ((foldl_step _ c9c5x12).trans ((foldl_step _ c9c5x13).trans ((foldl_step _ c9c5x14).trans ((foldl_step _ c9c5x15).trans ((foldl_step _ c9c5x16).trans ((foldl_step _ c9c5x17).trans ((foldl_step _ c9c5x18).trans ((foldl_step _ c9c5x19).trans ((foldl_step _ c9c5x20).trans ((foldl_step _ c9c5x21).trans ((foldl_step _ c9c5x22).trans ((foldl_step _ c9c5x23).trans ((foldl_step _ c9c5x24).trans ((foldl_step _ c9c5x25).trans ((foldl_step _ c9c5x26).trans ((foldl_step _ c9c5x27).trans ((foldl_step _ c9c5x28).trans ((foldl_step _ c9c5x29).trans ((foldl_step _ c9c5x30).trans ((foldl_step _ c9c5x31).trans ((foldl_step _ c9c5x32).trans ((foldl_step _ c9c5x33).trans ((foldl_step _ c9c5x34).trans ((foldl_step _ c9c5x35).trans ((foldl_step _ c9c5x36).trans ((foldl_step _ c9c5x37).trans ((foldl_step _ c9c5x38).trans ((foldl_step _ c9c5x39).trans ((foldl_step _ c9c5x40).trans ((foldl_step _ c9c5x41).trans ((foldl_step _ c9c5x42).trans ((foldl_step _ c9c5x43).trans ((foldl_step _ c9c5x44).trans ((foldl_step _ c9c5x45).trans ((foldl_step _ c9c5x46).trans ((foldl_step _ c9c5x47).trans ((foldl_step _ c9c5x48).trans (List.foldl_nil)))))))))))))))))))))))))))))))))))))))))))))))))
set_option maxRecDepth 100000 in
theorem c9r6 : (⟨c9S32.board, c9S32.dsf, c9S32.conn, c9S32.nempty, false⟩ : SState) = c9S33 := by rfl
set_option maxRecDepth 100000 in
theorem c9c6x0 : cellStep 7 7 c9S33 0 = c9S33 := by rfl
set_option maxRecDepth 100000 in
theorem c9c6x1 : cellStep 7 7 c9S33 1 = c9S33 := by rfl
set_option maxRecDepth 100000 in
theorem c9c6x2 : cellStep 7 7 c9S33 2 = c9S33 := by rfl
set_option maxRecDepth 100000 in
theorem c9c6x3 : cellStep 7 7 c9S33 3 = c9S33 := by rfl
set_option maxRecDepth 100000 in
theorem c9c6x4 : cellStep 7 7 c9S33 4 = c9S33 := by rfl
set_option maxRecDepth 100000 in
theorem c9c6x5 : cellStep 7 7 c9S33 5 = c9S33 := by rfl
set_option maxRecDepth 100000 in
theorem c9c6x6 : cellStep 7 7 c9S33 6 = c9S33 := by rfl
set_option maxRecDepth 100000 in
theorem c9c6x7 : cellStep 7 7 c9S33 7 = c9S33 := by rfl
set_option maxRecDepth 100000 in
theorem c9c6x8 : cellStep 7 7 c9S33 8 = c9S33 := by rfl
set_option maxRecDepth 100000 in
theorem c9c6x9 : cellStep 7 7 c9S33 9 = c9S33 := by rfl
set_option maxRecDepth 100000 in
theorem c9c6x10 : cellStep 7 7 c9S33 10 = c9S33 := by rfl
set_option maxRecDepth 100000 in
theorem c9c6x11 : cellStep 7 7 c9S33 11 = c9S33 := by rfl
set_option maxRecDepth 100000 in
theorem c9c6x12 : cellStep 7 7 c9S33 12 = c9S33 := by rfl
set_option maxRecDepth 100000 in
theorem c9c6x13 : cellStep 7 7 c9S33 13 = c9S33 := by rfl
set_option maxRecDepth 100000 in
theorem c9c6x14 : cellStep 7 7 c9S33 14 = c9S33 := by rfl
set_option maxRecDepth 100000 in
theorem c9c6x15 : cellStep 7 7 c9S33 15 = c9S33 := by rfl
set_option maxRecDepth 100000 in
theorem c9c6x16 : cellStep 7 7 c9S33 16 = c9S33 := by rfl
set_option maxRecDepth 100000 in
theorem c9c6x17 : cellStep 7 7 c9S33 17 = c9S33 := by rfl
set_option maxRecDepth 100000 in
theorem c9c6x18 : cellStep 7 7 c9S33 18 = c9S34 := by rfl
set_option maxRecDepth 100000 in
theorem c9c6x19 : cellStep 7 7 c9S34 19 = c9S35 := by rfl
set_option maxRecDepth 100000 in
theorem c9c6x20 : cellStep 7 7 c9S35 20 = c9S35 := by rfl
set_option maxRecDepth 100000 in
theorem c9c6x21 : cellStep 7 7 c9S35 21 = c9S35 := by rfl
set_option maxRecDepth 100000 in
theorem c9c6x22 : cellStep 7 7 c9S35 22 = c9S35 := by rfl
set_option maxRecDepth 100000 in
theorem c9c6x23 : cellStep 7 7 c9S35 23 = c9S35 := by rfl
set_option maxRecDepth 100000 in
theorem c9c6x24 : cellStep 7 7 c9S35 24 = c9S35 := by rfl
set_option maxRecDepth 100000 in
theorem c9c6x25 : cellStep 7 7 c9S35 25 = c9S35 := by rfl
set_option maxRecDepth 100000 in
theorem c9c6x26 : cellStep 7 7 c9S35 26 = c9S35 := by rfl
set_option maxRecDepth 100000 in
theorem c9c6x27 : cellStep 7 7 c9S35 27 = c9S35 := by rfl
set_option maxRecDepth 100000 in
theorem c9c6x28 : cellStep 7 7 c9S35 28 = c9S35 := by rfl
set_option maxRecDepth 100000 in
theorem c9c6x29 : cellStep 7 7 c9S35 29 = c9S35 := by rfl
set_option maxRecDepth 100000 in
theorem c9c6x30 : cellStep 7 7 c9S35 30 = c9S35 := by rfl
set_option maxRecDepth 100000 in
theorem c9c6x31 : cellStep 7 7 c9S35 31 = c9S35 := by rfl
set_option maxRecDepth 100000 in
theorem c9c6x32 : cellStep 7 7 c9S35 32 = c9S35 := by rfl
set_option maxRecDepth 100000 in
theorem c9c6x33 : cellStep 7 7 c9S35 33 = c9S35 := by rfl
set_option maxRecDepth 100000 in
theorem c9c6x34 : cellStep 7 7 c9S35 34 = c9S35 := by rfl
set_option maxRecDepth 100000 in
theorem c9c6x35 : cellStep 7 7 c9S35 35 = c9S35 := by rfl
set_option maxRecDepth 100000 in
theorem c9c6x36 : cellStep 7 7 c9S35 36 = c9S35 := by rfl
set_option maxRecDepth 100000 in
theorem c9c6x37 : cellStep 7 7 c9S35 37 = c9S35 := by rfl
set_option maxRecDepth 100000 in
theorem c9c6x38 : cellStep 7 7 c9S35 38 = c9S35 := by rfl
set_option maxRecDepth 100000 in
theorem c9c6x39 : cellStep 7 7 c9S35 39 = c9S35 := by rfl
set_option maxRecDepth 100000 in
theorem c9c6x40 : cellStep 7 7 c9S35 40 = c9S35 := by rfl
set_option maxRecDepth 100000 in
theorem c9c6x41 : cellStep 7 7 c9S35 41 = c9S35 := by rfl
set_option maxRecDepth 100000 in
theorem c9c6x42 : cellStep 7 7 c9S35 42 = c9S35 := by rfl
set_option maxRecDepth 100000 in
theorem c9c6x43 : cellStep 7 7 c9S35 43 = c9S35 := by rfl
set_option maxRecDepth 100000 in
theorem c9c6x44 : cellStep 7 7 c9S35 44 = c9S35 := by rfl
set_option maxRecDepth 100000 in
theorem c9c6x45 : cellStep 7 7 c9S35 45 = c9S35 := by rfl
set_option maxRecDepth 100000 in
theorem c9c6x46 : cellStep 7 7 c9S35 46 = c9S35 := by rfl
set_option maxRecDepth 100000 in
theorem c9c6x47 : cellStep 7 7 c9S35 47 = c9S35 := by rfl
set_option maxRecDepth 100000 in
theorem c9c6x48 : cellStep 7 7 c9S35 48 = c9S35 := by rfl
set_option maxRecDepth 100000 in
theorem c9p6 : onePass 7 7 c9S32 = c9S35 := by
  rw [onePass_eq, c9r6, hrange49]
  exact (foldl_step _ c9c6x0).trans ((foldl_step _ c9c6x1).trans ((foldl_step _ c9c6x2).trans ((foldl_step _ c9c6x3).trans ((foldl_step _ c9c6x4).trans ((foldl_step _ c9c6x5).trans ((foldl_step _ c9c6x6).trans ((foldl_step _ c9c6x7).trans ((foldl_step _ c9c6x8).trans ((foldl_step _ c9c6x9).trans ((foldl_step _ c9c6x10).trans ((foldl_step _ c9c6x11).trans ((foldl_step _ c9c6x12).trans ((foldl_step _ c9c6x13).trans ((foldl_step _ c9c6x14).trans ((foldl_step _ c9c6x15).trans ((foldl_step _ c9c6x16).trans ((foldl_step _ c9c6x17).trans ((foldl_step _ c9c6x18).trans ((foldl_step _ c9c6x19).trans ((foldl_step _ c9c6x20).trans ((foldl_step _ c9c6x21).trans ((foldl_step _ c9c6x22).trans ((foldl_step _ c9c6x23).trans ((foldl_step _ c9c6x24).trans ((foldl_step _ c9c6x25).trans ((foldl_step _ c9c6x26).trans ((foldl_step _ c9c6x27).trans ((foldl_step _ c9c6x28).trans ((foldl_step _ c9c6x29).trans ((foldl_step _ c9c6x30).trans ((foldl_step _ c9c6x31).trans ((foldl_step _ c9c6x32).trans ((foldl_step _ c9c6x33).trans ((foldl_step _ c9c6x34).trans ((foldl_step _ c9c6x35).trans ((foldl_step _ c9c6x36).trans ((foldl_step _ c9c6x37).trans ((foldl_step _ c9c6x38).trans ((foldl_step _ c9c6x39).trans ((foldl_step _ c9c6x40).trans ((foldl_step _ c9c6x41).trans ((foldl_step _ c9c6x42).trans ((foldl_step _ c9c6x43).trans ((foldl_step _ c9c6x44).trans ((foldl_step _ c9c6x45).trans ((foldl_step _ c9c6x46).trans ((foldl_step _ c9c6x47).trans ((foldl_step _ c9c6x48).trans (List.foldl_nil)))))))))))))))))))))))))))))))))))))))))))))))))
set_option maxRecDepth 100000 in
theorem c9loopL : solverLoop 7 7 (7*7+1) c9S0 = c9S35 := by
  refine (solverLoop_succ_true 7 7 49 _ _ c9p0 (by rfl)).trans ?_
  refine (solverLoop_succ_true 7 7 48 _ _ c9p1 (by rfl)).trans ?_
  refine (solverLoop_succ_true 7 7 47 _ _ c9p2 (by rfl)).trans ?_
  refine (solverLoop_succ_true 7 7 46 _ _ c9p3 (by rfl)).trans ?_
  refine (solverLoop_succ_true 7 7 45 _ _ c9p4 (by rfl)).trans ?_
  refine (solverLoop_succ_true 7 7 44 _ _ c9p5 (by rfl)).trans ?_
  exact solverLoop_succ_false 7 7 43 _ _ c9p6 (by rfl)



set_option maxRecDepth 100000 in
theorem c9initL : solverInit (decodeDesc c9in) 7 7 = c9S0 := by rfl

set_option maxRecDepth 100000 in
/-- C9: on the 7×7 grid, the solver run on the board decoded from the clue
    string `c9in` succeeds and produces exactly the board decoded from
    `c9out`. -/
theorem c9_concrete : solver (decodeDesc c9in) 7 7 = (true, decodeDesc c9out) := by
  show (let s := solverLoop 7 7 (7*7+1) (solverInit (decodeDesc c9in) 7 7);
        ((s.nempty == 0 : Bool), s.board)) = _
  rw [c9initL, c9loopL]
  rfl

end Filling
